import Mathlib

/-!
Speculation-mitigation policy of arch/x86/kernel/cpu/bugs.c

A shallow embedding of the mitigation selectors, the option parsers, the
per-task speculation control and the sysfs status reporter, followed by the
properties proved about them.

Conventions of the embedding

* Global variables of the C file and the parts of `boot_cpu_data` it reads are
  fields of `State`; every C function that writes a global takes and returns a
  `State`.
* Calls that leave the file (MSR writes, `on_each_cpu`, `printk`,
  `speculation_ctrl_update*`) append an `Event` to `State.trace`, oldest first.
* `u64` values are natural numbers; the only operation of the file that could
  leave the 64-bit range is `~`, modelled by `not64`.
* Compile-time switches (`IS_ENABLED(...)`, `#ifdef`) are fields of `Kconfig`.
* `mutex_lock` / `mutex_unlock` have no sequential effect and are not modelled.
-/

namespace X86Bugs

/-! ## Capability bits, configuration, events -/

/-- Capability and bug bits tested by the file. The constructor `other n` stands for
any bit number the file does not name. -/
inductive X86Cap where
  | X86_FEATURE_MSR_SPEC_CTRL
  | X86_FEATURE_STIBP
  | X86_FEATURE_IBRS_ENHANCED
  | X86_FEATURE_LFENCE_RDTSC
  | X86_FEATURE_RETPOLINE
  | X86_FEATURE_RETPOLINE_AMD
  | X86_FEATURE_RSB_CTXSW
  | X86_FEATURE_IBPB
  | X86_FEATURE_USE_IBPB
  | X86_FEATURE_IBRS
  | X86_FEATURE_USE_IBRS_FW
  | X86_FEATURE_SSBD
  | X86_FEATURE_SPEC_CTRL_SSBD
  | X86_FEATURE_AMD_SSBD
  | X86_FEATURE_SPEC_STORE_BYPASS_DISABLE
  | X86_FEATURE_VIRT_SSBD
  | X86_FEATURE_LS_CFG_SSBD
  | X86_FEATURE_L1TF_PTEINV
  | X86_FEATURE_KAISER
  | X86_FEATURE_HYPERVISOR
  | X86_BUG_CPU_MELTDOWN
  | X86_BUG_SPECTRE_V1
  | X86_BUG_SPECTRE_V2
  | X86_BUG_SPEC_STORE_BYPASS
  | X86_BUG_L1TF
  | X86_BUG_MDS
  | X86_BUG_MSBDS_ONLY
  | X86_BUG_TAA
  | other (n : Nat)
  deriving DecidableEq, Repr

/-- Compile-time switches read by the file. `RETPOLINE` is the compiler-provided macro
tested by `retp_compiler` and by `#ifdef RETPOLINE`. -/
structure Kconfig where
  CONFIG_RETPOLINE : Bool
  RETPOLINE : Bool
  CONFIG_SECCOMP : Bool
  CONFIG_SMP : Bool
  CONFIG_PGTABLE_LEVELS : Nat
  CONFIG_HYPERVISOR_GUEST : Bool
  deriving DecidableEq, Repr

/-- Model-specific registers written by the file. -/
inductive Msr where
  | MSR_IA32_SPEC_CTRL
  | MSR_AMD64_VIRT_SPEC_CTRL
  | MSR_AMD64_LS_CFG
  deriving DecidableEq, Repr

/-- Effects that leave the file, in the order they are issued. -/
inductive Event where
  /-- The call `wrmsrl(msr, val)` on the executing processor. -/
  | wrmsrl (msr : Msr) (val : Nat)
  /-- The call `on_each_cpu(update_stibp_msr, NULL, 1)`: every processor writes `val`,
  the value of `x86_spec_ctrl_base` at the time of the call, to `MSR_IA32_SPEC_CTRL`. -/
  | on_each_cpu_update_stibp_msr (val : Nat)
  /-- The call `speculation_ctrl_update_current()`. -/
  | speculation_ctrl_update_current
  /-- The call `speculation_ctrl_update(tif)`; the argument records whether `_TIF_SSBD`
  is set in `tif`. -/
  | speculation_ctrl_update (tif_ssbd : Bool)
  /-- A `pr_info` / `pr_warn` / `pr_err` line, with the `pr_fmt` text in front. -/
  | printk (msg : String)
  deriving DecidableEq, Repr

/-! ## Enumerations of the file -/

/-- The kernel command line selection for Spectre v2 (`enum spectre_v2_mitigation_cmd`). -/
inductive spectre_v2_mitigation_cmd where
  | SPECTRE_V2_CMD_NONE
  | SPECTRE_V2_CMD_AUTO
  | SPECTRE_V2_CMD_FORCE
  | SPECTRE_V2_CMD_RETPOLINE
  | SPECTRE_V2_CMD_RETPOLINE_GENERIC
  | SPECTRE_V2_CMD_RETPOLINE_AMD
  deriving DecidableEq, Repr

/-- Modelled from the spec: `enum spectre_v2_mitigation` is declared in
asm/nospec-branch.h, which is not part of the sources; its members are the indices of
`spectre_v2_strings`. -/
inductive spectre_v2_mitigation where
  | SPECTRE_V2_NONE
  | SPECTRE_V2_RETPOLINE_MINIMAL
  | SPECTRE_V2_RETPOLINE_MINIMAL_AMD
  | SPECTRE_V2_RETPOLINE_GENERIC
  | SPECTRE_V2_RETPOLINE_AMD
  | SPECTRE_V2_IBRS_ENHANCED
  deriving DecidableEq, Repr

/-- The kernel command line selection for speculative store bypass
(`enum ssb_mitigation_cmd`). -/
inductive ssb_mitigation_cmd where
  | SPEC_STORE_BYPASS_CMD_NONE
  | SPEC_STORE_BYPASS_CMD_AUTO
  | SPEC_STORE_BYPASS_CMD_ON
  | SPEC_STORE_BYPASS_CMD_PRCTL
  | SPEC_STORE_BYPASS_CMD_SECCOMP
  deriving DecidableEq, Repr

/-- Modelled from the spec: `enum ssb_mitigation` is declared in asm/nospec-branch.h,
which is not part of the sources; its members are the indices of `ssb_strings`. -/
inductive ssb_mitigation where
  | SPEC_STORE_BYPASS_NONE
  | SPEC_STORE_BYPASS_DISABLE
  | SPEC_STORE_BYPASS_PRCTL
  | SPEC_STORE_BYPASS_SECCOMP
  deriving DecidableEq, Repr

open X86Cap spectre_v2_mitigation_cmd spectre_v2_mitigation ssb_mitigation_cmd ssb_mitigation

/-! ## Constants of headers outside the file -/

/-- Modelled from the spec: bit 0 of the control register, from asm/msr-index.h
(not part of the sources). -/
def SPEC_CTRL_IBRS : Nat := 1

/-- Modelled from the spec: bit 1 of the control register, the sibling-mitigation bit,
from asm/msr-index.h (not part of the sources). -/
def SPEC_CTRL_STIBP : Nat := 2

/-- Modelled from the spec: bit 2 of the control register (the source comment in
`__ssb_select_mitigation` speaks of SPEC CTRL MSR Bit(2)), from asm/msr-index.h
(not part of the sources). -/
def SPEC_CTRL_SSBD : Nat := 4

/-- Modelled from the spec: vendor number of AMD in asm/processor.h (not part of the
sources). -/
def X86_VENDOR_AMD : Nat := 2

/-- Modelled from the spec: the only speculation class of the runtime control API,
from uapi/linux/prctl.h (not part of the sources). -/
def PR_SPEC_STORE_BYPASS : Nat := 0

/-- Modelled from the spec: query result "not affected", from uapi/linux/prctl.h. -/
def PR_SPEC_NOT_AFFECTED : Nat := 0

/-- Modelled from the spec: query bit "per-task control available", from
uapi/linux/prctl.h. -/
def PR_SPEC_PRCTL : Nat := 1

/-- Modelled from the spec: action and query bit `Enable`, from uapi/linux/prctl.h. -/
def PR_SPEC_ENABLE : Nat := 2

/-- Modelled from the spec: action and query bit `Disable`, from uapi/linux/prctl.h. -/
def PR_SPEC_DISABLE : Nat := 4

/-- Modelled from the spec: action and query bit `ForceDisable`, from
uapi/linux/prctl.h. -/
def PR_SPEC_FORCE_DISABLE : Nat := 8

/-- Modelled from the spec: the permission error number of uapi/asm-generic/errno-base.h. -/
def EPERM : Int := 1

/-- Modelled from the spec: the unsupported-mode error number of
uapi/asm-generic/errno-base.h. -/
def ENXIO : Int := 6

/-- Modelled from the spec: the unknown-class error number of
uapi/asm-generic/errno-base.h. -/
def ENODEV : Int := 19

/-- Modelled from the spec: the invalid-argument error number of
uapi/asm-generic/errno-base.h. -/
def ERANGE : Int := 34

/-- The operator `~` on a `u64`. -/
def not64 (x : Nat) : Nat := 2 ^ 64 - 1 - x % 2 ^ 64

/-! ## State -/

/-- The boot command line as seen through the two lookups the file uses: `flags name`
is the result of `cmdline_find_option_bool`, and `options name` the text after
`name=`, when the option is there. -/
structure BootCmdline where
  flags : String → Bool
  options : String → Option (List Char)

/-- The fields of `struct cpuinfo_x86` read or written by the file. -/
structure cpuinfo_x86 where
  x86 : Nat
  x86_vendor : Nat
  x86_model : Nat
  x86_cache_bits : Nat
  x86_capability : X86Cap → Bool

/-- Per-task speculation state: the two atomic flags behind `task_spec_ssb_disable`
and `task_spec_ssb_force_disable`, and the thread-info flags the file touches. -/
structure task_struct where
  spec_ssb_disable : Bool
  spec_ssb_force_disable : Bool
  TIF_SPEC_FORCE_UPDATE : Bool
  TIF_SSBD : Bool
  TIF_SPEC_IB : Bool
  deriving DecidableEq, Repr

/-- Globals of the file, the inputs it reads from the rest of the kernel, and the trace
of the effects it issues. -/
structure State where
  boot_cpu_data : cpuinfo_x86
  /-- Bits passed to `setup_force_cpu_cap`, in call order. -/
  cpu_caps_set : List X86Cap
  boot_command_line : BootCmdline
  x86_spec_ctrl_base : Nat
  x86_spec_ctrl_mask : Nat
  x86_amd_ls_cfg_base : Nat
  x86_amd_ls_cfg_ssbd_mask : Nat
  spectre_v2_enabled : spectre_v2_mitigation
  spectre_v2_bad_module : Bool
  ssb_mode : ssb_mitigation
  /-- The static key `switch_to_cond_stibp`, defined outside the file. -/
  switch_to_cond_stibp : Bool
  /-- The memory-map oracle `e820_any_mapped(start, end, E820_RAM)`. -/
  e820_any_mapped : Nat → Nat → Bool
  /-- The text `mds_strings[mds_mitigation]`; table and variable are outside the file. -/
  mds_string : String
  /-- Whether `mds_mitigation == MDS_MITIGATION_OFF`. -/
  mds_mitigation_off : Bool
  /-- The text `taa_strings[taa_mitigation]`; table and variable are outside the file. -/
  taa_string : String
  /-- Whether `taa_mitigation` is `TAA_MITIGATION_TSX_DISABLED` or `TAA_MITIGATION_OFF`. -/
  taa_tsx_disabled_or_off : Bool
  /-- The result of `sched_smt_active()`. -/
  sched_smt_active : Bool
  tasks : Nat → task_struct
  /-- The task that is `current` on the executing processor. -/
  current : Nat
  trace : List Event

/-! ## Primitives -/

/-- The test `boot_cpu_has(bit)`. -/
def boot_cpu_has (s : State) (bit : X86Cap) : Bool := s.boot_cpu_data.x86_capability bit

/-- The test `boot_cpu_has_bug(bit)`, the same lookup as `boot_cpu_has`. -/
def boot_cpu_has_bug (s : State) (bit : X86Cap) : Bool := boot_cpu_has s bit

/-- The test `static_cpu_has(bit)`, which reads the capabilities of the boot processor. -/
def static_cpu_has (s : State) (bit : X86Cap) : Bool := boot_cpu_has s bit

/-- Modelled from the spec: `setup_force_cpu_cap` of asm/cpufeature.h (not part of the
sources) force-enables a capability flag: it sets the bit in `boot_cpu_data` and
records it in `cpu_caps_set`. -/
def setup_force_cpu_cap (s : State) (bit : X86Cap) : State :=
  { s with
    boot_cpu_data :=
      { s.boot_cpu_data with
        x86_capability := fun c => if c = bit then true else s.boot_cpu_data.x86_capability c }
    cpu_caps_set := s.cpu_caps_set ++ [bit] }

/-- Append an event to the trace. -/
def emit (s : State) (e : Event) : State := { s with trace := s.trace ++ [e] }

/-- The call `wrmsrl(msr, val)`. -/
def wrmsrl (s : State) (msr : Msr) (val : Nat) : State := emit s (Event.wrmsrl msr val)

/-- A diagnostic line (`pr_info`, `pr_warn`, `pr_err`). -/
def printk (s : State) (msg : String) : State := emit s (Event.printk msg)

/-! ## Option parser -/

/-- Modelled from the spec: `strlen` of the C library, on the characters before the
terminating NUL. -/
def strlen (s : List Char) : Nat := s.length

/-- Modelled from the spec: `strncmp` of lib/string.c (not part of the sources), on
NUL-terminated strings given by their characters before the NUL: compare at most
`count` characters, stop at the first difference or at a NUL. -/
def strncmp : List Char → List Char → Nat → Int
  | _, _, 0 => 0
  | cs, ct, count + 1 =>
    let c1 := cs.headD (Char.ofNat 0)
    let c2 := ct.headD (Char.ofNat 0)
    if c1 ≠ c2 then (if c1 < c2 then -1 else 1)
    else if c1 = Char.ofNat 0 then 0
    else strncmp cs.tail ct.tail count

/-- The helper `match_option(arg, arglen, opt)`. -/
def match_option (arg : List Char) (arglen : Int) (opt : List Char) : Bool :=
  let len : Int := (strlen opt : Nat)
  decide (len = arglen) && decide (strncmp arg opt len.toNat = 0)

/-- Modelled from the spec: `cmdline_find_option_bool` of arch/x86/lib/cmdline.c (not
part of the sources), `findBooleanFlag(name)`. -/
def cmdline_find_option_bool (cl : BootCmdline) (name : String) : Bool := cl.flags name

/-- Modelled from the spec: `cmdline_find_option` of arch/x86/lib/cmdline.c (not part
of the sources), `findOption(name)`: the result is -1 and an untouched buffer when the
option is absent, else the length of its text and the text cut to `bufsize - 1`
characters. -/
def cmdline_find_option (cl : BootCmdline) (name : String) (bufsize : Nat) :
    Int × List Char :=
  match cl.options name with
  | none => (-1, [])
  | some v => ((v.length : Nat), v.take (bufsize - 1))

/-- A row of `mitigation_options`. -/
structure mitigation_option where
  option : List Char
  cmd : spectre_v2_mitigation_cmd
  secure : Bool
  deriving DecidableEq, Repr

/-- The table `mitigation_options`. -/
def mitigation_options : List mitigation_option :=
  [ ⟨"off".toList, SPECTRE_V2_CMD_NONE, false⟩,
    ⟨"on".toList, SPECTRE_V2_CMD_FORCE, true⟩,
    ⟨"retpoline".toList, SPECTRE_V2_CMD_RETPOLINE, false⟩,
    ⟨"retpoline,amd".toList, SPECTRE_V2_CMD_RETPOLINE_AMD, false⟩,
    ⟨"retpoline,generic".toList, SPECTRE_V2_CMD_RETPOLINE_GENERIC, false⟩,
    ⟨"auto".toList, SPECTRE_V2_CMD_AUTO, false⟩ ]

/-- The helper `spec2_print_if_insecure`, with `pr_fmt` "Spectre V2 : ". -/
def spec2_print_if_insecure (s : State) (reason : List Char) : State :=
  if boot_cpu_has_bug s X86_BUG_SPECTRE_V2 then
    printk s ("Spectre V2 : " ++ String.mk reason ++ " selected on command line.\n")
  else s

/-- The helper `spec2_print_if_secure`, with `pr_fmt` "Spectre V2 : ". -/
def spec2_print_if_secure (s : State) (reason : List Char) : State :=
  if !boot_cpu_has_bug s X86_BUG_SPECTRE_V2 then
    printk s ("Spectre V2 : " ++ String.mk reason ++ " selected on command line.\n")
  else s

/-- The helper `retp_compiler`. -/
def retp_compiler (cfg : Kconfig) : Bool := cfg.RETPOLINE

/-- The parser `spectre_v2_parse_cmdline`. The scan of the table is `List.find?`: the
result `none` is the loop running off the end (`i >= ARRAY_SIZE`), `some o` is the
row at which the loop breaks. -/
def spectre_v2_parse_cmdline (cfg : Kconfig) (s : State) :
    State × spectre_v2_mitigation_cmd :=
  if cmdline_find_option_bool s.boot_command_line "nospectre_v2" then
    (s, SPECTRE_V2_CMD_NONE)
  else
    let r := cmdline_find_option s.boot_command_line "spectre_v2" 20
    if r.1 < 0 then (s, SPECTRE_V2_CMD_AUTO)
    else
      match mitigation_options.find? (fun o => match_option r.2 r.1 o.option) with
      | none =>
        (printk s ("Spectre V2 : unknown option (" ++ String.mk r.2 ++
            "). Switching to AUTO select\n"), SPECTRE_V2_CMD_AUTO)
      | some o =>
        if (o.cmd = SPECTRE_V2_CMD_RETPOLINE ∨ o.cmd = SPECTRE_V2_CMD_RETPOLINE_AMD ∨
            o.cmd = SPECTRE_V2_CMD_RETPOLINE_GENERIC) ∧ cfg.CONFIG_RETPOLINE = false then
          (printk s ("Spectre V2 : " ++ String.mk o.option ++
              " selected but not compiled in. Switching to AUTO select\n"),
            SPECTRE_V2_CMD_AUTO)
        else if o.cmd = SPECTRE_V2_CMD_RETPOLINE_AMD ∧
            s.boot_cpu_data.x86_vendor ≠ X86_VENDOR_AMD then
          (printk s ("Spectre V2 : retpoline,amd selected but CPU is not AMD. " ++
              "Switching to AUTO select\n"), SPECTRE_V2_CMD_AUTO)
        else
          (if o.secure then spec2_print_if_secure s o.option
            else spec2_print_if_insecure s o.option, o.cmd)

/-- A row of `ssb_mitigation_options`. -/
structure ssb_mitigation_option where
  option : List Char
  cmd : ssb_mitigation_cmd
  deriving DecidableEq, Repr

/-- The table `ssb_mitigation_options`. -/
def ssb_mitigation_options : List ssb_mitigation_option :=
  [ ⟨"auto".toList, SPEC_STORE_BYPASS_CMD_AUTO⟩,
    ⟨"on".toList, SPEC_STORE_BYPASS_CMD_ON⟩,
    ⟨"off".toList, SPEC_STORE_BYPASS_CMD_NONE⟩,
    ⟨"prctl".toList, SPEC_STORE_BYPASS_CMD_PRCTL⟩,
    ⟨"seccomp".toList, SPEC_STORE_BYPASS_CMD_SECCOMP⟩ ]

/-- The parser `ssb_parse_cmdline`, with `pr_fmt` "Speculative Store Bypass: ". -/
def ssb_parse_cmdline (s : State) : State × ssb_mitigation_cmd :=
  if cmdline_find_option_bool s.boot_command_line "nospec_store_bypass_disable" then
    (s, SPEC_STORE_BYPASS_CMD_NONE)
  else
    let r := cmdline_find_option s.boot_command_line "spec_store_bypass_disable" 20
    if r.1 < 0 then (s, SPEC_STORE_BYPASS_CMD_AUTO)
    else
      match ssb_mitigation_options.find? (fun o => match_option r.2 r.1 o.option) with
      | none =>
        (printk s ("Speculative Store Bypass: unknown option (" ++ String.mk r.2 ++
            "). Switching to AUTO select\n"), SPEC_STORE_BYPASS_CMD_AUTO)
      | some o => (s, o.cmd)

/-! ## Spectre v2 selector and SMT reconciliation -/

/-- The table `spectre_v2_strings`. -/
def spectre_v2_strings : spectre_v2_mitigation → String
  | SPECTRE_V2_NONE => "Vulnerable"
  | SPECTRE_V2_RETPOLINE_MINIMAL => "Vulnerable: Minimal generic ASM retpoline"
  | SPECTRE_V2_RETPOLINE_MINIMAL_AMD => "Vulnerable: Minimal AMD ASM retpoline"
  | SPECTRE_V2_RETPOLINE_GENERIC => "Mitigation: Full generic retpoline"
  | SPECTRE_V2_RETPOLINE_AMD => "Mitigation: Full AMD retpoline"
  | SPECTRE_V2_IBRS_ENHANCED => "Mitigation: Enhanced IBRS"

/-- The function `retpoline_module_ok`, compiled only under `#ifdef RETPOLINE`. -/
def retpoline_module_ok (s : State) (has_retpoline : Bool) : State × Bool :=
  if s.spectre_v2_enabled = SPECTRE_V2_NONE ∨ has_retpoline = true then (s, true)
  else
    ({ printk s "Spectre V2 : System may be vulnerable to spectre v2\n" with
        spectre_v2_bad_module := true }, false)

/-- The helper `spectre_v2_module_string`, in both of its `#ifdef RETPOLINE` variants. -/
def spectre_v2_module_string (cfg : Kconfig) (s : State) : String :=
  if cfg.RETPOLINE then
    (if s.spectre_v2_bad_module then " - vulnerable module loaded" else "")
  else ""

/-- The helper `stibp_needed`. -/
def stibp_needed (s : State) : Bool :=
  if s.spectre_v2_enabled = SPECTRE_V2_NONE then false
  else if s.spectre_v2_enabled = SPECTRE_V2_IBRS_ENHANCED then false
  else if !boot_cpu_has s X86_FEATURE_STIBP then false
  else true

/-- The SMT reconciliation `arch_smt_update`. -/
def arch_smt_update (cfg : Kconfig) (s : State) : State :=
  if !stibp_needed s then s
  else
    let mask :=
      if cfg.CONFIG_SMP then s.x86_spec_ctrl_base ||| SPEC_CTRL_STIBP
      else s.x86_spec_ctrl_base &&& not64 SPEC_CTRL_STIBP
    if mask ≠ s.x86_spec_ctrl_base then
      let s1 := printk s ("Spectre V2 : Spectre v2 cross-process SMT mitigation: " ++
        (if cfg.CONFIG_SMP then "Enabling" else "Disabling") ++ " STIBP\n")
      let s2 := { s1 with x86_spec_ctrl_base := mask }
      emit s2 (Event.on_each_cpu_update_stibp_msr s2.x86_spec_ctrl_base)
    else s

/-- The tail of `spectre_v2_select_mitigation` from the label `specv2_set_mode` on. -/
def specv2_set_mode (cfg : Kconfig) (s : State) (mode : spectre_v2_mitigation) : State :=
  let s1 := { s with spectre_v2_enabled := mode }
  let s2 := printk s1 ("Spectre V2 : " ++ spectre_v2_strings mode ++ "\n")
  let s3 := setup_force_cpu_cap s2 X86_FEATURE_RSB_CTXSW
  let s4 := printk s3
    "Spectre V2 : Spectre v2 / SpectreRSB mitigation: Filling RSB on context switch\n"
  let s5 :=
    if boot_cpu_has s4 X86_FEATURE_IBPB then
      printk (setup_force_cpu_cap s4 X86_FEATURE_USE_IBPB)
        "Spectre V2 : Spectre v2 mitigation: Enabling Indirect Branch Prediction Barrier\n"
    else s4
  let s6 :=
    if boot_cpu_has s5 X86_FEATURE_IBRS ∧ mode ≠ SPECTRE_V2_IBRS_ENHANCED then
      printk (setup_force_cpu_cap s5 X86_FEATURE_USE_IBRS_FW)
        "Spectre V2 : Enabling Restricted Speculation for firmware calls\n"
    else s5
  arch_smt_update cfg s6

/-- The code of `spectre_v2_select_mitigation` at the label `retpoline_generic`. -/
def retpoline_generic (cfg : Kconfig) (s : State) : State :=
  let mode := if retp_compiler cfg then SPECTRE_V2_RETPOLINE_GENERIC
    else SPECTRE_V2_RETPOLINE_MINIMAL
  specv2_set_mode cfg (setup_force_cpu_cap s X86_FEATURE_RETPOLINE) mode

/-- The code of `spectre_v2_select_mitigation` at the label `retpoline_amd`. -/
def retpoline_amd (cfg : Kconfig) (s : State) : State :=
  if !boot_cpu_has s X86_FEATURE_LFENCE_RDTSC then
    retpoline_generic cfg (printk s ("Spectre V2 : Spectre mitigation: LFENCE not " ++
      "serializing, switching to generic retpoline\n"))
  else
    let mode := if retp_compiler cfg then SPECTRE_V2_RETPOLINE_AMD
      else SPECTRE_V2_RETPOLINE_MINIMAL_AMD
    specv2_set_mode cfg
      (setup_force_cpu_cap (setup_force_cpu_cap s X86_FEATURE_RETPOLINE_AMD)
        X86_FEATURE_RETPOLINE) mode

/-- The code of `spectre_v2_select_mitigation` at the label `retpoline_auto`. -/
def retpoline_auto (cfg : Kconfig) (s : State) : State :=
  if s.boot_cpu_data.x86_vendor = X86_VENDOR_AMD then retpoline_amd cfg s
  else retpoline_generic cfg s

/-- The exit of `spectre_v2_select_mitigation` taken when the `switch` breaks. -/
def no_retpoline_available (s : State) : State :=
  printk s ("Spectre V2 : Spectre mitigation: kernel not compiled with retpoline; " ++
    "no mitigation available!")

/-- The body of `spectre_v2_select_mitigation` after the command has been parsed. -/
def spectre_v2_select_mitigation_cmd (cfg : Kconfig) (s : State)
    (cmd : spectre_v2_mitigation_cmd) : State :=
  if !boot_cpu_has_bug s X86_BUG_SPECTRE_V2 ∧
      (cmd = SPECTRE_V2_CMD_NONE ∨ cmd = SPECTRE_V2_CMD_AUTO) then s
  else
    match cmd with
    | SPECTRE_V2_CMD_NONE => s
    | SPECTRE_V2_CMD_FORCE | SPECTRE_V2_CMD_AUTO =>
      if boot_cpu_has s X86_FEATURE_IBRS_ENHANCED then
        let s1 := { s with x86_spec_ctrl_base := s.x86_spec_ctrl_base ||| SPEC_CTRL_IBRS }
        let s2 := wrmsrl s1 Msr.MSR_IA32_SPEC_CTRL s1.x86_spec_ctrl_base
        specv2_set_mode cfg s2 SPECTRE_V2_IBRS_ENHANCED
      else if cfg.CONFIG_RETPOLINE then retpoline_auto cfg s
      else no_retpoline_available s
    | SPECTRE_V2_CMD_RETPOLINE_AMD =>
      if cfg.CONFIG_RETPOLINE then retpoline_amd cfg s else no_retpoline_available s
    | SPECTRE_V2_CMD_RETPOLINE_GENERIC =>
      if cfg.CONFIG_RETPOLINE then retpoline_generic cfg s else no_retpoline_available s
    | SPECTRE_V2_CMD_RETPOLINE =>
      if cfg.CONFIG_RETPOLINE then retpoline_auto cfg s else no_retpoline_available s

/-- The selector `spectre_v2_select_mitigation`. -/
def spectre_v2_select_mitigation (cfg : Kconfig) (s : State) : State :=
  let r := spectre_v2_parse_cmdline cfg s
  spectre_v2_select_mitigation_cmd cfg r.1 r.2

/-! ## Store-bypass selector -/

/-- The table `ssb_strings`. -/
def ssb_strings : ssb_mitigation → String
  | SPEC_STORE_BYPASS_NONE => "Vulnerable"
  | SPEC_STORE_BYPASS_DISABLE => "Mitigation: Speculative Store Bypass disabled"
  | SPEC_STORE_BYPASS_PRCTL => "Mitigation: Speculative Store Bypass disabled via prctl"
  | SPEC_STORE_BYPASS_SECCOMP =>
    "Mitigation: Speculative Store Bypass disabled via prctl and seccomp"

/-- The helper `x86_amd_ssb_disable`. -/
def x86_amd_ssb_disable (s : State) : State :=
  let msrval := s.x86_amd_ls_cfg_base ||| s.x86_amd_ls_cfg_ssbd_mask
  if boot_cpu_has s X86_FEATURE_VIRT_SSBD then
    wrmsrl s Msr.MSR_AMD64_VIRT_SPEC_CTRL SPEC_CTRL_SSBD
  else if boot_cpu_has s X86_FEATURE_LS_CFG_SSBD then
    wrmsrl s Msr.MSR_AMD64_LS_CFG msrval
  else s

/-- The `switch (cmd)` of `__ssb_select_mitigation`. -/
def ssb_mode_of_cmd (cfg : Kconfig) : ssb_mitigation_cmd → ssb_mitigation
  | SPEC_STORE_BYPASS_CMD_AUTO | SPEC_STORE_BYPASS_CMD_SECCOMP =>
    if cfg.CONFIG_SECCOMP then SPEC_STORE_BYPASS_SECCOMP else SPEC_STORE_BYPASS_PRCTL
  | SPEC_STORE_BYPASS_CMD_ON => SPEC_STORE_BYPASS_DISABLE
  | SPEC_STORE_BYPASS_CMD_PRCTL => SPEC_STORE_BYPASS_PRCTL
  | SPEC_STORE_BYPASS_CMD_NONE => SPEC_STORE_BYPASS_NONE

/-- The function `__ssb_select_mitigation`: the state after the call and the mode it
returns. -/
def __ssb_select_mitigation (cfg : Kconfig) (s : State) : State × ssb_mitigation :=
  if !boot_cpu_has s X86_FEATURE_SSBD then (s, SPEC_STORE_BYPASS_NONE)
  else
    let r := ssb_parse_cmdline s
    let s0 := r.1
    let cmd := r.2
    if !boot_cpu_has_bug s0 X86_BUG_SPEC_STORE_BYPASS ∧
        (cmd = SPEC_STORE_BYPASS_CMD_NONE ∨ cmd = SPEC_STORE_BYPASS_CMD_AUTO) then
      (s0, SPEC_STORE_BYPASS_NONE)
    else
      let mode := ssb_mode_of_cmd cfg cmd
      let s1 :=
        if static_cpu_has s0 X86_FEATURE_SPEC_CTRL_SSBD ∨
            static_cpu_has s0 X86_FEATURE_AMD_SSBD then
          { s0 with x86_spec_ctrl_mask := s0.x86_spec_ctrl_mask ||| SPEC_CTRL_SSBD }
        else s0
      if mode = SPEC_STORE_BYPASS_DISABLE then
        let s2 := setup_force_cpu_cap s1 X86_FEATURE_SPEC_STORE_BYPASS_DISABLE
        if !static_cpu_has s2 X86_FEATURE_SPEC_CTRL_SSBD ∧
            !static_cpu_has s2 X86_FEATURE_AMD_SSBD then
          (x86_amd_ssb_disable s2, mode)
        else
          let s3 := { s2 with x86_spec_ctrl_base := s2.x86_spec_ctrl_base ||| SPEC_CTRL_SSBD }
          (wrmsrl s3 Msr.MSR_IA32_SPEC_CTRL s3.x86_spec_ctrl_base, mode)
      else (s1, mode)

/-- The selector `ssb_select_mitigation`, with `pr_fmt` "Speculative Store Bypass: ". -/
def ssb_select_mitigation (cfg : Kconfig) (s : State) : State :=
  let r := __ssb_select_mitigation cfg s
  let s1 := { r.1 with ssb_mode := r.2 }
  if boot_cpu_has_bug s1 X86_BUG_SPEC_STORE_BYPASS then
    printk s1 ("Speculative Store Bypass: " ++ ssb_strings s1.ssb_mode ++ "\n")
  else s1

/-! ## Per-task runtime control -/

/-- Apply `f` to the task `t`. -/
def update_task (s : State) (t : Nat) (f : task_struct → task_struct) : State :=
  { s with tasks := fun i => if i = t then f (s.tasks i) else s.tasks i }

/-- Modelled from the spec: `task_spec_ssb_disable` of linux/sched.h (not part of the
sources) reads the `disabled` flag of the task. -/
def task_spec_ssb_disable (s : State) (task : Nat) : Bool := (s.tasks task).spec_ssb_disable

/-- Modelled from the spec: `task_spec_ssb_force_disable` of linux/sched.h (not part of
the sources) reads the `force-disabled` flag of the task. -/
def task_spec_ssb_force_disable (s : State) (task : Nat) : Bool :=
  (s.tasks task).spec_ssb_force_disable

/-- Modelled from the spec: `task_set_spec_ssb_disable` of linux/sched.h (not part of
the sources) sets the `disabled` flag of the task. -/
def task_set_spec_ssb_disable (s : State) (task : Nat) : State :=
  update_task s task (fun t => { t with spec_ssb_disable := true })

/-- Modelled from the spec: `task_clear_spec_ssb_disable` of linux/sched.h (not part of
the sources) clears the `disabled` flag of the task. -/
def task_clear_spec_ssb_disable (s : State) (task : Nat) : State :=
  update_task s task (fun t => { t with spec_ssb_disable := false })

/-- Modelled from the spec: `task_set_spec_ssb_force_disable` of linux/sched.h (not part
of the sources) sets the `force-disabled` flag of the task. -/
def task_set_spec_ssb_force_disable (s : State) (task : Nat) : State :=
  update_task s task (fun t => { t with spec_ssb_force_disable := true })

/-- The helper `task_update_spec_tif`. The register update of the current task is the
event `speculation_ctrl_update_current`; what that function, which lives outside the
file, does to the thread flags afterwards is not part of the model. -/
def task_update_spec_tif (s : State) (tsk : Nat) : State :=
  let s1 := update_task s tsk (fun t => { t with TIF_SPEC_FORCE_UPDATE := true })
  if tsk = s1.current then emit s1 Event.speculation_ctrl_update_current else s1

/-- The function `ssb_prctl_set`: the state after the call and the value returned. -/
def ssb_prctl_set (s : State) (task : Nat) (ctrl : Nat) : State × Int :=
  if s.ssb_mode ≠ SPEC_STORE_BYPASS_PRCTL ∧ s.ssb_mode ≠ SPEC_STORE_BYPASS_SECCOMP then
    (s, - ENXIO)
  else if ctrl = PR_SPEC_ENABLE then
    if task_spec_ssb_force_disable s task then (s, -EPERM)
    else (task_update_spec_tif (task_clear_spec_ssb_disable s task) task, 0)
  else if ctrl = PR_SPEC_DISABLE then
    (task_update_spec_tif (task_set_spec_ssb_disable s task) task, 0)
  else if ctrl = PR_SPEC_FORCE_DISABLE then
    (task_update_spec_tif
      (task_set_spec_ssb_force_disable (task_set_spec_ssb_disable s task) task) task, 0)
  else (s, -ERANGE)

/-- The entry point `arch_prctl_spec_ctrl_set`. -/
def arch_prctl_spec_ctrl_set (s : State) (task : Nat) (which : Nat) (ctrl : Nat) :
    State × Int :=
  if which = PR_SPEC_STORE_BYPASS then ssb_prctl_set s task ctrl
  else (s, -ENODEV)

/-- The entry point `arch_seccomp_spec_mitigate`, compiled under `CONFIG_SECCOMP`. -/
def arch_seccomp_spec_mitigate (s : State) (task : Nat) : State :=
  if s.ssb_mode = SPEC_STORE_BYPASS_SECCOMP then
    (ssb_prctl_set s task PR_SPEC_FORCE_DISABLE).1
  else s

/-- The query `ssb_prctl_get`. -/
def ssb_prctl_get (s : State) (task : Nat) : Int :=
  match s.ssb_mode with
  | SPEC_STORE_BYPASS_DISABLE => (PR_SPEC_DISABLE : Nat)
  | SPEC_STORE_BYPASS_SECCOMP | SPEC_STORE_BYPASS_PRCTL =>
    if task_spec_ssb_force_disable s task then ((PR_SPEC_PRCTL ||| PR_SPEC_FORCE_DISABLE : Nat) : Int)
    else if task_spec_ssb_disable s task then ((PR_SPEC_PRCTL ||| PR_SPEC_DISABLE : Nat) : Int)
    else ((PR_SPEC_PRCTL ||| PR_SPEC_ENABLE : Nat) : Int)
  | SPEC_STORE_BYPASS_NONE =>
    if boot_cpu_has_bug s X86_BUG_SPEC_STORE_BYPASS then ((PR_SPEC_ENABLE : Nat) : Int)
    else ((PR_SPEC_NOT_AFFECTED : Nat) : Int)

/-- The entry point `arch_prctl_spec_ctrl_get`. -/
def arch_prctl_spec_ctrl_get (s : State) (task : Nat) (which : Nat) : Int :=
  if which = PR_SPEC_STORE_BYPASS then ssb_prctl_get s task
  else -ENODEV

/-- The function `x86_spec_ctrl_setup_ap`. -/
def x86_spec_ctrl_setup_ap (s : State) : State :=
  let s1 :=
    if boot_cpu_has s X86_FEATURE_MSR_SPEC_CTRL then
      wrmsrl s Msr.MSR_IA32_SPEC_CTRL s.x86_spec_ctrl_base
    else s
  if s1.ssb_mode = SPEC_STORE_BYPASS_DISABLE then x86_amd_ssb_disable s1 else s1

/-! ## Virtualization passthrough -/

/-- Modelled from the spec: `ssbd_tif_to_spec_ctrl` of asm/spec-ctrl.h (not part of the
sources) moves the `TIF_SSBD` thread flag to the `SPEC_CTRL_SSBD` bit position. -/
def ssbd_tif_to_spec_ctrl (ti : task_struct) : Nat :=
  if ti.TIF_SSBD then SPEC_CTRL_SSBD else 0

/-- Modelled from the spec: `stibp_tif_to_spec_ctrl` of asm/spec-ctrl.h (not part of the
sources) moves the `TIF_SPEC_IB` thread flag to the `SPEC_CTRL_STIBP` bit position. -/
def stibp_tif_to_spec_ctrl (ti : task_struct) : Nat :=
  if ti.TIF_SPEC_IB then SPEC_CTRL_STIBP else 0

/-- Modelled from the spec: `ssbd_spec_ctrl_to_tif` of asm/spec-ctrl.h (not part of the
sources) moves the `SPEC_CTRL_SSBD` bit to the `TIF_SSBD` position; the result says
whether `_TIF_SSBD` is set in the thread-flag word. -/
def ssbd_spec_ctrl_to_tif (spec_ctrl : Nat) : Bool :=
  decide (spec_ctrl &&& SPEC_CTRL_SSBD ≠ 0)

/-- The value `guestval` of the first half of `x86_virt_spec_ctrl`. -/
def virt_guestval (s : State) (guest_spec_ctrl : Nat) : Nat :=
  (s.x86_spec_ctrl_base &&& not64 s.x86_spec_ctrl_mask) |||
    (guest_spec_ctrl &&& s.x86_spec_ctrl_mask)

/-- The value `hostval` of the first half of `x86_virt_spec_ctrl` at the comparison. -/
def virt_hostval (s : State) : Nat :=
  let ti := s.tasks s.current
  let h0 := s.x86_spec_ctrl_base
  let h1 :=
    if static_cpu_has s X86_FEATURE_SPEC_CTRL_SSBD ∨ static_cpu_has s X86_FEATURE_AMD_SSBD then
      h0 ||| ssbd_tif_to_spec_ctrl ti
    else h0
  if s.switch_to_cond_stibp then h1 ||| stibp_tif_to_spec_ctrl ti else h1

/-- The function `x86_virt_spec_ctrl`. -/
def x86_virt_spec_ctrl (s : State) (guest_spec_ctrl guest_virt_spec_ctrl : Nat)
    (setguest : Bool) : State :=
  let ti := s.tasks s.current
  let s1 :=
    if static_cpu_has s X86_FEATURE_MSR_SPEC_CTRL then
      let guestval := virt_guestval s guest_spec_ctrl
      let hostval := virt_hostval s
      if hostval ≠ guestval then
        wrmsrl s Msr.MSR_IA32_SPEC_CTRL (if setguest then guestval else hostval)
      else s
    else s
  if !static_cpu_has s1 X86_FEATURE_LS_CFG_SSBD ∧ !static_cpu_has s1 X86_FEATURE_VIRT_SSBD then
    s1
  else
    let hostval :=
      if static_cpu_has s1 X86_FEATURE_SPEC_STORE_BYPASS_DISABLE then SPEC_CTRL_SSBD
      else ssbd_tif_to_spec_ctrl ti
    let guestval := guest_virt_spec_ctrl &&& SPEC_CTRL_SSBD
    if hostval ≠ guestval then
      emit s1 (Event.speculation_ctrl_update
        (if setguest then ssbd_spec_ctrl_to_tif guestval else ssbd_spec_ctrl_to_tif hostval))
    else s1

/-! ## Direct-map (L1TF) selector -/

/-- Modelled from the spec: the family-6 model numbers of asm/intel-family.h (not part
of the sources) listed in `override_cache_bits`: Nehalem, Westmere, Sandy Bridge,
Ivy Bridge, Haswell (core, ULT, GT3E), Broadwell (core, GT3E), Skylake (mobile,
desktop) and Kaby Lake (mobile, desktop). -/
def override_cache_bits_models : List Nat :=
  [0x1E, 0x25, 0x2A, 0x3A, 0x3C, 0x45, 0x46, 0x3D, 0x47, 0x4E, 0x5E, 0x8E, 0x9E]

/-- The function `override_cache_bits`. -/
def override_cache_bits (c : cpuinfo_x86) : cpuinfo_x86 :=
  if c.x86 ≠ 6 then c
  else if c.x86_model ∈ override_cache_bits_models then
    (if c.x86_cache_bits < 44 then { c with x86_cache_bits := 44 } else c)
  else c

/-- Modelled from the spec: the page size exponent of asm/page_types.h (not part of the
sources). -/
def PAGE_SHIFT : Nat := 12

/-- Modelled from the spec: `l1tf_pfn_limit` of asm/processor.h (not part of the
sources) is the page frame number of half of the addressable range implied by the
tracked cache-address-bit count, `BIT_ULL(x86_cache_bits - 1 - PAGE_SHIFT)`. The count is
at least 13 on every x86 processor; below that the C shift count would be negative and
the value here is not meaningful. -/
def l1tf_pfn_limit (s : State) : Nat :=
  2 ^ (s.boot_cpu_data.x86_cache_bits - 1 - PAGE_SHIFT) % 2 ^ 64

/-- The largest `unsigned long long`. -/
def ULLONG_MAX : Nat := 2 ^ 64 - 1

/-- The value `half_pa` of `l1tf_select_mitigation`. -/
def l1tf_half_pa (s : State) : Nat := (l1tf_pfn_limit s * 2 ^ PAGE_SHIFT) % 2 ^ 64

/-- The selector `l1tf_select_mitigation`, with `pr_fmt` "L1TF: ". -/
def l1tf_select_mitigation (cfg : Kconfig) (s : State) : State :=
  if !boot_cpu_has_bug s X86_BUG_L1TF then s
  else
    let s1 := { s with boot_cpu_data := override_cache_bits s.boot_cpu_data }
    if cfg.CONFIG_PGTABLE_LEVELS = 2 then
      printk s1 "L1TF: Kernel not compiled for PAE. No mitigation for L1TF\n"
    else
      let half_pa := l1tf_half_pa s1
      if s1.e820_any_mapped half_pa (ULLONG_MAX - half_pa) then
        let s2 := printk s1
          "L1TF: System has more than MAX_PA/2 memory. L1TF mitigation not effective.\n"
        let s3 := printk s2 ("L1TF: You may make it effective by booting the kernel with mem=" ++
          toString half_pa ++ " parameter.\n")
        let s4 := printk s3
          "L1TF: However, doing so will make a part of your RAM unusable.\n"
        printk s4 ("L1TF: Reading https://www.kernel.org/doc/html/latest/admin-guide/" ++
          "hw-vuln/l1tf.html might help you decide.\n")
      else setup_force_cpu_cap s1 X86_FEATURE_L1TF_PTEINV

/-! ## Boot sequence -/

/-- The speculation-related part of `check_bugs`: `spec_ctrl_msr` is the value
`rdmsrl(MSR_IA32_SPEC_CTRL, ...)` reads from the hardware. The capability set is that
left by `identify_boot_cpu`. -/
def check_bugs (cfg : Kconfig) (s : State) (spec_ctrl_msr : Nat) : State :=
  let s1 :=
    if boot_cpu_has s X86_FEATURE_MSR_SPEC_CTRL then
      { s with x86_spec_ctrl_base := spec_ctrl_msr }
    else s
  let s2 :=
    if boot_cpu_has s1 X86_FEATURE_STIBP then
      { s1 with x86_spec_ctrl_mask := s1.x86_spec_ctrl_mask ||| SPEC_CTRL_STIBP }
    else s1
  let s3 := spectre_v2_select_mitigation cfg s2
  let s4 := ssb_select_mitigation cfg s3
  l1tf_select_mitigation cfg s4

/-! ## Status reporter -/

/-- The function `mds_show_state`. -/
def mds_show_state (cfg : Kconfig) (s : State) : String :=
  if cfg.CONFIG_HYPERVISOR_GUEST ∧ boot_cpu_has s X86_FEATURE_HYPERVISOR then
    s.mds_string ++ "; SMT Host state unknown\n"
  else if boot_cpu_has s X86_BUG_MSBDS_ONLY then
    s.mds_string ++ "; SMT " ++
      (if s.mds_mitigation_off then "vulnerable"
        else if s.sched_smt_active then "mitigated" else "disabled") ++ "\n"
  else
    s.mds_string ++ "; SMT " ++
      (if s.sched_smt_active then "vulnerable" else "disabled") ++ "\n"

/-- The function `tsx_async_abort_show_state`. -/
def tsx_async_abort_show_state (s : State) : String :=
  if s.taa_tsx_disabled_or_off then s.taa_string ++ "\n"
  else if boot_cpu_has s X86_FEATURE_HYPERVISOR then
    s.taa_string ++ "; SMT Host state unknown\n"
  else
    s.taa_string ++ "; SMT " ++
      (if s.sched_smt_active then "vulnerable" else "disabled") ++ "\n"

/-- The helper `stibp_state`. -/
def stibp_state (s : State) : String :=
  if s.spectre_v2_enabled = SPECTRE_V2_IBRS_ENHANCED then ""
  else if s.x86_spec_ctrl_base &&& SPEC_CTRL_STIBP ≠ 0 then ", STIBP"
  else ""

/-- The helper `ibpb_state`. -/
def ibpb_state (s : State) : String :=
  if boot_cpu_has s X86_FEATURE_USE_IBPB then ", IBPB" else ""

/-- The function `cpu_show_common`: the text written to the buffer. -/
def cpu_show_common (cfg : Kconfig) (s : State) (bug : X86Cap) : String :=
  if !boot_cpu_has_bug s bug then "Not affected\n"
  else
    match bug with
    | X86_BUG_CPU_MELTDOWN =>
      if boot_cpu_has s X86_FEATURE_KAISER then "Mitigation: PTI\n" else "Vulnerable\n"
    | X86_BUG_SPECTRE_V1 => "Mitigation: __user pointer sanitization\n"
    | X86_BUG_SPECTRE_V2 =>
      spectre_v2_strings s.spectre_v2_enabled ++ ibpb_state s ++
        (if boot_cpu_has s X86_FEATURE_USE_IBRS_FW then ", IBRS_FW" else "") ++
        stibp_state s ++
        (if boot_cpu_has s X86_FEATURE_RSB_CTXSW then ", RSB filling" else "") ++
        spectre_v2_module_string cfg s ++ "\n"
    | X86_BUG_SPEC_STORE_BYPASS => ssb_strings s.ssb_mode ++ "\n"
    | X86_BUG_L1TF =>
      if boot_cpu_has s X86_FEATURE_L1TF_PTEINV then "Mitigation: PTE Inversion\n"
      else "Vulnerable\n"
    | X86_BUG_MDS => mds_show_state cfg s
    | X86_BUG_TAA => tsx_async_abort_show_state s
    | _ => "Vulnerable\n"

/-- The sysfs entry `cpu_show_meltdown`. -/
def cpu_show_meltdown (cfg : Kconfig) (s : State) : String :=
  cpu_show_common cfg s X86_BUG_CPU_MELTDOWN

/-- The sysfs entry `cpu_show_spectre_v1`. -/
def cpu_show_spectre_v1 (cfg : Kconfig) (s : State) : String :=
  cpu_show_common cfg s X86_BUG_SPECTRE_V1

/-- The sysfs entry `cpu_show_spectre_v2`. -/
def cpu_show_spectre_v2 (cfg : Kconfig) (s : State) : String :=
  cpu_show_common cfg s X86_BUG_SPECTRE_V2

/-- The sysfs entry `cpu_show_spec_store_bypass`. -/
def cpu_show_spec_store_bypass (cfg : Kconfig) (s : State) : String :=
  cpu_show_common cfg s X86_BUG_SPEC_STORE_BYPASS

/-- The sysfs entry `cpu_show_l1tf`. -/
def cpu_show_l1tf (cfg : Kconfig) (s : State) : String :=
  cpu_show_common cfg s X86_BUG_L1TF

/-- The sysfs entry `cpu_show_mds`. -/
def cpu_show_mds (cfg : Kconfig) (s : State) : String :=
  cpu_show_common cfg s X86_BUG_MDS

/-- The sysfs entry `cpu_show_tsx_async_abort`. -/
def cpu_show_tsx_async_abort (cfg : Kconfig) (s : State) : String :=
  cpu_show_common cfg s X86_BUG_TAA

/-! ## Concrete inputs used in the examples -/

/-- A boot command line with the given two flags and two keyed options. -/
def mkCmdline (nospectre_v2 : Bool) (spectre_v2 : Option (List Char))
    (nossbd : Bool) (ssbd : Option (List Char)) : BootCmdline where
  flags := fun n =>
    if n = "nospectre_v2" then nospectre_v2
    else if n = "nospec_store_bypass_disable" then nossbd
    else false
  options := fun n =>
    if n = "spectre_v2" then spectre_v2
    else if n = "spec_store_bypass_disable" then ssbd
    else none

/-- The state of the statically initialised globals (`x86_spec_ctrl_mask =
SPEC_CTRL_IBRS`, both modes `NONE`, everything else zero) on a machine with the
capability list `caps`, the vendor `vendor` and the command line `cl`, with no RAM in
the upper half of the address range and all tasks without flags. -/
def bootState (caps : List X86Cap) (vendor : Nat) (cl : BootCmdline) : State where
  boot_cpu_data :=
    { x86 := 6, x86_vendor := vendor, x86_model := 0, x86_cache_bits := 36,
      x86_capability := fun c => decide (c ∈ caps) }
  cpu_caps_set := []
  boot_command_line := cl
  x86_spec_ctrl_base := 0
  x86_spec_ctrl_mask := SPEC_CTRL_IBRS
  x86_amd_ls_cfg_base := 0
  x86_amd_ls_cfg_ssbd_mask := 0
  spectre_v2_enabled := SPECTRE_V2_NONE
  spectre_v2_bad_module := false
  ssb_mode := SPEC_STORE_BYPASS_NONE
  switch_to_cond_stibp := false
  e820_any_mapped := fun _ _ => false
  mds_string := "Vulnerable"
  mds_mitigation_off := true
  taa_string := "Vulnerable"
  taa_tsx_disabled_or_off := true
  sched_smt_active := false
  tasks := fun _ => ⟨false, false, false, false, false⟩
  current := 0
  trace := []

/-- A build with retpoline support compiled in, seccomp and SMP enabled. -/
def cfgRetpoline : Kconfig :=
  { CONFIG_RETPOLINE := true, RETPOLINE := true, CONFIG_SECCOMP := true,
    CONFIG_SMP := true, CONFIG_PGTABLE_LEVELS := 4, CONFIG_HYPERVISOR_GUEST := false }

/-- The empty command line. -/
def emptyCmdline : BootCmdline := mkCmdline false none false none

/-! ## Vocabulary of the properties -/

/-- Whether a mode is one of the four retpoline modes. -/
def is_retpoline_mode : spectre_v2_mitigation → Bool
  | SPECTRE_V2_RETPOLINE_MINIMAL => true
  | SPECTRE_V2_RETPOLINE_MINIMAL_AMD => true
  | SPECTRE_V2_RETPOLINE_GENERIC => true
  | SPECTRE_V2_RETPOLINE_AMD => true
  | _ => false

/-- Whether a mode is one of the two full retpoline modes. -/
def is_full_retpoline_mode : spectre_v2_mitigation → Bool
  | SPECTRE_V2_RETPOLINE_GENERIC => true
  | SPECTRE_V2_RETPOLINE_AMD => true
  | _ => false

/-- A machine that is not affected by Spectre v2 or store bypass, has the store-bypass
disable capability, and is booted with `spectre_v2=on spec_store_bypass_disable=on`. -/
def notAffectedForced : State :=
  bootState [X86_FEATURE_SSBD] 0 (mkCmdline false (some "on".toList) false (some "on".toList))

/-- A machine that is not affected by any of the three classes, booted with an empty
command line. -/
def notAffectedAuto : State := bootState [X86_FEATURE_SSBD] 0 emptyCmdline

/-- An affected machine with enhanced IBRS and the store-bypass disable capability,
booted with an empty command line. -/
def affectedEnhanced : State :=
  bootState [X86_BUG_SPECTRE_V2, X86_FEATURE_IBRS_ENHANCED, X86_BUG_SPEC_STORE_BYPASS,
    X86_FEATURE_SSBD] 0 emptyCmdline

/-- A runtime request against the speculation control of a task: a call of
`arch_prctl_spec_ctrl_set(task, which, ctrl)` or of `arch_seccomp_spec_mitigate(task)`. -/
inductive Request where
  | prctl_set (task which ctrl : Nat)
  | seccomp_mitigate (task : Nat)
  deriving DecidableEq, Repr

/-- The state after one request. -/
def Request.issue (s : State) : Request → State
  | .prctl_set task which ctrl => (arch_prctl_spec_ctrl_set s task which ctrl).1
  | .seccomp_mitigate task => arch_seccomp_spec_mitigate s task

/-- The state after a sequence of requests, issued from left to right. -/
def issue_all (s : State) (reqs : List Request) : State := reqs.foldl Request.issue s

/-- The per-task control is available and the task `t` is disabled and force-disabled. -/
def force_disabled_inv (t : Nat) (s : State) : Prop :=
  (s.ssb_mode = SPEC_STORE_BYPASS_PRCTL ∨ s.ssb_mode = SPEC_STORE_BYPASS_SECCOMP) ∧
  task_spec_ssb_disable s t = true ∧ task_spec_ssb_force_disable s t = true

/-- The property `force_disabled_inv` is decidable. -/
instance force_disabled_inv_decidable (t : Nat) (s : State) :
    Decidable (force_disabled_inv t s) := by
  unfold force_disabled_inv
  infer_instance

/-- A state in per-task mode (`SPEC_STORE_BYPASS_PRCTL`) with two tasks of interest, task 0
being current, and no flag set on any task. -/
def prctlState : State :=
  { bootState [X86_BUG_SPEC_STORE_BYPASS, X86_FEATURE_SSBD] 0 emptyCmdline with
    ssb_mode := SPEC_STORE_BYPASS_PRCTL }

/-- The state `prctlState` after task 1 has been force-disabled. -/
def forceDisabledState : State :=
  (arch_prctl_spec_ctrl_set prctlState 1 PR_SPEC_STORE_BYPASS PR_SPEC_FORCE_DISABLE).1

/-- The task `t` with the `disabled` and `force-disabled` flags set to `d` and `f` and the
needs-re-apply marker `TIF_SPEC_FORCE_UPDATE` set; the other thread flags are those of
`t`. -/
def marked (t : task_struct) (d f : Bool) : task_struct :=
  { t with spec_ssb_disable := d, spec_ssb_force_disable := f, TIF_SPEC_FORCE_UPDATE := true }

/-- The register update a successful `ssb_prctl_set` issues: one call of
`speculation_ctrl_update_current` when the target task is the current one, nothing
otherwise. -/
def update_events (s : State) (task : Nat) : List Event :=
  if task = s.current then [Event.speculation_ctrl_update_current] else []

/-- The reference lookup of the option parser, in the words of the specification: given
the table of `(token, command)` rows, whether the boolean "disable this class entirely"
flag is present, and the text of the keyed option when it is present. If the flag is
present the result is `None`, whatever the keyed option says; otherwise, if the option is
absent, `Auto`; otherwise the command of the row whose token equals the text exactly
(length and content); otherwise, when no row matches, `Auto`. -/
def reference_lookup {Cmd : Type} (table : List (List Char × Cmd)) (cmd_none cmd_auto : Cmd)
    (disable_flag : Bool) (arg : Option (List Char)) : Cmd :=
  if disable_flag then cmd_none
  else
    match arg with
    | none => cmd_auto
    | some a =>
      match table.find? (fun row => decide (row.1 = a)) with
      | some row => row.2
      | none => cmd_auto

/-- The `(token, command)` rows of `mitigation_options`. -/
def spectre_v2_rows : List (List Char × spectre_v2_mitigation_cmd) :=
  mitigation_options.map (fun o => (o.option, o.cmd))

/-- The `(token, command)` rows of `ssb_mitigation_options`. -/
def ssb_rows : List (List Char × ssb_mitigation_cmd) :=
  ssb_mitigation_options.map (fun o => (o.option, o.cmd))

/-- The reference lookup for the Spectre v2 options on the command line of `s`. -/
def spectre_v2_reference (s : State) : spectre_v2_mitigation_cmd :=
  reference_lookup spectre_v2_rows SPECTRE_V2_CMD_NONE SPECTRE_V2_CMD_AUTO
    (s.boot_command_line.flags "nospectre_v2") (s.boot_command_line.options "spectre_v2")

/-- The reference lookup for the store-bypass options on the command line of `s`. -/
def ssb_reference (s : State) : ssb_mitigation_cmd :=
  reference_lookup ssb_rows SPEC_STORE_BYPASS_CMD_NONE SPEC_STORE_BYPASS_CMD_AUTO
    (s.boot_command_line.flags "nospec_store_bypass_disable")
    (s.boot_command_line.options "spec_store_bypass_disable")

/-- Whether a command is one of the three retpoline commands. -/
def is_retpoline_cmd : spectre_v2_mitigation_cmd → Bool
  | SPECTRE_V2_CMD_RETPOLINE => true
  | SPECTRE_V2_CMD_RETPOLINE_GENERIC => true
  | SPECTRE_V2_CMD_RETPOLINE_AMD => true
  | _ => false

/-- The two downgrade conditions of `spectre_v2_parse_cmdline` for a matched command: a
retpoline command without `CONFIG_RETPOLINE`, or `retpoline,amd` on a CPU whose vendor is
not AMD. -/
def downgrade_applies (cfg : Kconfig) (s : State) (cmd : spectre_v2_mitigation_cmd) : Bool :=
  (is_retpoline_cmd cmd && !cfg.CONFIG_RETPOLINE) ||
    (decide (cmd = SPECTRE_V2_CMD_RETPOLINE_AMD) &&
      decide (s.boot_cpu_data.x86_vendor ≠ X86_VENDOR_AMD))

/-- A list `a` is a proper prefix or a proper substring of the list `t`. -/
def proper_part (a t : List Char) : Prop := (a <+: t ∨ a <:+: t) ∧ a ≠ t

/-- The property `proper_part` is decidable. -/
instance proper_part_decidable (a t : List Char) : Decidable (proper_part a t) := by
  unfold proper_part
  infer_instance

/-- An affected Intel machine booted with `spectre_v2=retpoline`. -/
def retpolineArg : State :=
  bootState [X86_BUG_SPECTRE_V2] 0 (mkCmdline false (some "retpoline".toList) false none)

/-- An affected Intel machine booted with `spectre_v2=retpoline,amd`. -/
def retpolineAmdArg : State :=
  bootState [X86_BUG_SPECTRE_V2] 0 (mkCmdline false (some "retpoline,amd".toList) false none)

/-- An affected machine booted with `spectre_v2=retpol spec_store_bypass_disable=sec`. -/
def truncatedArgs : State :=
  bootState [X86_BUG_SPECTRE_V2, X86_BUG_SPEC_STORE_BYPASS, X86_FEATURE_SSBD] 0
    (mkCmdline false (some "retpol".toList) false (some "sec".toList))

/-- An affected machine with the control register and the sibling-mitigation capability,
booted with `spectre_v2=off`, before `check_bugs` runs. -/
def affectedOff : State :=
  bootState [X86_BUG_SPECTRE_V2, X86_FEATURE_MSR_SPEC_CTRL, X86_FEATURE_STIBP] 0
    (mkCmdline false (some "off".toList) false none)

/-- An affected machine with enhanced IBRS, the control register and the
sibling-mitigation capability, booted with an empty command line, before `check_bugs`
runs. -/
def enhancedStibp : State :=
  bootState [X86_BUG_SPECTRE_V2, X86_FEATURE_IBRS_ENHANCED, X86_FEATURE_MSR_SPEC_CTRL,
    X86_FEATURE_STIBP, X86_FEATURE_IBPB, X86_FEATURE_IBRS] 0 emptyCmdline

/-- The trace `tr2` extends the trace `tr` by diagnostics only: no register write, no
broadcast, no speculation update. -/
def printk_only (tr tr2 : List Event) : Prop :=
  ∃ msgs : List String, tr2 = tr ++ msgs.map Event.printk

/-- An affected machine with the store-bypass disable capability handled in the control
register, booted with an empty command line. -/
def ssbAffected : State :=
  bootState [X86_BUG_SPEC_STORE_BYPASS, X86_FEATURE_SSBD, X86_FEATURE_SPEC_CTRL_SSBD,
    X86_FEATURE_MSR_SPEC_CTRL] 0 emptyCmdline

/-- A build like `cfgRetpoline` without seccomp support. -/
def cfgNoSeccomp : Kconfig := { cfgRetpoline with CONFIG_SECCOMP := false }

/-- A state in sandbox mode (`SPEC_STORE_BYPASS_SECCOMP`), task 0 being current, in which
task 1 has issued a successful `PR_SPEC_ENABLE` after a `PR_SPEC_DISABLE`. -/
def seccompEnabledState : State :=
  (ssb_prctl_set
    (ssb_prctl_set
      { bootState [X86_BUG_SPEC_STORE_BYPASS, X86_FEATURE_SSBD] 0 emptyCmdline with
        ssb_mode := SPEC_STORE_BYPASS_SECCOMP } 1 PR_SPEC_DISABLE).1 1 PR_SPEC_ENABLE).1

/-- Modelled from the spec: the memory-layout oracle `isRangeMapped` over a list of RAM
regions `(address, size)`, as `e820_any_mapped(start, end, E820_RAM)` of
arch/x86/kernel/e820.c (not part of the sources) computes it: some region of the list
overlaps the range from `start` up to, not including, `end_`. -/
def e820_any_mapped_ram (map : List (Nat × Nat)) (start end_ : Nat) : Bool :=
  map.any (fun r => !(decide (r.1 ≥ end_) || decide (r.1 + r.2 ≤ start)))

/-- The condition under which `l1tf_select_mitigation` reaches `setup_force_cpu_cap`: the
bug flag is present, the build is not one with 2-level page tables, and the oracle reports
no RAM in the range that starts at `half_pa`, computed from the corrected bit width. -/
def l1tf_forces (cfg : Kconfig) (s : State) : Bool :=
  boot_cpu_has_bug s X86_BUG_L1TF && decide (cfg.CONFIG_PGTABLE_LEVELS ≠ 2) &&
    !s.e820_any_mapped
      (l1tf_half_pa { s with boot_cpu_data := override_cache_bits s.boot_cpu_data })
      (ULLONG_MAX -
        l1tf_half_pa { s with boot_cpu_data := override_cache_bits s.boot_cpu_data })

/-- A Sandy Bridge machine (family 6, model 0x2A) affected by L1TF that reports 36 cache
address bits and has a RAM region of 4 GiB starting exactly at 2^43, half of the corrected
44-bit range. -/
def sandyBridgeRamAtBoundary : State :=
  { bootState [X86_BUG_L1TF] 0 emptyCmdline with
    boot_cpu_data :=
      { x86 := 6, x86_vendor := 0, x86_model := 0x2A, x86_cache_bits := 36,
        x86_capability := fun c => decide (c ∈ [X86_BUG_L1TF]) }
    e820_any_mapped := e820_any_mapped_ram [(0, 2 ^ 31), (2 ^ 43, 2 ^ 32)] }

/-- The state of the machine `enhancedStibp` after `check_bugs`, the control register
holding the STIBP bit at boot. -/
def enhancedBooted : State := check_bugs cfgRetpoline enhancedStibp SPEC_CTRL_STIBP

/-- The state after `check_bugs` of an affected Intel machine without the
sibling-mitigation capability `X86_FEATURE_STIBP`, with SMT active, booted with an empty
command line. -/
def retpolineNoStibpBooted : State :=
  check_bugs cfgRetpoline
    { bootState [X86_BUG_SPECTRE_V2, X86_FEATURE_MSR_SPEC_CTRL] 0 emptyCmdline with
      sched_smt_active := true } 0

/-- The state after `check_bugs` of an affected Intel machine with the sibling-mitigation
capability, with SMT active, booted with an empty command line, in which the STIBP bit of
the base has been cleared again. -/
def retpolineStibpCleared : State :=
  { check_bugs cfgRetpoline
      { bootState [X86_BUG_SPECTRE_V2, X86_FEATURE_MSR_SPEC_CTRL, X86_FEATURE_STIBP] 0
          emptyCmdline with sched_smt_active := true } 0 with
    x86_spec_ctrl_base := 0 }

/-- The events one call of `x86_virt_spec_ctrl` issues in the state `s`: the write of
`MSR_IA32_SPEC_CTRL`, when the register is implemented and the host-side and guest-side
values differ, followed by the `speculation_ctrl_update` of the alternate-register path,
when that path is taken and its two values differ. -/
def virt_events (s : State) (guest_spec_ctrl guest_virt_spec_ctrl : Nat) (setguest : Bool) :
    List Event :=
  (if static_cpu_has s X86_FEATURE_MSR_SPEC_CTRL ∧
      virt_hostval s ≠ virt_guestval s guest_spec_ctrl then
    [Event.wrmsrl Msr.MSR_IA32_SPEC_CTRL
      (if setguest then virt_guestval s guest_spec_ctrl else virt_hostval s)]
  else []) ++
  (if (static_cpu_has s X86_FEATURE_LS_CFG_SSBD ∨ static_cpu_has s X86_FEATURE_VIRT_SSBD) ∧
      (if static_cpu_has s X86_FEATURE_SPEC_STORE_BYPASS_DISABLE then SPEC_CTRL_SSBD
        else ssbd_tif_to_spec_ctrl (s.tasks s.current)) ≠
        guest_virt_spec_ctrl &&& SPEC_CTRL_SSBD then
    [Event.speculation_ctrl_update
      (if setguest then ssbd_spec_ctrl_to_tif (guest_virt_spec_ctrl &&& SPEC_CTRL_SSBD)
        else ssbd_spec_ctrl_to_tif
          (if static_cpu_has s X86_FEATURE_SPEC_STORE_BYPASS_DISABLE then SPEC_CTRL_SSBD
            else ssbd_tif_to_spec_ctrl (s.tasks s.current)))]
  else [])

/-- Whether an event is a register write `wrmsrl`. -/
def is_wrmsrl : Event → Bool
  | Event.wrmsrl _ _ => true
  | _ => false

/-- A machine with the control register implemented, in the state of the statically
initialised globals: base 0, writable mask `SPEC_CTRL_IBRS`. -/
def virtHost : State := bootState [X86_FEATURE_MSR_SPEC_CTRL] 0 emptyCmdline

/-- The state after `check_bugs` of an affected Intel machine booted with an empty command
line on a retpoline build (mode `SPECTRE_V2_RETPOLINE_GENERIC`), after a module without
retpoline has been loaded (`retpoline_module_ok(false)`). -/
def badModuleBooted : State :=
  (retpoline_module_ok
    (check_bugs cfgRetpoline (bootState [X86_BUG_SPECTRE_V2] 0 emptyCmdline) 0) false).1

/-- The capability flags forced on the way to a mode: `X86_FEATURE_RETPOLINE_AMD` and
`X86_FEATURE_RETPOLINE`, in this order, for the two AMD retpoline modes,
`X86_FEATURE_RETPOLINE` for the two generic retpoline modes, none otherwise. -/
def flavour_caps : spectre_v2_mitigation → List X86Cap
  | SPECTRE_V2_RETPOLINE_AMD => [X86_FEATURE_RETPOLINE_AMD, X86_FEATURE_RETPOLINE]
  | SPECTRE_V2_RETPOLINE_MINIMAL_AMD => [X86_FEATURE_RETPOLINE_AMD, X86_FEATURE_RETPOLINE]
  | SPECTRE_V2_RETPOLINE_GENERIC => [X86_FEATURE_RETPOLINE]
  | SPECTRE_V2_RETPOLINE_MINIMAL => [X86_FEATURE_RETPOLINE]
  | _ => []

/-- The capability flags forced after the decision, in call order: `X86_FEATURE_RSB_CTXSW`
always, `X86_FEATURE_USE_IBPB` if `X86_FEATURE_IBPB` is present in `s`,
`X86_FEATURE_USE_IBRS_FW` if `X86_FEATURE_IBRS` is present in `s` and the mode is not
`SPECTRE_V2_IBRS_ENHANCED`. -/
def post_decision_caps (s : State) (mode : spectre_v2_mitigation) : List X86Cap :=
  [X86_FEATURE_RSB_CTXSW] ++
    (if boot_cpu_has s X86_FEATURE_IBPB then [X86_FEATURE_USE_IBPB] else []) ++
    (if boot_cpu_has s X86_FEATURE_IBRS ∧ mode ≠ SPECTRE_V2_IBRS_ENHANCED then
      [X86_FEATURE_USE_IBRS_FW] else [])

/-- Whether an event is the broadcast `on_each_cpu(update_stibp_msr)`, which only
`arch_smt_update` issues. -/
def is_broadcast : Event → Bool
  | Event.on_each_cpu_update_stibp_msr _ => true
  | _ => false

/-- The state of `spectre_v2_select_mitigation` from the label `specv2_set_mode` up to,
not including, its call of `arch_smt_update`. -/
def specv2_forced (s : State) (mode : spectre_v2_mitigation) : State :=
  let s1 := { s with spectre_v2_enabled := mode }
  let s2 := printk s1 ("Spectre V2 : " ++ spectre_v2_strings mode ++ "\n")
  let s3 := setup_force_cpu_cap s2 X86_FEATURE_RSB_CTXSW
  let s4 := printk s3
    "Spectre V2 : Spectre v2 / SpectreRSB mitigation: Filling RSB on context switch\n"
  let s5 :=
    if boot_cpu_has s4 X86_FEATURE_IBPB then
      printk (setup_force_cpu_cap s4 X86_FEATURE_USE_IBPB)
        "Spectre V2 : Spectre v2 mitigation: Enabling Indirect Branch Prediction Barrier\n"
    else s4
  if boot_cpu_has s5 X86_FEATURE_IBRS ∧ mode ≠ SPECTRE_V2_IBRS_ENHANCED then
    printk (setup_force_cpu_cap s5 X86_FEATURE_USE_IBRS_FW)
      "Spectre V2 : Enabling Restricted Speculation for firmware calls\n"
  else s5

/-- The selector has decided: the state `r` is what one call of `arch_smt_update`, made as
the last step, leaves of a state `pre` that carries the mode of `r`, a mode other than
`SPECTRE_V2_NONE`, has the flags `flavour_caps` and `post_decision_caps` forced on top of
those of `t`, and holds no broadcast that `t` does not hold. -/
def decided (cfg : Kconfig) (t r : State) : Prop :=
  ∃ pre : State,
    r = arch_smt_update cfg pre ∧
    pre.spectre_v2_enabled = r.spectre_v2_enabled ∧
    r.spectre_v2_enabled ≠ SPECTRE_V2_NONE ∧
    pre.cpu_caps_set =
      t.cpu_caps_set ++ flavour_caps r.spectre_v2_enabled ++
        post_decision_caps t r.spectre_v2_enabled ∧
    pre.trace.filter is_broadcast = t.trace.filter is_broadcast

/-- An affected AMD machine whose `LFENCE` is not serializing, with the prediction
barrier, booted with an empty command line. -/
def amdNoLfence : State :=
  bootState [X86_BUG_SPECTRE_V2, X86_FEATURE_IBPB] X86_VENDOR_AMD emptyCmdline

/-- An affected AMD machine with a serializing `LFENCE`, the restricted-speculation
capability and the sibling-mitigation capability, booted with `spectre_v2=retpoline,amd`. -/
def amdLfence : State :=
  bootState [X86_BUG_SPECTRE_V2, X86_FEATURE_LFENCE_RDTSC, X86_FEATURE_IBRS,
    X86_FEATURE_STIBP] X86_VENDOR_AMD
    (mkCmdline false (some "retpoline,amd".toList) false none)

/-- Whether `__ssb_select_mitigation` gets past both of its early returns, to the
`switch (cmd)` and the update of `x86_spec_ctrl_mask`. -/
def ssb_mapping_reached (s : State) : Bool :=
  boot_cpu_has s X86_FEATURE_SSBD &&
    !(!boot_cpu_has_bug s X86_BUG_SPEC_STORE_BYPASS &&
      (decide ((ssb_parse_cmdline s).2 = SPEC_STORE_BYPASS_CMD_NONE) ||
        decide ((ssb_parse_cmdline s).2 = SPEC_STORE_BYPASS_CMD_AUTO)))

/-- The condition of `__ssb_select_mitigation` under which store-bypass disable is a bit
of `MSR_IA32_SPEC_CTRL`. -/
def ssbd_in_spec_ctrl (s : State) : Bool :=
  static_cpu_has s X86_FEATURE_SPEC_CTRL_SSBD || static_cpu_has s X86_FEATURE_AMD_SSBD

/-- The register writes of `x86_amd_ssb_disable` in the state `s`. -/
def amd_ssb_disable_writes (s : State) : List Event :=
  if boot_cpu_has s X86_FEATURE_VIRT_SSBD then
    [Event.wrmsrl Msr.MSR_AMD64_VIRT_SPEC_CTRL SPEC_CTRL_SSBD]
  else if boot_cpu_has s X86_FEATURE_LS_CFG_SSBD then
    [Event.wrmsrl Msr.MSR_AMD64_LS_CFG (s.x86_amd_ls_cfg_base ||| s.x86_amd_ls_cfg_ssbd_mask)]
  else []

/-- An affected machine like `ssbAffected`, booted with `spec_store_bypass_disable=on`. -/
def ssbOn : State :=
  bootState [X86_BUG_SPEC_STORE_BYPASS, X86_FEATURE_SSBD, X86_FEATURE_SPEC_CTRL_SSBD,
    X86_FEATURE_MSR_SPEC_CTRL] 0 (mkCmdline false none false (some "on".toList))

/-- An affected AMD machine whose store-bypass disable is a bit of `MSR_AMD64_LS_CFG`,
with `x86_amd_ls_cfg_base = 32` and `x86_amd_ls_cfg_ssbd_mask = 1024`, booted with
`spec_store_bypass_disable=on`. -/
def ssbOnLsCfg : State :=
  { bootState [X86_BUG_SPEC_STORE_BYPASS, X86_FEATURE_SSBD, X86_FEATURE_LS_CFG_SSBD]
      X86_VENDOR_AMD (mkCmdline false none false (some "on".toList)) with
    x86_amd_ls_cfg_base := 32
    x86_amd_ls_cfg_ssbd_mask := 1024 }

/-- Whether an event is a call of `speculation_ctrl_update`. -/
def is_speculation_ctrl_update : Event → Bool
  | Event.speculation_ctrl_update _ => true
  | _ => false

/-- A host with the control register implemented and store-bypass disable handled in
`MSR_AMD64_LS_CFG`, base `SPEC_CTRL_STIBP`, writable mask `SPEC_CTRL_IBRS`, whose current
task has no thread flag set. -/
def virtHostLsCfg : State :=
  { bootState [X86_FEATURE_MSR_SPEC_CTRL, X86_FEATURE_LS_CFG_SSBD] X86_VENDOR_AMD
      emptyCmdline with
    x86_spec_ctrl_base := SPEC_CTRL_STIBP }

/-! # Properties -/

/-! ## Frame lemmas -/

theorem spec2_print_if_secure_frame (s : State) (r : List Char) :
    ∃ tr, spec2_print_if_secure s r = { s with trace := tr } := by
  unfold spec2_print_if_secure
  split
  · exact ⟨_, rfl⟩
  · exact ⟨s.trace, rfl⟩

theorem spec2_print_if_insecure_frame (s : State) (r : List Char) :
    ∃ tr, spec2_print_if_insecure s r = { s with trace := tr } := by
  unfold spec2_print_if_insecure
  split
  · exact ⟨_, rfl⟩
  · exact ⟨s.trace, rfl⟩

theorem spectre_v2_parse_cmdline_frame (cfg : Kconfig) (s : State) :
    ∃ tr, (spectre_v2_parse_cmdline cfg s).1 = { s with trace := tr } := by
  unfold spectre_v2_parse_cmdline
  split
  · exact ⟨s.trace, rfl⟩
  · simp only []
    split
    · exact ⟨s.trace, rfl⟩
    · split
      · exact ⟨_, rfl⟩
      · split
        · exact ⟨_, rfl⟩
        · split
          · exact ⟨_, rfl⟩
          · split
            · exact spec2_print_if_secure_frame s _
            · exact spec2_print_if_insecure_frame s _

@[simp] theorem spectre_v2_parse_cmdline_boot_cpu_data (cfg : Kconfig) (s : State) :
    (spectre_v2_parse_cmdline cfg s).1.boot_cpu_data = s.boot_cpu_data := by
  obtain ⟨tr, h⟩ := spectre_v2_parse_cmdline_frame cfg s
  rw [h]

@[simp] theorem spectre_v2_parse_cmdline_enabled (cfg : Kconfig) (s : State) :
    (spectre_v2_parse_cmdline cfg s).1.spectre_v2_enabled = s.spectre_v2_enabled := by
  obtain ⟨tr, h⟩ := spectre_v2_parse_cmdline_frame cfg s
  rw [h]

@[simp] theorem spectre_v2_parse_cmdline_cpu_caps_set (cfg : Kconfig) (s : State) :
    (spectre_v2_parse_cmdline cfg s).1.cpu_caps_set = s.cpu_caps_set := by
  obtain ⟨tr, h⟩ := spectre_v2_parse_cmdline_frame cfg s
  rw [h]

@[simp] theorem spectre_v2_parse_cmdline_base (cfg : Kconfig) (s : State) :
    (spectre_v2_parse_cmdline cfg s).1.x86_spec_ctrl_base = s.x86_spec_ctrl_base := by
  obtain ⟨tr, h⟩ := spectre_v2_parse_cmdline_frame cfg s
  rw [h]

@[simp] theorem spectre_v2_parse_cmdline_bad_module (cfg : Kconfig) (s : State) :
    (spectre_v2_parse_cmdline cfg s).1.spectre_v2_bad_module = s.spectre_v2_bad_module := by
  obtain ⟨tr, h⟩ := spectre_v2_parse_cmdline_frame cfg s
  rw [h]

theorem ssb_parse_cmdline_frame (s : State) :
    ∃ tr, (ssb_parse_cmdline s).1 = { s with trace := tr } := by
  unfold ssb_parse_cmdline
  split
  · exact ⟨s.trace, rfl⟩
  · simp only []
    split
    · exact ⟨s.trace, rfl⟩
    · split
      · exact ⟨_, rfl⟩
      · exact ⟨s.trace, rfl⟩

@[simp] theorem ssb_parse_cmdline_boot_cpu_data (s : State) :
    (ssb_parse_cmdline s).1.boot_cpu_data = s.boot_cpu_data := by
  obtain ⟨tr, h⟩ := ssb_parse_cmdline_frame s
  rw [h]

theorem arch_smt_update_frame (cfg : Kconfig) (s : State) :
    ∃ b tr, arch_smt_update cfg s = { s with x86_spec_ctrl_base := b, trace := tr } := by
  unfold arch_smt_update
  simp only []
  split_ifs <;> exact ⟨_, _, rfl⟩

@[simp] theorem arch_smt_update_enabled (cfg : Kconfig) (s : State) :
    (arch_smt_update cfg s).spectre_v2_enabled = s.spectre_v2_enabled := by
  obtain ⟨b, tr, h⟩ := arch_smt_update_frame cfg s
  rw [h]

@[simp] theorem arch_smt_update_boot_cpu_data (cfg : Kconfig) (s : State) :
    (arch_smt_update cfg s).boot_cpu_data = s.boot_cpu_data := by
  obtain ⟨b, tr, h⟩ := arch_smt_update_frame cfg s
  rw [h]

@[simp] theorem arch_smt_update_cpu_caps_set (cfg : Kconfig) (s : State) :
    (arch_smt_update cfg s).cpu_caps_set = s.cpu_caps_set := by
  obtain ⟨b, tr, h⟩ := arch_smt_update_frame cfg s
  rw [h]

/-! ## The mode chosen by the Spectre v2 selector -/

theorem specv2_set_mode_enabled (cfg : Kconfig) (s : State) (mode : spectre_v2_mitigation) :
    (specv2_set_mode cfg s mode).spectre_v2_enabled = mode := by
  unfold specv2_set_mode
  simp only [arch_smt_update_enabled]
  split_ifs <;> rfl

theorem retpoline_generic_enabled (cfg : Kconfig) (s : State) :
    (retpoline_generic cfg s).spectre_v2_enabled =
      if retp_compiler cfg then SPECTRE_V2_RETPOLINE_GENERIC
      else SPECTRE_V2_RETPOLINE_MINIMAL := by
  unfold retpoline_generic
  simp only [specv2_set_mode_enabled]

theorem retpoline_amd_enabled (cfg : Kconfig) (s : State) :
    (retpoline_amd cfg s).spectre_v2_enabled =
      if boot_cpu_has s X86_FEATURE_LFENCE_RDTSC then
        (if retp_compiler cfg then SPECTRE_V2_RETPOLINE_AMD
          else SPECTRE_V2_RETPOLINE_MINIMAL_AMD)
      else
        (if retp_compiler cfg then SPECTRE_V2_RETPOLINE_GENERIC
          else SPECTRE_V2_RETPOLINE_MINIMAL) := by
  unfold retpoline_amd
  cases h : boot_cpu_has s X86_FEATURE_LFENCE_RDTSC <;>
    simp [specv2_set_mode_enabled, retpoline_generic_enabled]

theorem retpoline_auto_enabled (cfg : Kconfig) (s : State) :
    (retpoline_auto cfg s).spectre_v2_enabled =
      if s.boot_cpu_data.x86_vendor = X86_VENDOR_AMD then
        (retpoline_amd cfg s).spectre_v2_enabled
      else (retpoline_generic cfg s).spectre_v2_enabled := by
  unfold retpoline_auto
  split_ifs <;> rfl

theorem select_cmd_sound (cfg : Kconfig) (s : State) (cmd : spectre_v2_mitigation_cmd)
    (h0 : s.spectre_v2_enabled = SPECTRE_V2_NONE) :
    ((spectre_v2_select_mitigation_cmd cfg s cmd).spectre_v2_enabled =
        SPECTRE_V2_IBRS_ENHANCED → boot_cpu_has s X86_FEATURE_IBRS_ENHANCED = true) ∧
    (is_retpoline_mode (spectre_v2_select_mitigation_cmd cfg s cmd).spectre_v2_enabled = true →
        cfg.CONFIG_RETPOLINE = true) ∧
    (is_full_retpoline_mode
        (spectre_v2_select_mitigation_cmd cfg s cmd).spectre_v2_enabled = true →
        retp_compiler cfg = true) := by
  unfold spectre_v2_select_mitigation_cmd no_retpoline_available
  cases cmd <;>
    cases hb : boot_cpu_has_bug s X86_BUG_SPECTRE_V2 <;>
    cases he : boot_cpu_has s X86_FEATURE_IBRS_ENHANCED <;>
    cases hr : cfg.CONFIG_RETPOLINE <;>
    cases hc : retp_compiler cfg <;>
    cases hl : boot_cpu_has s X86_FEATURE_LFENCE_RDTSC <;>
    simp [specv2_set_mode_enabled, retpoline_auto_enabled, retpoline_amd_enabled,
      retpoline_generic_enabled, h0, hc, hl, printk, emit, is_retpoline_mode,
      is_full_retpoline_mode] <;>
    split_ifs <;> simp [is_retpoline_mode, is_full_retpoline_mode]

theorem select_cmd_inert (cfg : Kconfig) (s : State) (cmd : spectre_v2_mitigation_cmd)
    (h : (boot_cpu_has_bug s X86_BUG_SPECTRE_V2 = false ∧
          (cmd = SPECTRE_V2_CMD_NONE ∨ cmd = SPECTRE_V2_CMD_AUTO)) ∨
        cmd = SPECTRE_V2_CMD_NONE) :
    spectre_v2_select_mitigation_cmd cfg s cmd = s := by
  unfold spectre_v2_select_mitigation_cmd
  rcases h with ⟨hb, rfl | rfl⟩ | rfl
  · simp [hb]
  · simp [hb]
  · simp

theorem ssb_select_requires_ssbd (cfg : Kconfig) (s : State)
    (h : (__ssb_select_mitigation cfg s).2 ≠ SPEC_STORE_BYPASS_NONE) :
    boot_cpu_has s X86_FEATURE_SSBD = true := by
  unfold __ssb_select_mitigation at h
  cases hs : boot_cpu_has s X86_FEATURE_SSBD
  · simp [hs] at h
  · rfl

/-! ## C1 -/

/-- C1, counterexample: on a machine with neither `X86_BUG_SPECTRE_V2` nor
`X86_BUG_SPEC_STORE_BYPASS`, booted with `spectre_v2=on spec_store_bypass_disable=on`, the
Spectre v2 selector ends in `SPECTRE_V2_RETPOLINE_GENERIC` and the store-bypass selector
returns `SPEC_STORE_BYPASS_DISABLE`: neither mode is the inert one. -/
theorem C1_forced_command_overrides_not_affected :
    boot_cpu_has_bug notAffectedForced X86_BUG_SPECTRE_V2 = false ∧
    (spectre_v2_select_mitigation cfgRetpoline notAffectedForced).spectre_v2_enabled =
      SPECTRE_V2_RETPOLINE_GENERIC ∧
    boot_cpu_has_bug notAffectedForced X86_BUG_SPEC_STORE_BYPASS = false ∧
    (__ssb_select_mitigation cfgRetpoline notAffectedForced).2 = SPEC_STORE_BYPASS_DISABLE := by
  decide

/-- C1, amended: when the vulnerability flag of a class is absent and the parsed command
is `None` or `Auto`, the selector of that class ends in its inert mode.
`spectre_v2_select_mitigation` leaves `spectre_v2_enabled` at its boot value
`SPECTRE_V2_NONE` and forces no capability, `__ssb_select_mitigation` returns
`SPEC_STORE_BYPASS_NONE`; `l1tf_select_mitigation` changes nothing at all (so forces
nothing) whenever `X86_BUG_L1TF` is absent, whatever the command line. -/
theorem C1_not_affected_inert_for_none_or_auto (cfg : Kconfig) (s : State) :
    (boot_cpu_has_bug s X86_BUG_SPECTRE_V2 = false →
      s.spectre_v2_enabled = SPECTRE_V2_NONE →
      ((spectre_v2_parse_cmdline cfg s).2 = SPECTRE_V2_CMD_NONE ∨
        (spectre_v2_parse_cmdline cfg s).2 = SPECTRE_V2_CMD_AUTO) →
      (spectre_v2_select_mitigation cfg s).spectre_v2_enabled = SPECTRE_V2_NONE ∧
      (spectre_v2_select_mitigation cfg s).cpu_caps_set = s.cpu_caps_set) ∧
    (boot_cpu_has_bug s X86_BUG_SPEC_STORE_BYPASS = false →
      ((ssb_parse_cmdline s).2 = SPEC_STORE_BYPASS_CMD_NONE ∨
        (ssb_parse_cmdline s).2 = SPEC_STORE_BYPASS_CMD_AUTO) →
      (__ssb_select_mitigation cfg s).2 = SPEC_STORE_BYPASS_NONE) ∧
    (boot_cpu_has_bug s X86_BUG_L1TF = false → l1tf_select_mitigation cfg s = s) := by
  refine ⟨?_, ?_, ?_⟩
  · intro hb h0 hc
    have hin : spectre_v2_select_mitigation cfg s = (spectre_v2_parse_cmdline cfg s).1 := by
      unfold spectre_v2_select_mitigation
      exact select_cmd_inert cfg _ _ (Or.inl ⟨by simpa [boot_cpu_has_bug, boot_cpu_has] using hb, hc⟩)
    rw [hin]
    simp [h0]
  · intro hb hc
    unfold __ssb_select_mitigation
    cases hs : boot_cpu_has s X86_FEATURE_SSBD
    · simp
    · have hb2 : boot_cpu_has_bug (ssb_parse_cmdline s).1 X86_BUG_SPEC_STORE_BYPASS = false := by
        simpa [boot_cpu_has_bug, boot_cpu_has] using hb
      simp [hb2, hc]
  · intro hb
    unfold l1tf_select_mitigation
    simp [hb]

/-- C1, amended, at a concrete input: an unaffected machine booted with an empty command
line. -/
theorem C1_not_affected_inert_witness :
    ((spectre_v2_select_mitigation cfgRetpoline notAffectedAuto).spectre_v2_enabled =
        SPECTRE_V2_NONE ∧
      (spectre_v2_select_mitigation cfgRetpoline notAffectedAuto).cpu_caps_set =
        notAffectedAuto.cpu_caps_set) ∧
    (__ssb_select_mitigation cfgRetpoline notAffectedAuto).2 = SPEC_STORE_BYPASS_NONE ∧
    l1tf_select_mitigation cfgRetpoline notAffectedAuto = notAffectedAuto :=
  ⟨(C1_not_affected_inert_for_none_or_auto cfgRetpoline notAffectedAuto).1
      (by decide) (by decide) (by decide),
    (C1_not_affected_inert_for_none_or_auto cfgRetpoline notAffectedAuto).2.1
      (by decide) (by decide),
    (C1_not_affected_inert_for_none_or_auto cfgRetpoline notAffectedAuto).2.2 (by decide)⟩

/-! ## C2 -/

/-- C2: starting from the boot value `spectre_v2_enabled = SPECTRE_V2_NONE`, for every
capability set, build configuration and command line, the mode left by
`spectre_v2_select_mitigation` (which parses the command line itself) is
`SPECTRE_V2_IBRS_ENHANCED` only if `X86_FEATURE_IBRS_ENHANCED` is present, is a retpoline
mode only if `CONFIG_RETPOLINE` is enabled, and is a full retpoline mode only if
`retp_compiler()` is true; and the mode returned by `__ssb_select_mitigation` differs
from `SPEC_STORE_BYPASS_NONE` only if `X86_FEATURE_SSBD` is present. -/
theorem C2_mode_needs_capability (cfg : Kconfig) (s : State)
    (h0 : s.spectre_v2_enabled = SPECTRE_V2_NONE) :
    ((spectre_v2_select_mitigation cfg s).spectre_v2_enabled = SPECTRE_V2_IBRS_ENHANCED →
        boot_cpu_has s X86_FEATURE_IBRS_ENHANCED = true) ∧
    (is_retpoline_mode (spectre_v2_select_mitigation cfg s).spectre_v2_enabled = true →
        cfg.CONFIG_RETPOLINE = true) ∧
    (is_full_retpoline_mode (spectre_v2_select_mitigation cfg s).spectre_v2_enabled = true →
        retp_compiler cfg = true) ∧
    ((__ssb_select_mitigation cfg s).2 ≠ SPEC_STORE_BYPASS_NONE →
        boot_cpu_has s X86_FEATURE_SSBD = true) := by
  have h := select_cmd_sound cfg (spectre_v2_parse_cmdline cfg s).1
    (spectre_v2_parse_cmdline cfg s).2 (by simpa using h0)
  refine ⟨?_, h.2.1, h.2.2, ssb_select_requires_ssbd cfg s⟩
  intro he
  have := h.1 he
  simpa [boot_cpu_has] using this

/-- C2 at a concrete input: on an affected machine with enhanced IBRS and an empty
command line the selectors do choose `SPECTRE_V2_IBRS_ENHANCED` and a store-bypass mode
other than `NONE`, and the capabilities are there. -/
theorem C2_mode_needs_capability_witness :
    (spectre_v2_select_mitigation cfgRetpoline affectedEnhanced).spectre_v2_enabled =
      SPECTRE_V2_IBRS_ENHANCED ∧
    boot_cpu_has affectedEnhanced X86_FEATURE_IBRS_ENHANCED = true ∧
    boot_cpu_has affectedEnhanced X86_FEATURE_SSBD = true :=
  ⟨by decide,
    (C2_mode_needs_capability cfgRetpoline affectedEnhanced (by decide)).1 (by decide),
    (C2_mode_needs_capability cfgRetpoline affectedEnhanced (by decide)).2.2.2 (by decide)⟩

/-! ## C3 -/

theorem ssb_prctl_set_ssb_mode (s : State) (task ctrl : Nat) :
    (ssb_prctl_set s task ctrl).1.ssb_mode = s.ssb_mode := by
  unfold ssb_prctl_set task_update_spec_tif task_set_spec_ssb_force_disable
    task_set_spec_ssb_disable task_clear_spec_ssb_disable update_task emit
  simp only []
  split_ifs <;> rfl

theorem ssb_prctl_set_inv (t : Nat) (s : State) (task ctrl : Nat)
    (h : force_disabled_inv t s) : force_disabled_inv t (ssb_prctl_set s task ctrl).1 := by
  obtain ⟨hm, hd, hf⟩ := h
  refine ⟨by rw [ssb_prctl_set_ssb_mode]; exact hm, ?_, ?_⟩
  · unfold task_spec_ssb_disable at hd ⊢
    unfold task_spec_ssb_force_disable at hf
    unfold ssb_prctl_set task_update_spec_tif task_set_spec_ssb_force_disable
      task_set_spec_ssb_disable task_clear_spec_ssb_disable update_task emit
      task_spec_ssb_force_disable
    simp only []
    by_cases htt : t = task
    · subst htt
      split_ifs <;> simp_all
    · split_ifs <;> simp_all
  · unfold task_spec_ssb_force_disable at hf ⊢
    unfold ssb_prctl_set task_update_spec_tif task_set_spec_ssb_force_disable
      task_set_spec_ssb_disable task_clear_spec_ssb_disable update_task emit
      task_spec_ssb_force_disable
    simp only []
    by_cases htt : t = task
    · subst htt
      split_ifs <;> simp_all
    · split_ifs <;> simp_all

theorem issue_inv (t : Nat) (s : State) (r : Request) (h : force_disabled_inv t s) :
    force_disabled_inv t (r.issue s) := by
  cases r with
  | prctl_set task which ctrl =>
    show force_disabled_inv t (arch_prctl_spec_ctrl_set s task which ctrl).1
    unfold arch_prctl_spec_ctrl_set
    split_ifs
    · exact ssb_prctl_set_inv t s task ctrl h
    · exact h
  | seccomp_mitigate task =>
    show force_disabled_inv t (arch_seccomp_spec_mitigate s task)
    unfold arch_seccomp_spec_mitigate
    split_ifs
    · exact ssb_prctl_set_inv t s task _ h
    · exact h

theorem issue_all_inv (t : Nat) (reqs : List Request) :
    ∀ s, force_disabled_inv t s → force_disabled_inv t (issue_all s reqs) := by
  induction reqs with
  | nil => intro s h; exact h
  | cons r rs ih => intro s h; exact ih _ (issue_inv t s r h)

theorem enable_fails_of_inv (t : Nat) (s : State) (h : force_disabled_inv t s) :
    arch_prctl_spec_ctrl_set s t PR_SPEC_STORE_BYPASS PR_SPEC_ENABLE = (s, -EPERM) := by
  obtain ⟨hm, _, hf⟩ := h
  unfold arch_prctl_spec_ctrl_set ssb_prctl_set
  rcases hm with hm | hm <;> simp [hm, hf]

theorem inv_after_force_disable (s s0 : State) (t : Nat)
    (h : arch_prctl_spec_ctrl_set s t PR_SPEC_STORE_BYPASS PR_SPEC_FORCE_DISABLE = (s0, 0)) :
    force_disabled_inv t s0 := by
  have hs : s0 = (ssb_prctl_set s t PR_SPEC_FORCE_DISABLE).1 := by
    unfold arch_prctl_spec_ctrl_set at h
    rw [if_pos rfl] at h
    rw [h]
  have hr : (ssb_prctl_set s t PR_SPEC_FORCE_DISABLE).2 = 0 := by
    unfold arch_prctl_spec_ctrl_set at h
    rw [if_pos rfl] at h
    rw [h]
  subst hs
  have hm : s.ssb_mode = SPEC_STORE_BYPASS_PRCTL ∨ s.ssb_mode = SPEC_STORE_BYPASS_SECCOMP := by
    by_contra hc
    unfold ssb_prctl_set at hr
    rw [if_pos (by tauto)] at hr
    simp [ ENXIO] at hr
  refine ⟨by rw [ssb_prctl_set_ssb_mode]; exact hm, ?_, ?_⟩
  · unfold task_spec_ssb_disable ssb_prctl_set task_update_spec_tif
      task_set_spec_ssb_force_disable task_set_spec_ssb_disable update_task emit
    rcases hm with hm | hm <;>
      simp [hm, PR_SPEC_FORCE_DISABLE, PR_SPEC_ENABLE, PR_SPEC_DISABLE] <;>
      split_ifs <;> simp
  · unfold task_spec_ssb_force_disable ssb_prctl_set task_update_spec_tif
      task_set_spec_ssb_force_disable task_set_spec_ssb_disable update_task emit
    rcases hm with hm | hm <;>
      simp [hm, PR_SPEC_FORCE_DISABLE, PR_SPEC_ENABLE, PR_SPEC_DISABLE] <;>
      split_ifs <;> simp

/-- C3: ForceDisable is one-way. If `PR_SPEC_FORCE_DISABLE` on task `t` succeeded and
left the state `s0`, then after every finite sequence `reqs` of runtime requests (calls of
`arch_prctl_spec_ctrl_set` with any task, class and action, and of
`arch_seccomp_spec_mitigate` with any task) the task `t` is still disabled and
force-disabled, and every `PR_SPEC_ENABLE` request for `t` in the sequence, issued in the
state reached by the requests before it, returns `-EPERM` and leaves the whole state,
hence the flags, unchanged. -/
theorem C3_force_disable_is_one_way (s s0 : State) (t : Nat)
    (hfd : arch_prctl_spec_ctrl_set s t PR_SPEC_STORE_BYPASS PR_SPEC_FORCE_DISABLE = (s0, 0))
    (reqs : List Request) :
    task_spec_ssb_disable (issue_all s0 reqs) t = true ∧
    task_spec_ssb_force_disable (issue_all s0 reqs) t = true ∧
    ∀ pre post,
      reqs = pre ++ Request.prctl_set t PR_SPEC_STORE_BYPASS PR_SPEC_ENABLE :: post →
      arch_prctl_spec_ctrl_set (issue_all s0 pre) t PR_SPEC_STORE_BYPASS PR_SPEC_ENABLE =
        (issue_all s0 pre, -EPERM) := by
  have h0 := inv_after_force_disable s s0 t hfd
  refine ⟨(issue_all_inv t reqs s0 h0).2.1, (issue_all_inv t reqs s0 h0).2.2, ?_⟩
  intro pre post _
  exact enable_fails_of_inv t _ (issue_all_inv t pre s0 h0)

/-- C3 at a concrete input: task 1 is force-disabled in per-task mode; then the sequence
Enable(1), Disable(1), Enable(0), seccomp(1), Enable(1) leaves task 1 disabled and
force-disabled, and its last Enable is refused with `-EPERM`. -/
theorem C3_force_disable_is_one_way_witness :
    task_spec_ssb_disable (issue_all forceDisabledState
      [Request.prctl_set 1 PR_SPEC_STORE_BYPASS PR_SPEC_ENABLE,
       Request.prctl_set 1 PR_SPEC_STORE_BYPASS PR_SPEC_DISABLE,
       Request.prctl_set 0 PR_SPEC_STORE_BYPASS PR_SPEC_ENABLE,
       Request.seccomp_mitigate 1,
       Request.prctl_set 1 PR_SPEC_STORE_BYPASS PR_SPEC_ENABLE]) 1 = true ∧
    task_spec_ssb_force_disable (issue_all forceDisabledState
      [Request.prctl_set 1 PR_SPEC_STORE_BYPASS PR_SPEC_ENABLE,
       Request.prctl_set 1 PR_SPEC_STORE_BYPASS PR_SPEC_DISABLE,
       Request.prctl_set 0 PR_SPEC_STORE_BYPASS PR_SPEC_ENABLE,
       Request.seccomp_mitigate 1,
       Request.prctl_set 1 PR_SPEC_STORE_BYPASS PR_SPEC_ENABLE]) 1 = true ∧
    (arch_prctl_spec_ctrl_set (issue_all forceDisabledState
      [Request.prctl_set 1 PR_SPEC_STORE_BYPASS PR_SPEC_ENABLE,
       Request.prctl_set 1 PR_SPEC_STORE_BYPASS PR_SPEC_DISABLE,
       Request.prctl_set 0 PR_SPEC_STORE_BYPASS PR_SPEC_ENABLE,
       Request.seccomp_mitigate 1]) 1 PR_SPEC_STORE_BYPASS PR_SPEC_ENABLE).2 = -EPERM :=
  have h := C3_force_disable_is_one_way prctlState forceDisabledState 1
    (by
      have hr : (arch_prctl_spec_ctrl_set prctlState 1 PR_SPEC_STORE_BYPASS
          PR_SPEC_FORCE_DISABLE).2 = 0 := by decide
      exact Prod.ext rfl hr)
    [Request.prctl_set 1 PR_SPEC_STORE_BYPASS PR_SPEC_ENABLE,
     Request.prctl_set 1 PR_SPEC_STORE_BYPASS PR_SPEC_DISABLE,
     Request.prctl_set 0 PR_SPEC_STORE_BYPASS PR_SPEC_ENABLE,
     Request.seccomp_mitigate 1,
     Request.prctl_set 1 PR_SPEC_STORE_BYPASS PR_SPEC_ENABLE]
  ⟨h.1, h.2.1, by
    rw [h.2.2 [Request.prctl_set 1 PR_SPEC_STORE_BYPASS PR_SPEC_ENABLE,
       Request.prctl_set 1 PR_SPEC_STORE_BYPASS PR_SPEC_DISABLE,
       Request.prctl_set 0 PR_SPEC_STORE_BYPASS PR_SPEC_ENABLE,
       Request.seccomp_mitigate 1] [] rfl]⟩

/-! ## C4 -/

/-- C4: runtime control requests fail with a distinct code per cause and never partially
apply. `ssb_prctl_set` returns `-ENXIO` exactly when `ssb_mode` is neither `PRCTL` nor
`SECCOMP`, for every action value; in the two per-task modes it returns `-EPERM` exactly
for `PR_SPEC_ENABLE` on a force-disabled task and `-ERANGE` exactly for an action outside
Enable, Disable, ForceDisable; `arch_prctl_spec_ctrl_set` returns `-ENODEV` for every class
other than `PR_SPEC_STORE_BYPASS`; the four codes are pairwise different; and whenever
either function returns a non-zero value the state (task flags, marker, trace of register
updates) is unchanged. -/
theorem C4_distinct_errors_nothing_applied (s : State) (task which ctrl : Nat) :
    ((ssb_prctl_set s task ctrl).2 = - ENXIO ↔
      (s.ssb_mode ≠ SPEC_STORE_BYPASS_PRCTL ∧ s.ssb_mode ≠ SPEC_STORE_BYPASS_SECCOMP)) ∧
    ((s.ssb_mode = SPEC_STORE_BYPASS_PRCTL ∨ s.ssb_mode = SPEC_STORE_BYPASS_SECCOMP) →
      ((ssb_prctl_set s task ctrl).2 = -EPERM ↔
        (ctrl = PR_SPEC_ENABLE ∧ task_spec_ssb_force_disable s task = true)) ∧
      ((ssb_prctl_set s task ctrl).2 = -ERANGE ↔
        (ctrl ≠ PR_SPEC_ENABLE ∧ ctrl ≠ PR_SPEC_DISABLE ∧ ctrl ≠ PR_SPEC_FORCE_DISABLE))) ∧
    (which ≠ PR_SPEC_STORE_BYPASS →
      arch_prctl_spec_ctrl_set s task which ctrl = (s, -ENODEV)) ∧
    ( ENXIO ≠ EPERM ∧ ENXIO ≠ ERANGE ∧ ENXIO ≠ ENODEV ∧ EPERM ≠ ERANGE ∧ EPERM ≠ ENODEV ∧
      ERANGE ≠ ENODEV) ∧
    ((ssb_prctl_set s task ctrl).2 ≠ 0 → (ssb_prctl_set s task ctrl).1 = s) ∧
    ((arch_prctl_spec_ctrl_set s task which ctrl).2 ≠ 0 →
      (arch_prctl_spec_ctrl_set s task which ctrl).1 = s) := by
  have hset : (ssb_prctl_set s task ctrl).2 ≠ 0 → (ssb_prctl_set s task ctrl).1 = s := by
    unfold ssb_prctl_set
    split_ifs <;> simp
  refine ⟨?_, ?_, ?_, by decide, hset, ?_⟩
  · unfold ssb_prctl_set
    split_ifs <;> simp_all [ ENXIO, EPERM, ERANGE]
  · intro hm
    unfold ssb_prctl_set
    constructor
    · split_ifs <;>
        simp_all [ ENXIO, EPERM, ERANGE, PR_SPEC_ENABLE, PR_SPEC_DISABLE, PR_SPEC_FORCE_DISABLE]
    · split_ifs <;>
        simp_all [ ENXIO, EPERM, ERANGE, PR_SPEC_ENABLE, PR_SPEC_DISABLE, PR_SPEC_FORCE_DISABLE]
  · intro hw
    unfold arch_prctl_spec_ctrl_set
    rw [if_neg hw]
  · unfold arch_prctl_spec_ctrl_set
    split_ifs
    · exact hset
    · intro _; rfl

/-- C4 at concrete inputs: in per-task mode an Enable on the force-disabled task 1 returns
`-EPERM` and changes nothing, and a request for class 1 returns `-ENODEV`. -/
theorem C4_distinct_errors_nothing_applied_witness :
    (ssb_prctl_set forceDisabledState 1 PR_SPEC_ENABLE).2 = -EPERM ∧
    (ssb_prctl_set forceDisabledState 1 PR_SPEC_ENABLE).1 = forceDisabledState ∧
    arch_prctl_spec_ctrl_set forceDisabledState 1 1 PR_SPEC_ENABLE =
      (forceDisabledState, -ENODEV) :=
  have h := C4_distinct_errors_nothing_applied forceDisabledState 1 1 PR_SPEC_ENABLE
  ⟨((h.2.1 (Or.inl (by decide))).1).2 ⟨rfl, by decide⟩,
    h.2.2.2.2.1 (by decide),
    h.2.2.1 (by decide)⟩

/-! ## C5 -/

/-- C5: in the modes `PRCTL` and `SECCOMP` a successful `ssb_prctl_set` returns 0 and has
exactly these effects. `PR_SPEC_ENABLE` on a task that is not force-disabled clears
`disabled` and leaves `force-disabled` clear; `PR_SPEC_DISABLE` sets `disabled` and keeps
`force-disabled` as it was; `PR_SPEC_FORCE_DISABLE` sets both. In all three cases the
marker `TIF_SPEC_FORCE_UPDATE` of the target task is set, its other thread flags and all
other tasks are unchanged, the trace grows by one `speculation_ctrl_update_current` when
the target is the current task and by nothing otherwise, and no other part of the state
changes. -/
theorem C5_successful_set_effects (s : State) (task : Nat)
    (hm : s.ssb_mode = SPEC_STORE_BYPASS_PRCTL ∨ s.ssb_mode = SPEC_STORE_BYPASS_SECCOMP) :
    (∀ ctrl d f,
      ((ctrl = PR_SPEC_ENABLE ∧ task_spec_ssb_force_disable s task = false ∧
          d = false ∧ f = false) ∨
        (ctrl = PR_SPEC_DISABLE ∧ d = true ∧ f = task_spec_ssb_force_disable s task) ∨
        (ctrl = PR_SPEC_FORCE_DISABLE ∧ d = true ∧ f = true)) →
      (ssb_prctl_set s task ctrl).2 = 0 ∧
      (ssb_prctl_set s task ctrl).1.tasks task = marked (s.tasks task) d f ∧
      (∀ u, u ≠ task → (ssb_prctl_set s task ctrl).1.tasks u = s.tasks u) ∧
      (ssb_prctl_set s task ctrl).1.trace = s.trace ++ update_events s task ∧
      { (ssb_prctl_set s task ctrl).1 with tasks := s.tasks, trace := s.trace } = s) ∧
    (Event.speculation_ctrl_update_current ∈ update_events s task ↔ task = s.current) := by
  constructor
  · intro ctrl d f h
    have hm2 : ¬ (s.ssb_mode ≠ SPEC_STORE_BYPASS_PRCTL ∧
        s.ssb_mode ≠ SPEC_STORE_BYPASS_SECCOMP) := by tauto
    rcases h with ⟨rfl, hf, rfl, rfl⟩ | ⟨rfl, rfl, rfl⟩ | ⟨rfl, rfl, rfl⟩
    · have hf2 : ¬ (task_spec_ssb_force_disable s task = true) := by simp [hf]
      unfold task_spec_ssb_force_disable at hf
      unfold ssb_prctl_set
      rw [if_neg hm2, if_pos rfl, if_neg hf2]
      unfold task_update_spec_tif task_clear_spec_ssb_disable update_task emit marked
        update_events
      simp only []
      refine ⟨trivial, ?_, ?_, ?_, ?_⟩
      · split_ifs <;> simp_all
      · intro u hu
        split_ifs <;> simp_all
      · split_ifs <;> simp_all
      · split_ifs <;> rfl
    · unfold ssb_prctl_set
      rw [if_neg hm2, if_neg (by decide), if_pos rfl]
      unfold task_spec_ssb_force_disable task_update_spec_tif task_set_spec_ssb_disable
        update_task emit marked update_events
      simp only []
      refine ⟨trivial, ?_, ?_, ?_, ?_⟩
      · split_ifs <;> simp_all
      · intro u hu
        split_ifs <;> simp_all
      · split_ifs <;> simp_all
      · split_ifs <;> rfl
    · unfold ssb_prctl_set
      rw [if_neg hm2, if_neg (by decide), if_neg (by decide), if_pos rfl]
      unfold task_update_spec_tif task_set_spec_ssb_force_disable task_set_spec_ssb_disable
        update_task emit marked update_events
      simp only []
      refine ⟨trivial, ?_, ?_, ?_, ?_⟩
      · split_ifs <;> simp_all
      · intro u hu
        split_ifs <;> simp_all
      · split_ifs <;> simp_all
      · split_ifs <;> rfl
  · unfold update_events
    split_ifs with h <;> simp [h]

/-- C5 at a concrete input: in per-task mode, with task 0 current, ForceDisable on task 1
returns 0, sets both flags and the marker of task 1 and issues no register update, while
Disable on task 0 issues the update. -/
theorem C5_successful_set_effects_witness :
    ((ssb_prctl_set prctlState 1 PR_SPEC_FORCE_DISABLE).2 = 0 ∧
      (ssb_prctl_set prctlState 1 PR_SPEC_FORCE_DISABLE).1.tasks 1 =
        marked (prctlState.tasks 1) true true ∧
      (ssb_prctl_set prctlState 1 PR_SPEC_FORCE_DISABLE).1.trace = prctlState.trace) ∧
    (ssb_prctl_set prctlState 0 PR_SPEC_DISABLE).1.trace =
      prctlState.trace ++ [Event.speculation_ctrl_update_current] :=
  have h1 := (C5_successful_set_effects prctlState 1 (Or.inl rfl)).1 PR_SPEC_FORCE_DISABLE
    true true (Or.inr (Or.inr ⟨rfl, rfl, rfl⟩))
  have h0 := (C5_successful_set_effects prctlState 0 (Or.inl rfl)).1 PR_SPEC_DISABLE
    true false (Or.inr (Or.inl ⟨rfl, rfl, by decide⟩))
  ⟨⟨h1.1, h1.2.1, by rw [h1.2.2.2.1]; decide⟩, by rw [h0.2.2.2.1]; decide⟩

/-! ## C6 -/

/-- C6, counterexample: task 1 is force-disabled in per-task mode; a following
`PR_SPEC_DISABLE` on task 1 succeeds (returns 0), and the query then returns
`PR_SPEC_PRCTL | PR_SPEC_FORCE_DISABLE`, not `PR_SPEC_PRCTL | PR_SPEC_DISABLE`. -/
theorem C6_disable_after_force_reports_force :
    (ssb_prctl_set forceDisabledState 1 PR_SPEC_DISABLE).2 = 0 ∧
    ssb_prctl_get (ssb_prctl_set forceDisabledState 1 PR_SPEC_DISABLE).1 1 =
      ((PR_SPEC_PRCTL ||| PR_SPEC_FORCE_DISABLE : Nat) : Int) ∧
    ssb_prctl_get (ssb_prctl_set forceDisabledState 1 PR_SPEC_DISABLE).1 1 ≠
      ((PR_SPEC_PRCTL ||| PR_SPEC_DISABLE : Nat) : Int) := by
  decide

/-- C6, amended: the query is a function of the mode, the task's two flags and the
vulnerability flag only (two states that agree on these give the same answer), and it
returns a value without a state. `ssb_prctl_get` returns `PR_SPEC_DISABLE` in mode
`DISABLE`; in the modes `PRCTL` and `SECCOMP` it returns `PR_SPEC_PRCTL` combined with
`PR_SPEC_FORCE_DISABLE` if the task is force-disabled, else with `PR_SPEC_DISABLE` if it is
disabled, else with `PR_SPEC_ENABLE`; in mode `NONE` it returns `PR_SPEC_ENABLE` if
`X86_BUG_SPEC_STORE_BYPASS` is present and `PR_SPEC_NOT_AFFECTED` otherwise;
`arch_prctl_spec_ctrl_get` returns `-ENODEV` for every other class. After a successful set
of Enable or ForceDisable the query returns `PR_SPEC_PRCTL` combined with Enable or
ForceDisable; after a successful Disable it returns `PR_SPEC_PRCTL | PR_SPEC_DISABLE` if
the task was not force-disabled before and `PR_SPEC_PRCTL | PR_SPEC_FORCE_DISABLE` if it
was. -/
theorem C6_query_table_and_after_set (s s2 : State) (task : Nat) :
    (s.ssb_mode = SPEC_STORE_BYPASS_DISABLE →
      ssb_prctl_get s task = ((PR_SPEC_DISABLE : Nat) : Int)) ∧
    ((s.ssb_mode = SPEC_STORE_BYPASS_PRCTL ∨ s.ssb_mode = SPEC_STORE_BYPASS_SECCOMP) →
      ssb_prctl_get s task =
        if task_spec_ssb_force_disable s task then
          ((PR_SPEC_PRCTL ||| PR_SPEC_FORCE_DISABLE : Nat) : Int)
        else if task_spec_ssb_disable s task then
          ((PR_SPEC_PRCTL ||| PR_SPEC_DISABLE : Nat) : Int)
        else ((PR_SPEC_PRCTL ||| PR_SPEC_ENABLE : Nat) : Int)) ∧
    (s.ssb_mode = SPEC_STORE_BYPASS_NONE →
      ssb_prctl_get s task =
        if boot_cpu_has_bug s X86_BUG_SPEC_STORE_BYPASS then ((PR_SPEC_ENABLE : Nat) : Int)
        else ((PR_SPEC_NOT_AFFECTED : Nat) : Int)) ∧
    (∀ which, which ≠ PR_SPEC_STORE_BYPASS →
      arch_prctl_spec_ctrl_get s task which = -ENODEV) ∧
    (s2.ssb_mode = s.ssb_mode →
      task_spec_ssb_disable s2 task = task_spec_ssb_disable s task →
      task_spec_ssb_force_disable s2 task = task_spec_ssb_force_disable s task →
      boot_cpu_has_bug s2 X86_BUG_SPEC_STORE_BYPASS =
        boot_cpu_has_bug s X86_BUG_SPEC_STORE_BYPASS →
      ssb_prctl_get s2 task = ssb_prctl_get s task) ∧
    (∀ ctrl, (ssb_prctl_set s task ctrl).2 = 0 →
      ssb_prctl_get (ssb_prctl_set s task ctrl).1 task =
        if ctrl = PR_SPEC_ENABLE then ((PR_SPEC_PRCTL ||| PR_SPEC_ENABLE : Nat) : Int)
        else if ctrl = PR_SPEC_FORCE_DISABLE then
          ((PR_SPEC_PRCTL ||| PR_SPEC_FORCE_DISABLE : Nat) : Int)
        else if task_spec_ssb_force_disable s task then
          ((PR_SPEC_PRCTL ||| PR_SPEC_FORCE_DISABLE : Nat) : Int)
        else ((PR_SPEC_PRCTL ||| PR_SPEC_DISABLE : Nat) : Int)) := by
  refine ⟨?_, ?_, ?_, ?_, ?_, ?_⟩
  · intro h
    unfold ssb_prctl_get
    simp [h]
  · intro h
    unfold ssb_prctl_get
    rcases h with h | h <;> simp [h]
  · intro h
    unfold ssb_prctl_get
    simp [h]
  · intro which hw
    unfold arch_prctl_spec_ctrl_get
    rw [if_neg hw]
  · intro h1 h2 h3 h4
    unfold ssb_prctl_get
    rw [h1, h2, h3, h4]
  · intro ctrl hok
    have hmode : s.ssb_mode = SPEC_STORE_BYPASS_PRCTL ∨
        s.ssb_mode = SPEC_STORE_BYPASS_SECCOMP := by
      by_contra hc
      unfold ssb_prctl_set at hok
      rw [if_pos (by tauto)] at hok
      simp [ ENXIO] at hok
    have hget : ∀ s1 : State, s1.ssb_mode = s.ssb_mode →
        ssb_prctl_get s1 task =
          if task_spec_ssb_force_disable s1 task then
            ((PR_SPEC_PRCTL ||| PR_SPEC_FORCE_DISABLE : Nat) : Int)
          else if task_spec_ssb_disable s1 task then
            ((PR_SPEC_PRCTL ||| PR_SPEC_DISABLE : Nat) : Int)
          else ((PR_SPEC_PRCTL ||| PR_SPEC_ENABLE : Nat) : Int) := by
      intro s1 h1
      unfold ssb_prctl_get
      rcases hmode with h | h <;> simp [h1, h]
    rw [hget _ (ssb_prctl_set_ssb_mode s task ctrl)]
    have hm2 : ¬ (s.ssb_mode ≠ SPEC_STORE_BYPASS_PRCTL ∧
        s.ssb_mode ≠ SPEC_STORE_BYPASS_SECCOMP) := by tauto
    unfold ssb_prctl_set at hok ⊢
    rw [if_neg hm2] at hok ⊢
    unfold task_spec_ssb_force_disable task_spec_ssb_disable task_update_spec_tif
      task_set_spec_ssb_force_disable task_set_spec_ssb_disable task_clear_spec_ssb_disable
      update_task emit at *
    simp only [] at hok ⊢
    split_ifs at hok ⊢ <;>
      simp_all [EPERM, ERANGE, PR_SPEC_ENABLE, PR_SPEC_DISABLE, PR_SPEC_FORCE_DISABLE]

/-- C6, amended, at concrete inputs: in per-task mode the query on the fresh task 1 gives
`PR_SPEC_PRCTL | PR_SPEC_ENABLE`, and after a successful ForceDisable it gives
`PR_SPEC_PRCTL | PR_SPEC_FORCE_DISABLE`; a query for class 1 gives `-ENODEV`. -/
theorem C6_query_table_and_after_set_witness :
    ssb_prctl_get prctlState 1 = ((PR_SPEC_PRCTL ||| PR_SPEC_ENABLE : Nat) : Int) ∧
    ssb_prctl_get (ssb_prctl_set prctlState 1 PR_SPEC_FORCE_DISABLE).1 1 =
      ((PR_SPEC_PRCTL ||| PR_SPEC_FORCE_DISABLE : Nat) : Int) ∧
    arch_prctl_spec_ctrl_get prctlState 1 1 = -ENODEV :=
  have h := C6_query_table_and_after_set prctlState prctlState 1
  ⟨by rw [h.2.1 (Or.inl rfl)]; decide,
    by rw [h.2.2.2.2.2 PR_SPEC_FORCE_DISABLE (by decide)]; decide,
    h.2.2.2.1 1 (by decide)⟩

/-! ## Option parser -/

theorem strncmp_eq_zero_iff (opt : List Char) (hnul : Char.ofNat 0 ∉ opt) :
    ∀ arg : List Char, strncmp arg opt opt.length = 0 ↔ arg.take opt.length = opt := by
  induction opt with
  | nil => intro arg; simp [strncmp]
  | cons c cs ih =>
    intro arg
    have hc : c ≠ Char.ofNat 0 := fun h => hnul (by simp [h])
    have hcs : Char.ofNat 0 ∉ cs := fun h => hnul (by simp [h])
    have hsign : ∀ b : Bool, (if b = true then (-1 : Int) else 1) ≠ 0 := by
      intro b; cases b <;> simp
    cases arg with
    | nil =>
      simp only [List.length_cons, strncmp, List.headD_nil, List.headD_cons]
      rw [if_pos (Ne.symm hc)]
      constructor
      · intro h
        exact absurd h (by split_ifs <;> simp)
      · intro h; simp at h
    | cons a as =>
      simp only [List.length_cons, strncmp, List.headD_cons, List.tail_cons,
        List.take_succ_cons]
      by_cases hac : a = c
      · subst hac
        simp only [ne_eq, not_true_eq_false, if_false, if_neg hc]
        rw [ih hcs as]
        simp
      · rw [if_pos hac]
        constructor
        · intro h
          exact absurd h (by split_ifs <;> simp)
        · intro h; simp at h; exact absurd h.1 hac

theorem match_option_iff (arg : List Char) (arglen : Int) (opt : List Char)
    (hnul : Char.ofNat 0 ∉ opt) :
    match_option arg arglen opt = true ↔
      (arglen = (strlen opt : Nat) ∧ arg.take arglen.toNat = opt) := by
  unfold match_option strlen
  simp only [Bool.and_eq_true, decide_eq_true_eq, Int.toNat_ofNat]
  rw [strncmp_eq_zero_iff opt hnul arg]
  constructor
  · rintro ⟨h1, h2⟩
    subst h1
    simpa using h2
  · rintro ⟨h1, h2⟩
    subst h1
    simpa using h2

theorem match_option_token (v opt : List Char) (hnul : Char.ofNat 0 ∉ opt)
    (hlen : opt.length ≤ 19) :
    match_option (v.take 19) (v.length : Nat) opt = decide (opt = v) := by
  rw [Bool.eq_iff_iff, match_option_iff _ _ _ hnul]
  simp only [strlen, Nat.cast_inj, Int.toNat_ofNat, decide_eq_true_eq, List.take_take]
  constructor
  · rintro ⟨h1, h2⟩
    have h3 : min v.length 19 = v.length := by
      have := congrArg List.length h2
      simp only [List.length_take] at this
      omega
    rw [h3, List.take_length] at h2
    exact h2.symm
  · rintro rfl
    refine ⟨rfl, ?_⟩
    rw [Nat.min_eq_left hlen, List.take_length]

theorem find?_ext {α : Type} (p q : α → Bool) (l : List α) (h : ∀ x ∈ l, p x = q x) :
    l.find? p = l.find? q := by
  induction l with
  | nil => rfl
  | cons x xs ih =>
    simp only [List.find?_cons, h x (List.mem_cons_self _ _)]
    rw [ih (fun y hy => h y (List.mem_cons_of_mem _ hy))]

theorem mitigation_options_wf :
    ∀ o ∈ mitigation_options, Char.ofNat 0 ∉ o.option ∧ o.option.length ≤ 19 := by
  decide

theorem ssb_mitigation_options_wf :
    ∀ o ∈ ssb_mitigation_options, Char.ofNat 0 ∉ o.option ∧ o.option.length ≤ 19 := by
  decide

theorem ssb_find_eq (v : List Char) :
    ssb_mitigation_options.find?
        (fun o => match_option (v.take (20 - 1)) (v.length : Nat) o.option) =
      ssb_mitigation_options.find? (fun o => decide (o.option = v)) :=
  find?_ext _ _ _ (fun o ho =>
    match_option_token v o.option (ssb_mitigation_options_wf o ho).1
      (ssb_mitigation_options_wf o ho).2)

theorem spectre_v2_find_eq (v : List Char) :
    mitigation_options.find?
        (fun o => match_option (v.take (20 - 1)) (v.length : Nat) o.option) =
      mitigation_options.find? (fun o => decide (o.option = v)) :=
  find?_ext _ _ _ (fun o ho =>
    match_option_token v o.option (mitigation_options_wf o ho).1
      (mitigation_options_wf o ho).2)

theorem ssb_parse_eq_reference (s : State) : (ssb_parse_cmdline s).2 = ssb_reference s := by
  unfold ssb_parse_cmdline ssb_reference reference_lookup cmdline_find_option_bool
    cmdline_find_option
  cases hf : s.boot_command_line.flags "nospec_store_bypass_disable"
  · cases ho : s.boot_command_line.options "spec_store_bypass_disable" with
    | none => simp
    | some v =>
      simp only [Bool.false_eq_true, if_false, ssb_find_eq, ssb_rows, List.find?_map]
      have hneg : ¬ ((v.length : Nat) : Int) < 0 := by omega
      rw [if_neg hneg]
      cases hfo : ssb_mitigation_options.find? (fun o => decide (o.option = v)) with
      | none =>
        have : List.find? ((fun row : List Char × ssb_mitigation_cmd => decide (row.1 = v)) ∘
            fun o => (o.option, o.cmd)) ssb_mitigation_options = none := hfo
        simp [this]
      | some o =>
        have : List.find? ((fun row : List Char × ssb_mitigation_cmd => decide (row.1 = v)) ∘
            fun o => (o.option, o.cmd)) ssb_mitigation_options = some o := hfo
        simp [this]
  · simp

theorem spectre_v2_parse_eq (cfg : Kconfig) (s : State) :
    (spectre_v2_parse_cmdline cfg s).2 =
      if downgrade_applies cfg s (spectre_v2_reference s) then SPECTRE_V2_CMD_AUTO
      else spectre_v2_reference s := by
  unfold spectre_v2_parse_cmdline spectre_v2_reference reference_lookup
    cmdline_find_option_bool cmdline_find_option
  cases hf : s.boot_command_line.flags "nospectre_v2"
  · cases ho : s.boot_command_line.options "spectre_v2" with
    | none => simp [downgrade_applies, is_retpoline_cmd]
    | some v =>
      simp only [Bool.false_eq_true, if_false, spectre_v2_find_eq, spectre_v2_rows,
        List.find?_map]
      have hneg : ¬ ((v.length : Nat) : Int) < 0 := by omega
      rw [if_neg hneg]
      cases hfo : mitigation_options.find? (fun o => decide (o.option = v)) with
      | none =>
        have : List.find? ((fun row : List Char × spectre_v2_mitigation_cmd =>
            decide (row.1 = v)) ∘ fun o => (o.option, o.cmd)) mitigation_options = none := hfo
        simp [this, downgrade_applies, is_retpoline_cmd]
      | some o =>
        have : List.find? ((fun row : List Char × spectre_v2_mitigation_cmd =>
            decide (row.1 = v)) ∘ fun o => (o.option, o.cmd)) mitigation_options = some o := hfo
        simp only [this, Option.map_some']
        cases hc : o.cmd <;> cases hr : cfg.CONFIG_RETPOLINE <;>
          by_cases hv : s.boot_cpu_data.x86_vendor = X86_VENDOR_AMD <;>
          simp [downgrade_applies, is_retpoline_cmd, hv, hr, hc]
  · simp [downgrade_applies, is_retpoline_cmd]

theorem ssb_parse_unknown (s : State) (v : List Char)
    (hf : s.boot_command_line.flags "nospec_store_bypass_disable" = false)
    (ho : s.boot_command_line.options "spec_store_bypass_disable" = some v)
    (hv : ∀ o ∈ ssb_mitigation_options, o.option ≠ v) :
    ssb_parse_cmdline s =
      (printk s ("Speculative Store Bypass: unknown option (" ++ String.mk (v.take 19) ++
        "). Switching to AUTO select\n"), SPEC_STORE_BYPASS_CMD_AUTO) := by
  have hnone : ssb_mitigation_options.find? (fun o => decide (o.option = v)) = none := by
    rw [List.find?_eq_none]
    intro o ho
    simpa using hv o ho
  unfold ssb_parse_cmdline cmdline_find_option_bool cmdline_find_option
  have hneg : ¬ ((v.length : Nat) : Int) < 0 := by omega
  simp only [hf, ho, Bool.false_eq_true, if_false, ssb_find_eq, hnone, if_neg hneg]

theorem spectre_v2_parse_unknown (cfg : Kconfig) (s : State) (v : List Char)
    (hf : s.boot_command_line.flags "nospectre_v2" = false)
    (ho : s.boot_command_line.options "spectre_v2" = some v)
    (hv : ∀ o ∈ mitigation_options, o.option ≠ v) :
    spectre_v2_parse_cmdline cfg s =
      (printk s ("Spectre V2 : unknown option (" ++ String.mk (v.take 19) ++
        "). Switching to AUTO select\n"), SPECTRE_V2_CMD_AUTO) := by
  have hnone : mitigation_options.find? (fun o => decide (o.option = v)) = none := by
    rw [List.find?_eq_none]
    intro o ho
    simpa using hv o ho
  unfold spectre_v2_parse_cmdline cmdline_find_option_bool cmdline_find_option
  have hneg : ¬ ((v.length : Nat) : Int) < 0 := by omega
  simp only [hf, ho, Bool.false_eq_true, if_false, spectre_v2_find_eq, hnone, if_neg hneg]

theorem ssb_tokens_no_proper_part :
    ∀ o ∈ ssb_mitigation_options, ∀ o2 ∈ ssb_mitigation_options,
      ¬ proper_part o2.option o.option := by
  decide

theorem spectre_v2_tokens_proper_part :
    ∀ o ∈ mitigation_options, ∀ o2 ∈ mitigation_options,
      proper_part o2.option o.option → o2.option = "retpoline".toList := by
  decide

/-! ## C7 -/

/-- C7, counterexample: `retpoline` is a proper prefix of the token `retpoline,amd` of
`mitigation_options`, yet with `spectre_v2=retpoline` on a build with retpoline support
`spectre_v2_parse_cmdline` returns `SPECTRE_V2_CMD_RETPOLINE`, not the Auto command,
because `retpoline` is a token itself. -/
theorem C7_prefix_retpoline_is_a_token :
    proper_part "retpoline".toList "retpoline,amd".toList ∧
    "retpoline,amd".toList ∈ mitigation_options.map (fun o => o.option) ∧
    (spectre_v2_parse_cmdline cfgRetpoline retpolineArg).2 = SPECTRE_V2_CMD_RETPOLINE ∧
    (spectre_v2_parse_cmdline cfgRetpoline retpolineArg).2 ≠ SPECTRE_V2_CMD_AUTO := by
  decide

/-- C7, amended: option text matching is exact. Let `arg` be a proper prefix or proper
substring of a token `t`. If `t` is a token of `ssb_mitigation_options` and `arg` is the
text of `spec_store_bypass_disable=` (the disable flag being absent, so that the text is
parsed at all), `ssb_parse_cmdline` logs the unknown-option diagnostic and returns Auto.
If `t` is a token of `mitigation_options`, `arg` is the text of `spectre_v2=` (the flag
`nospectre_v2` being absent) and `arg` is not the token `retpoline` itself,
`spectre_v2_parse_cmdline` logs the unknown-option diagnostic and returns Auto. -/
theorem C7_proper_part_of_token_is_unknown (cfg : Kconfig) (s : State) (arg t : List Char)
    (hpart : proper_part arg t) :
    (t ∈ ssb_mitigation_options.map (fun o => o.option) →
      s.boot_command_line.flags "nospec_store_bypass_disable" = false →
      s.boot_command_line.options "spec_store_bypass_disable" = some arg →
      ssb_parse_cmdline s =
        (printk s ("Speculative Store Bypass: unknown option (" ++ String.mk (arg.take 19) ++
          "). Switching to AUTO select\n"), SPEC_STORE_BYPASS_CMD_AUTO)) ∧
    (t ∈ mitigation_options.map (fun o => o.option) →
      arg ≠ "retpoline".toList →
      s.boot_command_line.flags "nospectre_v2" = false →
      s.boot_command_line.options "spectre_v2" = some arg →
      spectre_v2_parse_cmdline cfg s =
        (printk s ("Spectre V2 : unknown option (" ++ String.mk (arg.take 19) ++
          "). Switching to AUTO select\n"), SPECTRE_V2_CMD_AUTO)) := by
  constructor
  · intro ht hf ho
    obtain ⟨o, hmem, rfl⟩ := List.mem_map.mp ht
    refine ssb_parse_unknown s arg hf ho ?_
    intro o2 hmem2 heq
    subst heq
    exact ssb_tokens_no_proper_part o hmem o2 hmem2 hpart
  · intro ht hne hf ho
    obtain ⟨o, hmem, rfl⟩ := List.mem_map.mp ht
    refine spectre_v2_parse_unknown cfg s arg hf ho ?_
    intro o2 hmem2 heq
    subst heq
    exact hne (spectre_v2_tokens_proper_part o hmem o2 hmem2 hpart)

/-- C7, amended, at a concrete input: `sec` is a proper prefix of `seccomp` and `retpol`
one of `retpoline`; both parsers return Auto on them. -/
theorem C7_proper_part_of_token_is_unknown_witness :
    (ssb_parse_cmdline truncatedArgs).2 = SPEC_STORE_BYPASS_CMD_AUTO ∧
    (spectre_v2_parse_cmdline cfgRetpoline truncatedArgs).2 = SPECTRE_V2_CMD_AUTO :=
  ⟨congrArg Prod.snd
      ((C7_proper_part_of_token_is_unknown cfgRetpoline truncatedArgs "sec".toList
        "seccomp".toList (by decide)).1 (by decide) (by decide) (by decide)),
    congrArg Prod.snd
      ((C7_proper_part_of_token_is_unknown cfgRetpoline truncatedArgs "retpol".toList
        "retpoline".toList (by decide)).2 (by decide) (by decide) (by decide) (by decide))⟩

/-! ## C8 -/

/-- C8: the option parsers equal the reference lookup. For an option text `opt` without
an embedded NUL, `match_option(arg, arglen, opt)` is true iff `arglen = strlen(opt)` and
the first `arglen` characters of `arg` are `opt`. `ssb_parse_cmdline` returns what
`reference_lookup` returns on `ssb_mitigation_options` (None if
`nospec_store_bypass_disable` is present, else Auto if the keyed option is absent, else
the command of the row whose token equals the text, else Auto), and so does
`spectre_v2_parse_cmdline` on `mitigation_options` whenever no downgrade condition applies
to the command looked up. -/
theorem C8_parsers_equal_reference_lookup (cfg : Kconfig) (s : State) :
    (∀ (arg : List Char) (arglen : Int) (opt : List Char), Char.ofNat 0 ∉ opt →
      (match_option arg arglen opt = true ↔
        (arglen = (strlen opt : Nat) ∧ arg.take arglen.toNat = opt))) ∧
    (ssb_parse_cmdline s).2 =
      reference_lookup ssb_rows SPEC_STORE_BYPASS_CMD_NONE SPEC_STORE_BYPASS_CMD_AUTO
        (s.boot_command_line.flags "nospec_store_bypass_disable")
        (s.boot_command_line.options "spec_store_bypass_disable") ∧
    (downgrade_applies cfg s
        (reference_lookup spectre_v2_rows SPECTRE_V2_CMD_NONE SPECTRE_V2_CMD_AUTO
          (s.boot_command_line.flags "nospectre_v2")
          (s.boot_command_line.options "spectre_v2")) = false →
      (spectre_v2_parse_cmdline cfg s).2 =
        reference_lookup spectre_v2_rows SPECTRE_V2_CMD_NONE SPECTRE_V2_CMD_AUTO
          (s.boot_command_line.flags "nospectre_v2")
          (s.boot_command_line.options "spectre_v2")) := by
  refine ⟨fun arg arglen opt h => match_option_iff arg arglen opt h,
    ssb_parse_eq_reference s, ?_⟩
  intro h
  rw [spectre_v2_parse_eq]
  unfold spectre_v2_reference
  rw [h]
  simp

/-- C8 at a concrete input: `match_option("off", 3, "off")` is true, and with
`spectre_v2=retpoline` on a build with retpoline support the parser returns the command of
the row `retpoline`, as the reference lookup does. -/
theorem C8_parsers_equal_reference_lookup_witness :
    match_option "off".toList 3 "off".toList = true ∧
    (spectre_v2_parse_cmdline cfgRetpoline retpolineArg).2 = SPECTRE_V2_CMD_RETPOLINE :=
  have h := C8_parsers_equal_reference_lookup cfgRetpoline retpolineArg
  ⟨(h.1 "off".toList 3 "off".toList (by decide)).2 ⟨by decide, by decide⟩,
    (h.2.2 (by decide)).trans (by decide)⟩

/-! ## C9 -/

theorem spectre_v2_reference_of_token (s : State) (o : mitigation_option)
    (ho : o ∈ mitigation_options)
    (hf : s.boot_command_line.flags "nospectre_v2" = false)
    (hopt : s.boot_command_line.options "spectre_v2" = some o.option) :
    spectre_v2_reference s = o.cmd := by
  have hrow : ∀ o ∈ mitigation_options,
      spectre_v2_rows.find? (fun row => decide (row.1 = o.option)) =
        some (o.option, o.cmd) := by
    decide
  unfold spectre_v2_reference reference_lookup
  simp only [hf, hopt, hrow o ho, Bool.false_eq_true, if_false]

/-- C9: unsatisfiable Spectre v2 requests are downgraded to Auto. For every command line,
`spectre_v2_parse_cmdline` returns one of the three retpoline commands only if
`CONFIG_RETPOLINE` is enabled and returns `SPECTRE_V2_CMD_RETPOLINE_AMD` only if the CPU
vendor is AMD. When the text of `spectre_v2=` is the token of a row `o` (and
`nospectre_v2` is absent, so that the text is matched at all): a retpoline row without
`CONFIG_RETPOLINE` yields Auto, the row `retpoline,amd` on a non-AMD CPU yields Auto, and
in every other case the command of the row is returned unchanged. -/
theorem C9_unsatisfiable_request_downgraded (cfg : Kconfig) (s : State) :
    (is_retpoline_cmd (spectre_v2_parse_cmdline cfg s).2 = true →
      cfg.CONFIG_RETPOLINE = true) ∧
    ((spectre_v2_parse_cmdline cfg s).2 = SPECTRE_V2_CMD_RETPOLINE_AMD →
      s.boot_cpu_data.x86_vendor = X86_VENDOR_AMD) ∧
    (∀ o ∈ mitigation_options,
      s.boot_command_line.flags "nospectre_v2" = false →
      s.boot_command_line.options "spectre_v2" = some o.option →
      ((is_retpoline_cmd o.cmd = true ∧ cfg.CONFIG_RETPOLINE = false) →
        (spectre_v2_parse_cmdline cfg s).2 = SPECTRE_V2_CMD_AUTO) ∧
      ((o.cmd = SPECTRE_V2_CMD_RETPOLINE_AMD ∧
          s.boot_cpu_data.x86_vendor ≠ X86_VENDOR_AMD) →
        (spectre_v2_parse_cmdline cfg s).2 = SPECTRE_V2_CMD_AUTO) ∧
      (¬ (is_retpoline_cmd o.cmd = true ∧ cfg.CONFIG_RETPOLINE = false) →
        ¬ (o.cmd = SPECTRE_V2_CMD_RETPOLINE_AMD ∧
          s.boot_cpu_data.x86_vendor ≠ X86_VENDOR_AMD) →
        (spectre_v2_parse_cmdline cfg s).2 = o.cmd)) := by
  refine ⟨?_, ?_, ?_⟩
  · rw [spectre_v2_parse_eq]
    cases hc : spectre_v2_reference s <;> cases hr : cfg.CONFIG_RETPOLINE <;>
      simp [downgrade_applies, is_retpoline_cmd, hr]
  · rw [spectre_v2_parse_eq]
    by_cases hv : s.boot_cpu_data.x86_vendor = X86_VENDOR_AMD
    · intro _; exact hv
    · cases hc : spectre_v2_reference s <;> cases hr : cfg.CONFIG_RETPOLINE <;>
        simp [downgrade_applies, is_retpoline_cmd, hv, hr]
  · intro o ho hf hopt
    rw [spectre_v2_parse_eq, spectre_v2_reference_of_token s o ho hf hopt]
    refine ⟨?_, ?_, ?_⟩
    · rintro ⟨h1, h2⟩
      simp [downgrade_applies, h1, h2]
    · rintro ⟨h1, h2⟩
      simp [downgrade_applies, h1, h2]
    · intro h1 h2
      have : downgrade_applies cfg s o.cmd = false := by
        unfold downgrade_applies
        cases hr : cfg.CONFIG_RETPOLINE <;> cases hi : is_retpoline_cmd o.cmd <;>
          simp_all
      simp [this]

/-- C9 at a concrete input: on an Intel machine with retpoline support compiled in,
`spectre_v2=retpoline,amd` is downgraded to Auto and `spectre_v2=retpoline` is returned
unchanged. -/
theorem C9_unsatisfiable_request_downgraded_witness :
    (spectre_v2_parse_cmdline cfgRetpoline retpolineAmdArg).2 = SPECTRE_V2_CMD_AUTO ∧
    (spectre_v2_parse_cmdline cfgRetpoline retpolineArg).2 = SPECTRE_V2_CMD_RETPOLINE ∧
    cfgRetpoline.CONFIG_RETPOLINE = true :=
  ⟨((C9_unsatisfiable_request_downgraded cfgRetpoline retpolineAmdArg).2.2
      ⟨"retpoline,amd".toList, SPECTRE_V2_CMD_RETPOLINE_AMD, false⟩ (by decide) (by decide)
      (by decide)).2.1 ⟨rfl, by decide⟩,
    ((C9_unsatisfiable_request_downgraded cfgRetpoline retpolineArg).2.2
      ⟨"retpoline".toList, SPECTRE_V2_CMD_RETPOLINE, false⟩ (by decide) (by decide)
      (by decide)).2.2 (by decide) (by decide),
    (C9_unsatisfiable_request_downgraded cfgRetpoline retpolineArg).1 (by decide)⟩

/-! ## C10 -/

theorem spec2_print_trace (s : State) (r : List Char) (secure : Bool) :
    ∃ msgs : List String,
      (if secure then spec2_print_if_secure s r else spec2_print_if_insecure s r) =
        { s with trace := s.trace ++ msgs.map Event.printk } := by
  unfold spec2_print_if_secure spec2_print_if_insecure
  split_ifs
  · exact ⟨[_], rfl⟩
  · exact ⟨[], by simp⟩
  · exact ⟨[_], rfl⟩
  · exact ⟨[], by simp⟩

theorem spectre_v2_parse_cmdline_trace (cfg : Kconfig) (s : State) :
    ∃ msgs : List String,
      (spectre_v2_parse_cmdline cfg s).1 =
        { s with trace := s.trace ++ msgs.map Event.printk } := by
  unfold spectre_v2_parse_cmdline
  split
  · exact ⟨[], by simp⟩
  · simp only []
    split
    · exact ⟨[], by simp⟩
    · split
      · exact ⟨[_], rfl⟩
      · split
        · exact ⟨[_], rfl⟩
        · split
          · exact ⟨[_], rfl⟩
          · exact spec2_print_trace s _ _

theorem spectre_v2_parse_off (cfg : Kconfig) (s : State)
    (hoff : s.boot_command_line.flags "nospectre_v2" = true ∨
      s.boot_command_line.options "spectre_v2" = some "off".toList) :
    (spectre_v2_parse_cmdline cfg s).2 = SPECTRE_V2_CMD_NONE := by
  rw [spectre_v2_parse_eq]
  have href : spectre_v2_reference s = SPECTRE_V2_CMD_NONE := by
    cases hf : s.boot_command_line.flags "nospectre_v2"
    · rcases hoff with h | h
      · rw [hf] at h; exact absurd h (by decide)
      · exact spectre_v2_reference_of_token s ⟨"off".toList, SPECTRE_V2_CMD_NONE, false⟩
          (by decide) hf h
    · unfold spectre_v2_reference reference_lookup
      simp [hf]
  rw [href]
  simp [downgrade_applies, is_retpoline_cmd]

/-- C10, counterexample: an affected machine with retpoline compiled in is booted with
`spectre_v2=off`, and the control register read by `check_bugs` holds the STIBP bit.
The selector leaves the mode `SPECTRE_V2_NONE`, forces nothing and keeps the base value,
but the status string is `Vulnerable, STIBP`: it carries a suffix. -/
theorem C10_off_with_stibp_in_base_has_suffix :
    boot_cpu_has_bug affectedOff X86_BUG_SPECTRE_V2 = true ∧
    cfgRetpoline.CONFIG_RETPOLINE = true ∧
    (check_bugs cfgRetpoline affectedOff SPEC_CTRL_STIBP).spectre_v2_enabled =
      SPECTRE_V2_NONE ∧
    (check_bugs cfgRetpoline affectedOff SPEC_CTRL_STIBP).cpu_caps_set = [] ∧
    (check_bugs cfgRetpoline affectedOff SPEC_CTRL_STIBP).x86_spec_ctrl_base =
      SPEC_CTRL_STIBP ∧
    cpu_show_spectre_v2 cfgRetpoline (check_bugs cfgRetpoline affectedOff SPEC_CTRL_STIBP) =
      "Vulnerable, STIBP\n" ∧
    cpu_show_spectre_v2 cfgRetpoline (check_bugs cfgRetpoline affectedOff SPEC_CTRL_STIBP) ≠
      "Vulnerable\n" := by
  decide

/-- C10, amended: on hardware affected by Spectre v2, when the command line selects off
for the Spectre class (`nospectre_v2` or `spectre_v2=off`), for every build configuration
(in particular with retpoline compiled in) `spectre_v2_select_mitigation` leaves
`spectre_v2_enabled = SPECTRE_V2_NONE`, forces no capability flag, leaves
`x86_spec_ctrl_base` unchanged and adds nothing but diagnostics to the trace (no register
write). If, as at boot, none of the derived flags `USE_IBPB`, `USE_IBRS_FW`, `RSB_CTXSW`
is set and no module has been flagged, the status string of `cpu_show_spectre_v2` is
`Vulnerable`, followed by `, STIBP` exactly when the STIBP bit is set in
`x86_spec_ctrl_base`, and the line terminator; with that bit clear it is exactly
`Vulnerable` plus the line terminator. -/
theorem C10_off_leaves_vulnerable (cfg : Kconfig) (s : State)
    (hbug : boot_cpu_has_bug s X86_BUG_SPECTRE_V2 = true)
    (hoff : s.boot_command_line.flags "nospectre_v2" = true ∨
      s.boot_command_line.options "spectre_v2" = some "off".toList)
    (h0 : s.spectre_v2_enabled = SPECTRE_V2_NONE)
    (hmod : s.spectre_v2_bad_module = false)
    (hibpb : boot_cpu_has s X86_FEATURE_USE_IBPB = false)
    (hfw : boot_cpu_has s X86_FEATURE_USE_IBRS_FW = false)
    (hrsb : boot_cpu_has s X86_FEATURE_RSB_CTXSW = false) :
    (spectre_v2_select_mitigation cfg s).spectre_v2_enabled = SPECTRE_V2_NONE ∧
    (spectre_v2_select_mitigation cfg s).cpu_caps_set = s.cpu_caps_set ∧
    (spectre_v2_select_mitigation cfg s).boot_cpu_data = s.boot_cpu_data ∧
    (spectre_v2_select_mitigation cfg s).x86_spec_ctrl_base = s.x86_spec_ctrl_base ∧
    (∃ msgs : List String,
      (spectre_v2_select_mitigation cfg s).trace = s.trace ++ msgs.map Event.printk) ∧
    cpu_show_spectre_v2 cfg (spectre_v2_select_mitigation cfg s) =
      "Vulnerable" ++ (if s.x86_spec_ctrl_base &&& SPEC_CTRL_STIBP ≠ 0 then ", STIBP" else "")
        ++ "\n" ∧
    (s.x86_spec_ctrl_base &&& SPEC_CTRL_STIBP = 0 →
      cpu_show_spectre_v2 cfg (spectre_v2_select_mitigation cfg s) = "Vulnerable\n") := by
  obtain ⟨msgs, hp⟩ := spectre_v2_parse_cmdline_trace cfg s
  have hsel : spectre_v2_select_mitigation cfg s =
      { s with trace := s.trace ++ msgs.map Event.printk } := by
    unfold spectre_v2_select_mitigation
    simp only []
    rw [select_cmd_inert cfg _ _ (Or.inr (spectre_v2_parse_off cfg s hoff)), hp]
  have hshow : cpu_show_spectre_v2 cfg { s with trace := s.trace ++ msgs.map Event.printk } =
      "Vulnerable" ++
        (if s.x86_spec_ctrl_base &&& SPEC_CTRL_STIBP ≠ 0 then ", STIBP" else "") ++ "\n" := by
    unfold boot_cpu_has_bug boot_cpu_has at hbug
    unfold boot_cpu_has at hibpb hfw hrsb
    unfold cpu_show_spectre_v2 cpu_show_common
    simp only [boot_cpu_has_bug, boot_cpu_has, hbug, Bool.not_true, Bool.false_eq_true,
      if_false, h0, spectre_v2_strings, ibpb_state, hibpb, hfw, hrsb, stibp_state,
      spectre_v2_module_string, hmod, ite_self, String.append_empty]
    rw [if_neg (by decide)]
  rw [hsel]
  refine ⟨h0, rfl, rfl, rfl, ⟨msgs, rfl⟩, hshow, ?_⟩
  intro hz
  rw [hshow, if_neg (by simp [hz])]
  rfl

/-- C10, amended, at a concrete input: an affected machine booted with `spectre_v2=off`
on a build with retpoline, with a zero base value: the mode is `SPECTRE_V2_NONE`, nothing
is forced and the status string is `Vulnerable` plus the line terminator. -/
theorem C10_off_leaves_vulnerable_witness :
    (spectre_v2_select_mitigation cfgRetpoline affectedOff).spectre_v2_enabled =
      SPECTRE_V2_NONE ∧
    (spectre_v2_select_mitigation cfgRetpoline affectedOff).cpu_caps_set = [] ∧
    cpu_show_spectre_v2 cfgRetpoline (spectre_v2_select_mitigation cfgRetpoline affectedOff) =
      "Vulnerable\n" :=
  have h := C10_off_leaves_vulnerable cfgRetpoline affectedOff (by decide)
    (Or.inr (by decide)) (by decide) (by decide) (by decide) (by decide) (by decide)
  ⟨h.1, h.2.1, h.2.2.2.2.2.2 (by decide)⟩

/-! ## C11 -/

theorem printk_only_refl (tr : List Event) : printk_only tr tr := ⟨[], by simp⟩

theorem printk_only_snoc (tr tr2 : List Event) (m : String) (h : printk_only tr tr2) :
    printk_only tr (tr2 ++ [Event.printk m]) := by
  obtain ⟨msgs, rfl⟩ := h
  exact ⟨msgs ++ [m], by simp⟩

theorem arch_smt_update_not_needed (cfg : Kconfig) (s : State) (h : stibp_needed s = false) :
    arch_smt_update cfg s = s := by
  unfold arch_smt_update
  simp [h]

theorem enhanced_status_has_no_stibp (cfg : Kconfig) (t : State)
    (h : t.spectre_v2_enabled = SPECTRE_V2_IBRS_ENHANCED) :
    ¬ (", STIBP".toList <:+: (cpu_show_spectre_v2 cfg t).toList) := by
  unfold cpu_show_spectre_v2 cpu_show_common ibpb_state stibp_state spectre_v2_module_string
  simp only [h, spectre_v2_strings, if_true]
  cases boot_cpu_has_bug t X86_BUG_SPECTRE_V2 <;>
    cases boot_cpu_has t X86_FEATURE_USE_IBPB <;>
    cases boot_cpu_has t X86_FEATURE_USE_IBRS_FW <;>
    cases boot_cpu_has t X86_FEATURE_RSB_CTXSW <;>
    cases cfg.RETPOLINE <;>
    cases t.spectre_v2_bad_module <;>
    decide

theorem specv2_set_mode_enhanced_eq (cfg : Kconfig) (s : State) :
    specv2_set_mode cfg s SPECTRE_V2_IBRS_ENHANCED =
      if boot_cpu_has s X86_FEATURE_IBPB then
        printk (setup_force_cpu_cap
          (printk (setup_force_cpu_cap
            (printk { s with spectre_v2_enabled := SPECTRE_V2_IBRS_ENHANCED }
              ("Spectre V2 : " ++ spectre_v2_strings SPECTRE_V2_IBRS_ENHANCED ++ "\n"))
            X86_FEATURE_RSB_CTXSW)
            "Spectre V2 : Spectre v2 / SpectreRSB mitigation: Filling RSB on context switch\n")
          X86_FEATURE_USE_IBPB)
          "Spectre V2 : Spectre v2 mitigation: Enabling Indirect Branch Prediction Barrier\n"
      else
        printk (setup_force_cpu_cap
          (printk { s with spectre_v2_enabled := SPECTRE_V2_IBRS_ENHANCED }
            ("Spectre V2 : " ++ spectre_v2_strings SPECTRE_V2_IBRS_ENHANCED ++ "\n"))
          X86_FEATURE_RSB_CTXSW)
          "Spectre V2 : Spectre v2 / SpectreRSB mitigation: Filling RSB on context switch\n" := by
  unfold specv2_set_mode
  simp only [ne_eq, not_true_eq_false, and_false, if_false]
  rw [arch_smt_update_not_needed]
  · cases h : boot_cpu_has s X86_FEATURE_IBPB <;>
      simp [boot_cpu_has, printk, emit, setup_force_cpu_cap] <;>
      simp_all [boot_cpu_has]
  · unfold stibp_needed
    split_ifs <;> first | rfl | (exfalso; simp_all [printk, emit, setup_force_cpu_cap])

theorem stibp_needed_enhanced (s : State)
    (h : s.spectre_v2_enabled = SPECTRE_V2_IBRS_ENHANCED) : stibp_needed s = false := by
  unfold stibp_needed
  simp [h]

theorem select_cmd_enhanced (cfg : Kconfig) (t : State) (cmd : spectre_v2_mitigation_cmd)
    (hbug : boot_cpu_has_bug t X86_BUG_SPECTRE_V2 = true)
    (he : boot_cpu_has t X86_FEATURE_IBRS_ENHANCED = true)
    (hcmd : cmd = SPECTRE_V2_CMD_AUTO ∨ cmd = SPECTRE_V2_CMD_FORCE) :
    spectre_v2_select_mitigation_cmd cfg t cmd =
      specv2_set_mode cfg
        (wrmsrl { t with x86_spec_ctrl_base := t.x86_spec_ctrl_base ||| SPEC_CTRL_IBRS }
          Msr.MSR_IA32_SPEC_CTRL (t.x86_spec_ctrl_base ||| SPEC_CTRL_IBRS))
        SPECTRE_V2_IBRS_ENHANCED := by
  unfold spectre_v2_select_mitigation_cmd
  rcases hcmd with rfl | rfl <;> simp [hbug, he]

/-- C11: on affected hardware with `X86_FEATURE_IBRS_ENHANCED` present and parsed command
Auto or Force, `spectre_v2_select_mitigation` ends with `spectre_v2_enabled =
SPECTRE_V2_IBRS_ENHANCED` and `x86_spec_ctrl_base` equal to the old base with
`SPEC_CTRL_IBRS` or-ed in; the first effect after the parser's diagnostics is the write of
that value to `MSR_IA32_SPEC_CTRL`, and everything after it is diagnostics (no broadcast,
no further register write); `arch_smt_update` on the resulting state changes nothing, so
it does not set `SPEC_CTRL_STIBP`; and for every base value `stibp_state` is empty and the
text `, STIBP` does not occur in the status string of `cpu_show_spectre_v2`. -/
theorem C11_enhanced_ibrs_selected (cfg : Kconfig) (s : State)
    (hbug : boot_cpu_has_bug s X86_BUG_SPECTRE_V2 = true)
    (he : boot_cpu_has s X86_FEATURE_IBRS_ENHANCED = true)
    (hcmd : (spectre_v2_parse_cmdline cfg s).2 = SPECTRE_V2_CMD_AUTO ∨
      (spectre_v2_parse_cmdline cfg s).2 = SPECTRE_V2_CMD_FORCE) :
    (spectre_v2_select_mitigation cfg s).spectre_v2_enabled = SPECTRE_V2_IBRS_ENHANCED ∧
    (spectre_v2_select_mitigation cfg s).x86_spec_ctrl_base =
      s.x86_spec_ctrl_base ||| SPEC_CTRL_IBRS ∧
    (∃ msgs : List String,
      (spectre_v2_select_mitigation cfg s).trace =
        (spectre_v2_parse_cmdline cfg s).1.trace ++
          Event.wrmsrl Msr.MSR_IA32_SPEC_CTRL (s.x86_spec_ctrl_base ||| SPEC_CTRL_IBRS) ::
            msgs.map Event.printk) ∧
    arch_smt_update cfg (spectre_v2_select_mitigation cfg s) =
      spectre_v2_select_mitigation cfg s ∧
    stibp_state (spectre_v2_select_mitigation cfg s) = "" ∧
    ¬ (", STIBP".toList <:+:
      (cpu_show_spectre_v2 cfg (spectre_v2_select_mitigation cfg s)).toList) := by
  have hsel : spectre_v2_select_mitigation cfg s =
      specv2_set_mode cfg
        (wrmsrl { (spectre_v2_parse_cmdline cfg s).1 with
            x86_spec_ctrl_base := s.x86_spec_ctrl_base ||| SPEC_CTRL_IBRS }
          Msr.MSR_IA32_SPEC_CTRL (s.x86_spec_ctrl_base ||| SPEC_CTRL_IBRS))
        SPECTRE_V2_IBRS_ENHANCED := by
    unfold spectre_v2_select_mitigation
    simp only []
    rw [select_cmd_enhanced cfg _ _ (by simpa [boot_cpu_has_bug, boot_cpu_has] using hbug)
      (by simpa [boot_cpu_has] using he) hcmd]
    simp
  have hen : (spectre_v2_select_mitigation cfg s).spectre_v2_enabled =
      SPECTRE_V2_IBRS_ENHANCED := by
    rw [hsel]; exact specv2_set_mode_enabled _ _ _
  refine ⟨hen, ?_, ?_, arch_smt_update_not_needed cfg _ (stibp_needed_enhanced _ hen), ?_,
    enhanced_status_has_no_stibp cfg _ hen⟩
  · rw [hsel, specv2_set_mode_enhanced_eq]
    split_ifs <;> rfl
  · have hp : printk_only
        ((spectre_v2_parse_cmdline cfg s).1.trace ++
          [Event.wrmsrl Msr.MSR_IA32_SPEC_CTRL (s.x86_spec_ctrl_base ||| SPEC_CTRL_IBRS)])
        (spectre_v2_select_mitigation cfg s).trace := by
      rw [hsel, specv2_set_mode_enhanced_eq]
      split_ifs
      · exact printk_only_snoc _ _ _ (printk_only_snoc _ _ _
          (printk_only_snoc _ _ _ (printk_only_refl _)))
      · exact printk_only_snoc _ _ _ (printk_only_snoc _ _ _ (printk_only_refl _))
    obtain ⟨msgs, hm⟩ := hp
    exact ⟨msgs, by rw [hm]; simp⟩
  · unfold stibp_state
    simp [hen]

/-- C11 at a concrete input: an affected machine with enhanced IBRS and an empty command
line. After the selector the mode is `SPECTRE_V2_IBRS_ENHANCED` and the base is the old
one with `SPEC_CTRL_IBRS` or-ed in; started with the STIBP bit set in the base, the status
string still has no `, STIBP`. -/
theorem C11_enhanced_ibrs_selected_witness :
    (spectre_v2_select_mitigation cfgRetpoline enhancedStibp).spectre_v2_enabled =
      SPECTRE_V2_IBRS_ENHANCED ∧
    (spectre_v2_select_mitigation cfgRetpoline enhancedStibp).x86_spec_ctrl_base =
      enhancedStibp.x86_spec_ctrl_base ||| SPEC_CTRL_IBRS ∧
    cpu_show_spectre_v2 cfgRetpoline
        (spectre_v2_select_mitigation cfgRetpoline
          { enhancedStibp with x86_spec_ctrl_base := SPEC_CTRL_STIBP }) =
      "Mitigation: Enhanced IBRS, IBPB, RSB filling\n" :=
  have h := C11_enhanced_ibrs_selected cfgRetpoline enhancedStibp (by decide) (by decide)
    (Or.inl (by decide))
  ⟨h.1, h.2.1, by decide⟩

/-! ## C12 -/

theorem ssb_select_mode_of_cmd (cfg : Kconfig) (s : State)
    (h : boot_cpu_has s X86_FEATURE_SSBD = true)
    (hn : ¬ (boot_cpu_has_bug s X86_BUG_SPEC_STORE_BYPASS = false ∧
      ((ssb_parse_cmdline s).2 = SPEC_STORE_BYPASS_CMD_NONE ∨
        (ssb_parse_cmdline s).2 = SPEC_STORE_BYPASS_CMD_AUTO))) :
    (__ssb_select_mitigation cfg s).2 = ssb_mode_of_cmd cfg (ssb_parse_cmdline s).2 := by
  have hbd : boot_cpu_has_bug (ssb_parse_cmdline s).1 X86_BUG_SPEC_STORE_BYPASS =
      boot_cpu_has_bug s X86_BUG_SPEC_STORE_BYPASS := by
    simp [boot_cpu_has_bug, boot_cpu_has]
  unfold __ssb_select_mitigation
  simp only [h, Bool.not_true, Bool.false_eq_true, if_false, hbd]
  have hn2 : ¬ ((!boot_cpu_has_bug s X86_BUG_SPEC_STORE_BYPASS) = true ∧
      ((ssb_parse_cmdline s).2 = SPEC_STORE_BYPASS_CMD_NONE ∨
        (ssb_parse_cmdline s).2 = SPEC_STORE_BYPASS_CMD_AUTO)) := by
    simpa using hn
  rw [if_neg hn2]
  split_ifs <;> rfl

/-- C12: store-bypass boot-time mode selection equals the stated table.
`__ssb_select_mitigation` returns `SPEC_STORE_BYPASS_NONE` and leaves the state untouched
(no command is parsed, no diagnostic logged) whenever `X86_FEATURE_SSBD` is absent. With
the capability present and `cmd` the command parsed by `ssb_parse_cmdline`: the result is
`NONE` when the CPU is not affected and `cmd` is None or Auto; otherwise Auto and Seccomp
map to `SPEC_STORE_BYPASS_SECCOMP` if `CONFIG_SECCOMP` is enabled and to
`SPEC_STORE_BYPASS_PRCTL` if not, On maps to `SPEC_STORE_BYPASS_DISABLE`, Prctl to
`SPEC_STORE_BYPASS_PRCTL` and None to `SPEC_STORE_BYPASS_NONE`. -/
theorem C12_ssb_mode_table (cfg : Kconfig) (s : State) :
    (boot_cpu_has s X86_FEATURE_SSBD = false →
      __ssb_select_mitigation cfg s = (s, SPEC_STORE_BYPASS_NONE)) ∧
    (boot_cpu_has s X86_FEATURE_SSBD = true →
      (boot_cpu_has_bug s X86_BUG_SPEC_STORE_BYPASS = false →
        ((ssb_parse_cmdline s).2 = SPEC_STORE_BYPASS_CMD_NONE ∨
          (ssb_parse_cmdline s).2 = SPEC_STORE_BYPASS_CMD_AUTO) →
        (__ssb_select_mitigation cfg s).2 = SPEC_STORE_BYPASS_NONE) ∧
      (¬ (boot_cpu_has_bug s X86_BUG_SPEC_STORE_BYPASS = false ∧
          ((ssb_parse_cmdline s).2 = SPEC_STORE_BYPASS_CMD_NONE ∨
            (ssb_parse_cmdline s).2 = SPEC_STORE_BYPASS_CMD_AUTO)) →
        (__ssb_select_mitigation cfg s).2 =
          match (ssb_parse_cmdline s).2 with
          | SPEC_STORE_BYPASS_CMD_AUTO =>
            if cfg.CONFIG_SECCOMP then SPEC_STORE_BYPASS_SECCOMP else SPEC_STORE_BYPASS_PRCTL
          | SPEC_STORE_BYPASS_CMD_SECCOMP =>
            if cfg.CONFIG_SECCOMP then SPEC_STORE_BYPASS_SECCOMP else SPEC_STORE_BYPASS_PRCTL
          | SPEC_STORE_BYPASS_CMD_ON => SPEC_STORE_BYPASS_DISABLE
          | SPEC_STORE_BYPASS_CMD_PRCTL => SPEC_STORE_BYPASS_PRCTL
          | SPEC_STORE_BYPASS_CMD_NONE => SPEC_STORE_BYPASS_NONE)) := by
  refine ⟨?_, ?_⟩
  · intro h
    unfold __ssb_select_mitigation
    simp [h]
  · intro h
    have hbd : boot_cpu_has_bug (ssb_parse_cmdline s).1 X86_BUG_SPEC_STORE_BYPASS =
        boot_cpu_has_bug s X86_BUG_SPEC_STORE_BYPASS := by
      simp [boot_cpu_has_bug, boot_cpu_has]
    refine ⟨?_, ?_⟩
    · intro hb hc
      unfold __ssb_select_mitigation
      simp [h, hbd, hb, hc]
    · intro hn
      rw [ssb_select_mode_of_cmd cfg s h hn]
      cases hcmd : (ssb_parse_cmdline s).2 <;> simp [ssb_mode_of_cmd]

/-- C12 at concrete inputs: on an affected machine with the capability and an empty
command line the mode is `SECCOMP` with seccomp compiled in and `PRCTL` without; on an
unaffected machine with an empty command line it is `NONE`; without the capability the
state is returned untouched. -/
theorem C12_ssb_mode_table_witness :
    (__ssb_select_mitigation cfgRetpoline ssbAffected).2 = SPEC_STORE_BYPASS_SECCOMP ∧
    (__ssb_select_mitigation cfgNoSeccomp ssbAffected).2 = SPEC_STORE_BYPASS_PRCTL ∧
    (__ssb_select_mitigation cfgRetpoline notAffectedAuto).2 = SPEC_STORE_BYPASS_NONE ∧
    __ssb_select_mitigation cfgRetpoline affectedOff = (affectedOff, SPEC_STORE_BYPASS_NONE) :=
  ⟨((C12_ssb_mode_table cfgRetpoline ssbAffected).2 (by decide)).2 (by decide) |>.trans
      (by decide),
    ((C12_ssb_mode_table cfgNoSeccomp ssbAffected).2 (by decide)).2 (by decide) |>.trans
      (by decide),
    ((C12_ssb_mode_table cfgRetpoline notAffectedAuto).2 (by decide)).1 (by decide)
      (by decide),
    (C12_ssb_mode_table cfgRetpoline affectedOff).1 (by decide)⟩

/-! ## C13 -/

theorem ssb_select_mitigation_ssb_mode (cfg : Kconfig) (s : State) :
    (ssb_select_mitigation cfg s).ssb_mode = (__ssb_select_mitigation cfg s).2 := by
  unfold ssb_select_mitigation
  simp only []
  split_ifs <;> rfl

theorem seccomp_mitigate_inv (s : State) (task : Nat)
    (hm : s.ssb_mode = SPEC_STORE_BYPASS_SECCOMP) :
    force_disabled_inv task (arch_seccomp_spec_mitigate s task) := by
  have hret : (ssb_prctl_set s task PR_SPEC_FORCE_DISABLE).2 = 0 := by
    unfold ssb_prctl_set
    simp [hm, PR_SPEC_FORCE_DISABLE, PR_SPEC_ENABLE, PR_SPEC_DISABLE]
  have hcall : arch_prctl_spec_ctrl_set s task PR_SPEC_STORE_BYPASS PR_SPEC_FORCE_DISABLE =
      (arch_seccomp_spec_mitigate s task, 0) := by
    unfold arch_prctl_spec_ctrl_set arch_seccomp_spec_mitigate
    rw [if_pos rfl, if_pos hm]
    exact Prod.ext rfl hret
  exact inv_after_force_disable s _ task hcall

/-- C13: with store-bypass affected, `X86_FEATURE_SSBD` present, `CONFIG_SECCOMP`
compiled in and parsed command Auto, `ssb_select_mitigation` sets `ssb_mode =
SPEC_STORE_BYPASS_SECCOMP`. In that mode, for every task and every prior state of its
flags (so also after a successful Enable), `arch_seccomp_spec_mitigate` leaves the task
disabled and force-disabled, a later `PR_SPEC_ENABLE` returns `-EPERM` and changes nothing,
and the query returns `PR_SPEC_PRCTL | PR_SPEC_FORCE_DISABLE`. In every other mode
`arch_seccomp_spec_mitigate` changes nothing. -/
theorem C13_seccomp_forces_disable (cfg : Kconfig) (s : State) (task : Nat) :
    (boot_cpu_has_bug s X86_BUG_SPEC_STORE_BYPASS = true →
      boot_cpu_has s X86_FEATURE_SSBD = true →
      cfg.CONFIG_SECCOMP = true →
      (ssb_parse_cmdline s).2 = SPEC_STORE_BYPASS_CMD_AUTO →
      (ssb_select_mitigation cfg s).ssb_mode = SPEC_STORE_BYPASS_SECCOMP) ∧
    (s.ssb_mode = SPEC_STORE_BYPASS_SECCOMP →
      task_spec_ssb_disable (arch_seccomp_spec_mitigate s task) task = true ∧
      task_spec_ssb_force_disable (arch_seccomp_spec_mitigate s task) task = true ∧
      arch_prctl_spec_ctrl_set (arch_seccomp_spec_mitigate s task) task PR_SPEC_STORE_BYPASS
          PR_SPEC_ENABLE = (arch_seccomp_spec_mitigate s task, -EPERM) ∧
      ssb_prctl_get (arch_seccomp_spec_mitigate s task) task =
        ((PR_SPEC_PRCTL ||| PR_SPEC_FORCE_DISABLE : Nat) : Int)) ∧
    (s.ssb_mode ≠ SPEC_STORE_BYPASS_SECCOMP → arch_seccomp_spec_mitigate s task = s) := by
  refine ⟨?_, ?_, ?_⟩
  · intro hb hs hc hcmd
    rw [ssb_select_mitigation_ssb_mode,
      ssb_select_mode_of_cmd cfg s hs (by simp [hb]), hcmd]
    simp [ssb_mode_of_cmd, hc]
  · intro hm
    have hinv := seccomp_mitigate_inv s task hm
    refine ⟨hinv.2.1, hinv.2.2, enable_fails_of_inv task _ hinv, ?_⟩
    obtain ⟨hmode, _, hf⟩ := hinv
    unfold ssb_prctl_get
    rcases hmode with h | h <;> simp [h, hf]
  · intro hm
    unfold arch_seccomp_spec_mitigate
    rw [if_neg hm]

/-- C13 at concrete inputs: the affected machine `ssbAffected` boots into sandbox mode;
task 1, which has issued a successful Enable, is force-disabled by
`arch_seccomp_spec_mitigate`, and in per-task mode the call changes nothing. -/
theorem C13_seccomp_forces_disable_witness :
    (ssb_select_mitigation cfgRetpoline ssbAffected).ssb_mode = SPEC_STORE_BYPASS_SECCOMP ∧
    task_spec_ssb_disable seccompEnabledState 1 = false ∧
    task_spec_ssb_force_disable (arch_seccomp_spec_mitigate seccompEnabledState 1) 1 = true ∧
    ssb_prctl_get (arch_seccomp_spec_mitigate seccompEnabledState 1) 1 =
      ((PR_SPEC_PRCTL ||| PR_SPEC_FORCE_DISABLE : Nat) : Int) ∧
    arch_seccomp_spec_mitigate prctlState 1 = prctlState :=
  ⟨(C13_seccomp_forces_disable cfgRetpoline ssbAffected 1).1 (by decide) (by decide)
      (by decide) (by decide),
    by decide,
    ((C13_seccomp_forces_disable cfgRetpoline seccompEnabledState 1).2.1 (by decide)).2.1,
    ((C13_seccomp_forces_disable cfgRetpoline seccompEnabledState 1).2.1 (by decide)).2.2.2,
    (C13_seccomp_forces_disable cfgRetpoline prctlState 1).2.2 (by decide)⟩

/-! ## C14 -/

theorem l1tf_half_pa_eq (s : State) (h1 : 13 ≤ s.boot_cpu_data.x86_cache_bits)
    (h2 : s.boot_cpu_data.x86_cache_bits ≤ 64) :
    l1tf_half_pa s = 2 ^ (s.boot_cpu_data.x86_cache_bits - 1) := by
  unfold l1tf_half_pa l1tf_pfn_limit PAGE_SHIFT
  have hlt : 2 ^ (s.boot_cpu_data.x86_cache_bits - 1 - 12) < 2 ^ 64 :=
    Nat.pow_lt_pow_right (by norm_num) (by omega)
  rw [Nat.mod_eq_of_lt hlt, ← Nat.pow_add]
  have he : s.boot_cpu_data.x86_cache_bits - 1 - 12 + 12 =
      s.boot_cpu_data.x86_cache_bits - 1 := by omega
  rw [he]
  exact Nat.mod_eq_of_lt (Nat.pow_lt_pow_right (by norm_num) (by omega))

theorem override_cache_bits_eq (c : cpuinfo_x86) :
    override_cache_bits c =
      if c.x86 = 6 ∧ c.x86_model ∈ override_cache_bits_models then
        { c with x86_cache_bits := max c.x86_cache_bits 44 }
      else c := by
  unfold override_cache_bits
  by_cases h6 : c.x86 = 6
  · rw [if_neg (not_not.mpr h6)]
    by_cases hm : c.x86_model ∈ override_cache_bits_models
    · rw [if_pos hm, if_pos (And.intro h6 hm)]
      by_cases hb : c.x86_cache_bits < 44
      · rw [if_pos hb, Nat.max_eq_right (Nat.le_of_lt hb)]
      · rw [if_neg hb, Nat.max_eq_left (by omega)]
    · rw [if_neg hm, if_neg (fun h => hm h.2)]
  · rw [if_pos h6, if_neg (fun h => h6 h.1)]

theorem l1tf_select_caps (cfg : Kconfig) (s : State) :
    (l1tf_select_mitigation cfg s).cpu_caps_set =
      s.cpu_caps_set ++ (if l1tf_forces cfg s then [X86_FEATURE_L1TF_PTEINV] else []) := by
  unfold l1tf_select_mitigation l1tf_forces
  cases hb : boot_cpu_has_bug s X86_BUG_L1TF
  · simp
  · by_cases hl : cfg.CONFIG_PGTABLE_LEVELS = 2
    · simp [hl, printk, emit]
    · cases ho : s.e820_any_mapped
          (l1tf_half_pa { s with boot_cpu_data := override_cache_bits s.boot_cpu_data })
          (ULLONG_MAX -
            l1tf_half_pa { s with boot_cpu_data := override_cache_bits s.boot_cpu_data })
      · simp [hl, ho, setup_force_cpu_cap]
      · simp [hl, ho, printk, emit]

theorem l1tf_select_has_pteinv (cfg : Kconfig) (s : State) :
    boot_cpu_has (l1tf_select_mitigation cfg s) X86_FEATURE_L1TF_PTEINV =
      (boot_cpu_has s X86_FEATURE_L1TF_PTEINV || l1tf_forces cfg s) := by
  unfold l1tf_select_mitigation l1tf_forces
  cases hb : boot_cpu_has_bug s X86_BUG_L1TF
  · simp
  · have hov : (override_cache_bits s.boot_cpu_data).x86_capability =
        s.boot_cpu_data.x86_capability := by
      rw [override_cache_bits_eq]
      split_ifs <;> rfl
    by_cases hl : cfg.CONFIG_PGTABLE_LEVELS = 2
    · simp [hl, printk, emit, boot_cpu_has, hov]
    · cases ho : s.e820_any_mapped
          (l1tf_half_pa { s with boot_cpu_data := override_cache_bits s.boot_cpu_data })
          (ULLONG_MAX -
            l1tf_half_pa { s with boot_cpu_data := override_cache_bits s.boot_cpu_data })
      · simp [hl, ho, setup_force_cpu_cap, boot_cpu_has]
      · simp [hl, ho, printk, emit, boot_cpu_has, hov]

theorem corrected_half_pa (s : State) (h6 : s.boot_cpu_data.x86 = 6)
    (hm : s.boot_cpu_data.x86_model ∈ override_cache_bits_models)
    (hb : s.boot_cpu_data.x86_cache_bits < 44) :
    l1tf_half_pa { s with boot_cpu_data := override_cache_bits s.boot_cpu_data } = 2 ^ 43 := by
  have hbits : (override_cache_bits s.boot_cpu_data).x86_cache_bits = 44 := by
    rw [override_cache_bits_eq, if_pos (And.intro h6 hm)]
    exact Nat.max_eq_right (Nat.le_of_lt hb)
  rw [l1tf_half_pa_eq _ (by simp [hbits]) (by simp [hbits])]
  simp [hbits]

theorem ram_at_boundary_mapped (map : List (Nat × Nat)) (size : Nat)
    (hmem : (2 ^ 43, size) ∈ map) (hsize : 0 < size) :
    e820_any_mapped_ram map (2 ^ 43) (ULLONG_MAX - 2 ^ 43) = true := by
  unfold e820_any_mapped_ram ULLONG_MAX
  rw [List.any_eq_true]
  refine ⟨(2 ^ 43, size), hmem, ?_⟩
  simp only [ge_iff_le, Bool.not_eq_true', Bool.or_eq_false_iff, decide_eq_false_iff_not,
    not_le]
  constructor
  · norm_num
  · omega

/-- C14: the direct-map decision. `override_cache_bits` sets `x86_cache_bits` to
`max(x86_cache_bits, 44)` for family-6 CPUs whose model is in the listed set and leaves
every other CPU unchanged. `l1tf_select_mitigation` forces `X86_FEATURE_L1TF_PTEINV`
(one call of `setup_force_cpu_cap`, after which the flag is set) if and only if
`l1tf_forces` holds: `X86_BUG_L1TF` is present, the build is not one with 2-level page
tables, and the oracle reports no RAM in the range starting at `half_pa`, where `half_pa`
is `l1tf_pfn_limit() << PAGE_SHIFT` on the corrected bit width, that is 2^(bits-1). On a
listed family-6 model reporting fewer than 44 bits, with the bug present, more than two
page-table levels and a RAM region that starts exactly at the corrected boundary 2^43, the
capability is not forced and the guidance line carries `mem=` followed by 2^43. -/
theorem C14_direct_map_decision (cfg : Kconfig) (s : State) :
    (∀ c : cpuinfo_x86,
      override_cache_bits c =
        if c.x86 = 6 ∧ c.x86_model ∈ override_cache_bits_models then
          { c with x86_cache_bits := max c.x86_cache_bits 44 }
        else c) ∧
    (l1tf_select_mitigation cfg s).cpu_caps_set =
      s.cpu_caps_set ++ (if l1tf_forces cfg s then [X86_FEATURE_L1TF_PTEINV] else []) ∧
    boot_cpu_has (l1tf_select_mitigation cfg s) X86_FEATURE_L1TF_PTEINV =
      (boot_cpu_has s X86_FEATURE_L1TF_PTEINV || l1tf_forces cfg s) ∧
    (13 ≤ (override_cache_bits s.boot_cpu_data).x86_cache_bits →
      (override_cache_bits s.boot_cpu_data).x86_cache_bits ≤ 64 →
      l1tf_half_pa { s with boot_cpu_data := override_cache_bits s.boot_cpu_data } =
        2 ^ ((override_cache_bits s.boot_cpu_data).x86_cache_bits - 1)) ∧
    (s.boot_cpu_data.x86 = 6 →
      s.boot_cpu_data.x86_model ∈ override_cache_bits_models →
      s.boot_cpu_data.x86_cache_bits < 44 →
      boot_cpu_has_bug s X86_BUG_L1TF = true →
      cfg.CONFIG_PGTABLE_LEVELS ≠ 2 →
      ∀ (map : List (Nat × Nat)) (size : Nat),
        s.e820_any_mapped = e820_any_mapped_ram map →
        (2 ^ 43, size) ∈ map → 0 < size →
        l1tf_half_pa { s with boot_cpu_data := override_cache_bits s.boot_cpu_data } =
          2 ^ 43 ∧
        (l1tf_select_mitigation cfg s).cpu_caps_set = s.cpu_caps_set ∧
        boot_cpu_has (l1tf_select_mitigation cfg s) X86_FEATURE_L1TF_PTEINV =
          boot_cpu_has s X86_FEATURE_L1TF_PTEINV ∧
        Event.printk ("L1TF: You may make it effective by booting the kernel with mem=" ++
          toString (2 ^ 43) ++ " parameter.\n") ∈ (l1tf_select_mitigation cfg s).trace) := by
  refine ⟨override_cache_bits_eq, l1tf_select_caps cfg s, l1tf_select_has_pteinv cfg s,
    fun h1 h2 => l1tf_half_pa_eq _ h1 h2, ?_⟩
  intro h6 hm hb hbug hl map size hor hmem hsize
  have hhalf := corrected_half_pa s h6 hm hb
  have hmapped : s.e820_any_mapped (2 ^ 43) (ULLONG_MAX - 2 ^ 43) = true := by
    rw [hor]; exact ram_at_boundary_mapped map size hmem hsize
  have hforce : l1tf_forces cfg s = false := by
    unfold l1tf_forces
    rw [hhalf, hmapped]
    simp
  refine ⟨hhalf, ?_, ?_, ?_⟩
  · rw [l1tf_select_caps, hforce]
    simp
  · rw [l1tf_select_has_pteinv, hforce]
    simp
  · unfold l1tf_select_mitigation
    simp only [hbug, Bool.not_true, Bool.false_eq_true, if_false, if_neg hl, hhalf, hmapped,
      if_true]
    simp [printk, emit]

/-- C14 at a concrete input: a Sandy Bridge machine reporting 36 bits with a RAM region
starting at 2^43: the capability is not forced and the guidance names `mem=` 2^43. -/
theorem C14_direct_map_decision_witness :
    l1tf_half_pa { sandyBridgeRamAtBoundary with
      boot_cpu_data := override_cache_bits sandyBridgeRamAtBoundary.boot_cpu_data } = 2 ^ 43 ∧
    (l1tf_select_mitigation cfgRetpoline sandyBridgeRamAtBoundary).cpu_caps_set = [] ∧
    Event.printk ("L1TF: You may make it effective by booting the kernel with mem=" ++
        toString (2 ^ 43) ++ " parameter.\n") ∈
      (l1tf_select_mitigation cfgRetpoline sandyBridgeRamAtBoundary).trace :=
  have h := (C14_direct_map_decision cfgRetpoline sandyBridgeRamAtBoundary).2.2.2.2
    (by decide) (by decide) (by decide) (by decide) (by decide)
    [(0, 2 ^ 31), (2 ^ 43, 2 ^ 32)] (2 ^ 32) rfl (by simp) (by decide)
  ⟨h.1, h.2.1, h.2.2.2⟩

/-! ## Bit lemmas -/

theorem testBit_not64 (x i : Nat) :
    (not64 x).testBit i = (decide (i < 64) && !x.testBit i) := by
  unfold not64
  have hlt : x % 2 ^ 64 < 2 ^ 64 := Nat.mod_lt _ (by norm_num)
  have hsub : 2 ^ 64 - 1 - x % 2 ^ 64 = 2 ^ 64 - (x % 2 ^ 64 + 1) := by omega
  rw [hsub, Nat.testBit_two_pow_sub_succ hlt, Nat.testBit_mod_two_pow]
  cases decide (i < 64) <;> simp

theorem testBit_stibp (i : Nat) : SPEC_CTRL_STIBP.testBit i = decide (i = 1) := by
  have h : SPEC_CTRL_STIBP = 2 ^ 1 := rfl
  rw [h, Nat.testBit_two_pow]
  by_cases hi : i = 1
  · simp [hi]
  · have : ¬ 1 = i := fun h => hi h.symm
    simp [hi, this]

theorem testBit_u64 (x i : Nat) (hx : x < 2 ^ 64) (hi : 64 ≤ i) : x.testBit i = false :=
  Nat.testBit_lt_two_pow (Nat.lt_of_lt_of_le hx (Nat.pow_le_pow_right (by norm_num) hi))

/-! ## C15 and C16 -/

theorem arch_smt_update_needed (cfg : Kconfig) (s : State) (h : stibp_needed s = true) :
    arch_smt_update cfg s =
      if (if cfg.CONFIG_SMP then s.x86_spec_ctrl_base ||| SPEC_CTRL_STIBP
          else s.x86_spec_ctrl_base &&& not64 SPEC_CTRL_STIBP) ≠ s.x86_spec_ctrl_base then
        { s with
          x86_spec_ctrl_base :=
            if cfg.CONFIG_SMP then s.x86_spec_ctrl_base ||| SPEC_CTRL_STIBP
            else s.x86_spec_ctrl_base &&& not64 SPEC_CTRL_STIBP
          trace := s.trace ++
            [Event.printk ("Spectre V2 : Spectre v2 cross-process SMT mitigation: " ++
                (if cfg.CONFIG_SMP then "Enabling" else "Disabling") ++ " STIBP\n"),
              Event.on_each_cpu_update_stibp_msr
                (if cfg.CONFIG_SMP then s.x86_spec_ctrl_base ||| SPEC_CTRL_STIBP
                  else s.x86_spec_ctrl_base &&& not64 SPEC_CTRL_STIBP)] }
      else s := by
  unfold arch_smt_update
  simp only [h, Bool.not_true, Bool.false_eq_true, if_false]
  split_ifs <;> simp [printk, emit]

theorem arch_smt_update_base (cfg : Kconfig) (s : State) (h : stibp_needed s = true) :
    (arch_smt_update cfg s).x86_spec_ctrl_base =
      if cfg.CONFIG_SMP then s.x86_spec_ctrl_base ||| SPEC_CTRL_STIBP
      else s.x86_spec_ctrl_base &&& not64 SPEC_CTRL_STIBP := by
  rw [arch_smt_update_needed cfg s h]
  split_ifs with h1 h2 h3 <;> simp_all

theorem stibp_needed_arch_smt_update (cfg : Kconfig) (s : State) :
    stibp_needed (arch_smt_update cfg s) = stibp_needed s := by
  unfold stibp_needed boot_cpu_has
  simp

theorem arch_smt_update_fixed (cfg : Kconfig) (s : State)
    (hb : (if cfg.CONFIG_SMP then s.x86_spec_ctrl_base ||| SPEC_CTRL_STIBP
      else s.x86_spec_ctrl_base &&& not64 SPEC_CTRL_STIBP) = s.x86_spec_ctrl_base) :
    arch_smt_update cfg s = s := by
  cases h : stibp_needed s
  · exact arch_smt_update_not_needed cfg s h
  · rw [arch_smt_update_needed cfg s h, if_neg (not_not.mpr hb)]

theorem arch_smt_update_idem (cfg : Kconfig) (s : State) :
    arch_smt_update cfg (arch_smt_update cfg s) = arch_smt_update cfg s := by
  cases h : stibp_needed s
  · rw [arch_smt_update_not_needed cfg s h, arch_smt_update_not_needed cfg s h]
  · apply arch_smt_update_fixed
    rw [arch_smt_update_base cfg s h]
    cases cfg.CONFIG_SMP
    · simp [Nat.and_assoc]
    · simp [Nat.or_assoc]

theorem stibp_needed_iff (s : State) :
    stibp_needed s = true ↔
      (s.spectre_v2_enabled ≠ SPECTRE_V2_NONE ∧
        s.spectre_v2_enabled ≠ SPECTRE_V2_IBRS_ENHANCED ∧
        boot_cpu_has s X86_FEATURE_STIBP = true) := by
  unfold stibp_needed
  split_ifs <;> simp_all

theorem stibp_base_bits (smp : Bool) (b i : Nat) (h64 : b < 2 ^ 64) :
    (if smp then b ||| SPEC_CTRL_STIBP else b &&& not64 SPEC_CTRL_STIBP).testBit i =
      if i = 1 then smp else b.testBit i := by
  cases smp
  · simp only [Bool.false_eq_true, if_false, Nat.testBit_and, testBit_not64, testBit_stibp]
    by_cases hi : i = 1
    · simp [hi]
    · by_cases hlt : i < 64
      · simp [hi, hlt]
      · simp [hi, hlt, testBit_u64 b i h64 (by omega)]
  · simp only [if_true, Nat.testBit_or, testBit_stibp]
    by_cases hi : i = 1
    · simp [hi]
    · simp [hi]

/-- C15, counterexample: (1) after `check_bugs` on a machine with enhanced IBRS whose
control register held the STIBP bit at boot, the mode is `SPECTRE_V2_IBRS_ENHANCED`, and
`arch_smt_update` leaves the STIBP bit of the base set: it is not cleared. (2) After
`check_bugs` on an affected machine without `X86_FEATURE_STIBP`, on an SMP build with SMT
active, the mode is `SPECTRE_V2_RETPOLINE_GENERIC`, and `arch_smt_update` leaves the STIBP
bit clear: it is not set. -/
theorem C15_stibp_bit_not_recomputed :
    enhancedBooted.spectre_v2_enabled = SPECTRE_V2_IBRS_ENHANCED ∧
    (arch_smt_update cfgRetpoline enhancedBooted).x86_spec_ctrl_base &&& SPEC_CTRL_STIBP =
      SPEC_CTRL_STIBP ∧
    cfgRetpoline.CONFIG_SMP = true ∧
    retpolineNoStibpBooted.sched_smt_active = true ∧
    retpolineNoStibpBooted.spectre_v2_enabled = SPECTRE_V2_RETPOLINE_GENERIC ∧
    (arch_smt_update cfgRetpoline retpolineNoStibpBooted).x86_spec_ctrl_base &&&
      SPEC_CTRL_STIBP = 0 := by
  decide

/-- C15, amended: for every prior state with a 64-bit base value, after `arch_smt_update`
returns: if the Spectre-class mode is neither `SPECTRE_V2_NONE` nor
`SPECTRE_V2_IBRS_ENHANCED` and the capability `X86_FEATURE_STIBP` is present, the
`SPEC_CTRL_STIBP` bit (bit 1) of `x86_spec_ctrl_base` is set when the build has
`CONFIG_SMP` and cleared when it has not; in every other case the call returns at once
and the whole state, the STIBP bit included, is as before. Every other bit of the base,
the writable mask and the mode are unchanged, and the trace grows by one diagnostic and
the broadcast `on_each_cpu(update_stibp_msr)` of the new base if the base value changed,
and by nothing if it did not. -/
theorem C15_smt_update_stibp_bit (cfg : Kconfig) (s : State)
    (h64 : s.x86_spec_ctrl_base < 2 ^ 64) :
    ((s.spectre_v2_enabled ≠ SPECTRE_V2_NONE ∧
        s.spectre_v2_enabled ≠ SPECTRE_V2_IBRS_ENHANCED ∧
        boot_cpu_has s X86_FEATURE_STIBP = true) →
      (arch_smt_update cfg s).x86_spec_ctrl_base.testBit 1 = cfg.CONFIG_SMP) ∧
    (¬ (s.spectre_v2_enabled ≠ SPECTRE_V2_NONE ∧
        s.spectre_v2_enabled ≠ SPECTRE_V2_IBRS_ENHANCED ∧
        boot_cpu_has s X86_FEATURE_STIBP = true) →
      arch_smt_update cfg s = s) ∧
    (∀ i, i ≠ 1 →
      (arch_smt_update cfg s).x86_spec_ctrl_base.testBit i =
        s.x86_spec_ctrl_base.testBit i) ∧
    (arch_smt_update cfg s).x86_spec_ctrl_mask = s.x86_spec_ctrl_mask ∧
    (arch_smt_update cfg s).spectre_v2_enabled = s.spectre_v2_enabled ∧
    (∃ m : String,
      (arch_smt_update cfg s).trace = s.trace ++
        (if (arch_smt_update cfg s).x86_spec_ctrl_base ≠ s.x86_spec_ctrl_base then
          [Event.printk m,
            Event.on_each_cpu_update_stibp_msr (arch_smt_update cfg s).x86_spec_ctrl_base]
        else [])) := by
  have hmask : (arch_smt_update cfg s).x86_spec_ctrl_mask = s.x86_spec_ctrl_mask := by
    obtain ⟨b, tr, h⟩ := arch_smt_update_frame cfg s
    rw [h]
  refine ⟨?_, ?_, ?_, hmask, arch_smt_update_enabled cfg s, ?_⟩
  · intro h
    rw [arch_smt_update_base cfg s ((stibp_needed_iff s).mpr h), stibp_base_bits _ _ _ h64]
    simp
  · intro h
    apply arch_smt_update_not_needed
    cases hn : stibp_needed s
    · rfl
    · exact absurd ((stibp_needed_iff s).mp hn) h
  · intro i hi
    cases hn : stibp_needed s
    · rw [arch_smt_update_not_needed cfg s hn]
    · rw [arch_smt_update_base cfg s hn, stibp_base_bits _ _ _ h64, if_neg hi]
  · cases hn : stibp_needed s
    · rw [arch_smt_update_not_needed cfg s hn]
      exact ⟨"", by simp⟩
    · rw [arch_smt_update_needed cfg s hn]
      generalize (if cfg.CONFIG_SMP then s.x86_spec_ctrl_base ||| SPEC_CTRL_STIBP
        else s.x86_spec_ctrl_base &&& not64 SPEC_CTRL_STIBP) = nb
      by_cases hc : nb ≠ s.x86_spec_ctrl_base
      · rw [if_pos hc]
        simp only []
        refine ⟨("Spectre V2 : Spectre v2 cross-process SMT mitigation: " ++
          if cfg.CONFIG_SMP = true then "Enabling" else "Disabling") ++ " STIBP\n", ?_⟩
        rw [if_pos hc]
      · rw [if_neg hc]
        exact ⟨"", by simp⟩

/-- C15, amended, at a concrete input: in mode `SPECTRE_V2_RETPOLINE_GENERIC` with the
capability present, an SMP build and the STIBP bit clear, `arch_smt_update` sets the bit
and leaves bit 0 alone. -/
theorem C15_smt_update_stibp_bit_witness :
    (arch_smt_update cfgRetpoline retpolineStibpCleared).x86_spec_ctrl_base.testBit 1 =
      true ∧
    (arch_smt_update cfgRetpoline retpolineStibpCleared).x86_spec_ctrl_base.testBit 0 =
      retpolineStibpCleared.x86_spec_ctrl_base.testBit 0 :=
  have h := C15_smt_update_stibp_bit cfgRetpoline retpolineStibpCleared (by decide)
  ⟨h.1 (by decide), h.2.2.1 0 (by decide)⟩

/-- C16: `arch_smt_update` is idempotent. For every state and configuration, a second
call in a row returns the state left by the first unchanged: the same
`x86_spec_ctrl_base`, no other change, and nothing added to the trace (no broadcast, no
register write, no diagnostic). -/
theorem C16_arch_smt_update_idempotent (cfg : Kconfig) (s : State) :
    arch_smt_update cfg (arch_smt_update cfg s) = arch_smt_update cfg s ∧
    (arch_smt_update cfg (arch_smt_update cfg s)).x86_spec_ctrl_base =
      (arch_smt_update cfg s).x86_spec_ctrl_base ∧
    (arch_smt_update cfg (arch_smt_update cfg s)).trace = (arch_smt_update cfg s).trace := by
  have h := arch_smt_update_idem cfg s
  exact ⟨h, by rw [h], by rw [h]⟩

/-! ## C17 and C18 -/

theorem x86_virt_spec_ctrl_eq (s : State) (g v : Nat) (sg : Bool) :
    x86_virt_spec_ctrl s g v sg = { s with trace := s.trace ++ virt_events s g v sg } := by
  unfold x86_virt_spec_ctrl virt_events
  simp only [static_cpu_has, boot_cpu_has, wrmsrl, emit]
  by_cases hm : s.boot_cpu_data.x86_capability X86_FEATURE_MSR_SPEC_CTRL = true <;>
    by_cases hl : s.boot_cpu_data.x86_capability X86_FEATURE_LS_CFG_SSBD = true <;>
    by_cases hv : s.boot_cpu_data.x86_capability X86_FEATURE_VIRT_SSBD = true <;>
    by_cases hd : virt_hostval s ≠ virt_guestval s g <;>
    by_cases hd2 : (if s.boot_cpu_data.x86_capability X86_FEATURE_SPEC_STORE_BYPASS_DISABLE
        then SPEC_CTRL_SSBD else ssbd_tif_to_spec_ctrl (s.tasks s.current)) ≠
        v &&& SPEC_CTRL_SSBD <;>
    simp [hm, hl, hv, hd, hd2]

theorem virt_events_trace_irrelevant (s : State) (tr : List Event) (g v : Nat) (sg : Bool) :
    virt_events { s with trace := tr } g v sg = virt_events s g v sg := rfl

theorem virt_events_at_most_one_write (s : State) (g v : Nat) (sg : Bool) :
    ((virt_events s g v sg).filter is_wrmsrl).length ≤ 1 ∧
    (virt_events s g v sg).length ≤ 2 := by
  unfold virt_events
  constructor <;> split_ifs <;> simp [is_wrmsrl]

/-- C17, counterexample: on a machine with the control register implemented, base 0 and
writable mask `SPEC_CTRL_IBRS`, entering a guest that requests `SPEC_CTRL_IBRS` twice in a
row with the same arguments issues the register write twice: the trace holds two writes of
the value 1 to `MSR_IA32_SPEC_CTRL`. -/
theorem C17_second_call_writes_again :
    (x86_virt_spec_ctrl (x86_virt_spec_ctrl virtHost SPEC_CTRL_IBRS 0 true)
        SPEC_CTRL_IBRS 0 true).trace =
      [Event.wrmsrl Msr.MSR_IA32_SPEC_CTRL 1, Event.wrmsrl Msr.MSR_IA32_SPEC_CTRL 1] ∧
    virtHost.trace = [] := by
  decide

/-- C17, amended: `x86_virt_spec_ctrl` compares the host-side value with the guest-side
value, not with what is live in the register, and keeps no record of what it wrote. For
every state and every `(guest_spec_ctrl, guest_virt_spec_ctrl, setguest)` one call changes
nothing but the trace, to which it adds the events `virt_events`: at most one write of
`MSR_IA32_SPEC_CTRL` (none when the register is not implemented or the two values agree)
and at most one `speculation_ctrl_update`. A second call in a row with the same arguments
issues exactly the same events again, so that two calls issue either no register write or
the same write twice. -/
theorem C17_virt_calls_repeat_their_writes (s : State) (g v : Nat) (sg : Bool) :
    x86_virt_spec_ctrl s g v sg = { s with trace := s.trace ++ virt_events s g v sg } ∧
    x86_virt_spec_ctrl (x86_virt_spec_ctrl s g v sg) g v sg =
      { s with trace := s.trace ++ virt_events s g v sg ++ virt_events s g v sg } ∧
    ((virt_events s g v sg).filter is_wrmsrl).length ≤ 1 ∧
    (virt_events s g v sg).length ≤ 2 ∧
    ((static_cpu_has s X86_FEATURE_MSR_SPEC_CTRL = false ∨
        virt_hostval s = virt_guestval s g) →
      (virt_events s g v sg).filter is_wrmsrl = []) := by
  refine ⟨x86_virt_spec_ctrl_eq s g v sg, ?_, (virt_events_at_most_one_write s g v sg).1,
    (virt_events_at_most_one_write s g v sg).2, ?_⟩
  · rw [x86_virt_spec_ctrl_eq s g v sg, x86_virt_spec_ctrl_eq, virt_events_trace_irrelevant]
    rfl
  · intro h
    unfold virt_events
    rcases h with h | h
    · simp only [h, Bool.false_eq_true, false_and, if_false, List.nil_append]
      split_ifs <;> simp [is_wrmsrl]
    · simp only [h, ne_eq, not_true_eq_false, and_false, if_false, List.nil_append]
      split_ifs <;> simp [is_wrmsrl]

/-- C17, amended, at a concrete input: when the guest requests what the host already has,
no register is written, in one call as in two. -/
theorem C17_virt_calls_repeat_their_writes_witness :
    (x86_virt_spec_ctrl (x86_virt_spec_ctrl virtHost 0 0 true) 0 0 true).trace = [] ∧
    (virt_events virtHost 0 0 true).filter is_wrmsrl = [] :=
  have h := C17_virt_calls_repeat_their_writes virtHost 0 0 true
  ⟨by rw [h.2.1]; decide, h.2.2.2.2 (Or.inr (by decide))⟩

/-- C18: guest control clamping. When `MSR_SPEC_CTRL` is implemented, for every 64-bit
base value, every mask and every guest request, with `guestval = (base & ~mask) |
(guest_spec_ctrl & mask)` and `hostval` the base or-ed with the current task's SSBD bit
(only when `SPEC_CTRL_SSBD` or `AMD_SSBD` is present) and with its STIBP bit (only when
`switch_to_cond_stibp` is on): `guestval` is the guest-side value the function computes
and `hostval` the host-side one; `guestval` has the guest's bit at every position inside
the mask and the base's bit at every position outside it; and the first event the call
adds is the write of `MSR_IA32_SPEC_CTRL`, issued if and only if `hostval` and `guestval`
differ, with `guestval` when entering the guest and `hostval` when leaving, followed only
by the `speculation_ctrl_update` of the alternate-register path, if any. -/
theorem C18_guest_control_clamped (s : State) (g v : Nat) (sg : Bool)
    (hmsr : static_cpu_has s X86_FEATURE_MSR_SPEC_CTRL = true)
    (h64 : s.x86_spec_ctrl_base < 2 ^ 64)
    (guestval hostval : Nat)
    (hguest : guestval =
      (s.x86_spec_ctrl_base &&& not64 s.x86_spec_ctrl_mask) ||| (g &&& s.x86_spec_ctrl_mask))
    (hhost : hostval =
      (s.x86_spec_ctrl_base |||
        (if static_cpu_has s X86_FEATURE_SPEC_CTRL_SSBD ∨
            static_cpu_has s X86_FEATURE_AMD_SSBD then
          ssbd_tif_to_spec_ctrl (s.tasks s.current) else 0)) |||
        (if s.switch_to_cond_stibp then stibp_tif_to_spec_ctrl (s.tasks s.current) else 0)) :
    virt_guestval s g = guestval ∧
    virt_hostval s = hostval ∧
    (∀ i, guestval.testBit i =
      if s.x86_spec_ctrl_mask.testBit i then g.testBit i
      else s.x86_spec_ctrl_base.testBit i) ∧
    (∃ alt : List Event,
      (∀ e ∈ alt, ∃ b, e = Event.speculation_ctrl_update b) ∧
      (x86_virt_spec_ctrl s g v sg).trace =
        s.trace ++
          (if hostval ≠ guestval then
            [Event.wrmsrl Msr.MSR_IA32_SPEC_CTRL (if sg then guestval else hostval)]
          else []) ++ alt) := by
  have hg : virt_guestval s g = guestval := by rw [hguest]; rfl
  have hh : virt_hostval s = hostval := by
    rw [hhost]
    unfold virt_hostval
    simp only []
    split_ifs <;> simp
  refine ⟨hg, hh, ?_, ?_⟩
  · intro i
    rw [hguest]
    simp only [Nat.testBit_or, Nat.testBit_and, testBit_not64]
    by_cases hlt : i < 64
    · cases s.x86_spec_ctrl_mask.testBit i <;> simp [hlt]
    · have hb := testBit_u64 _ i h64 (by omega)
      cases s.x86_spec_ctrl_mask.testBit i <;> simp [hlt, hb]
  · rw [x86_virt_spec_ctrl_eq]
    unfold virt_events
    rw [hg, hh]
    simp only [hmsr, true_and, ne_eq]
    refine ⟨_, ?_, by rw [List.append_assoc]⟩
    intro e he
    split_ifs at he <;> simp at he <;> exact ⟨_, he⟩

/-- C18 at a concrete input: base 0, mask `SPEC_CTRL_IBRS`, guest request 3 (IBRS and
STIBP): the guest-side value is 1, the STIBP bit outside the mask being the host's, and
entering the guest writes 1 to `MSR_IA32_SPEC_CTRL`. -/
theorem C18_guest_control_clamped_witness :
    virt_guestval virtHost 3 = 1 ∧
    (x86_virt_spec_ctrl virtHost 3 0 true).trace =
      [Event.wrmsrl Msr.MSR_IA32_SPEC_CTRL 1] :=
  have h := C18_guest_control_clamped virtHost 3 0 true (by decide) (by decide) 1 0
    (by decide) (by decide)
  ⟨h.1, by decide⟩

/-! ## C19 -/

set_option maxRecDepth 16384

/-- C19, counterexample: after boot in mode `SPECTRE_V2_RETPOLINE_GENERIC` and the load of
a module without retpoline, `spectre_v2_bad_module` is set and the status string is
`Mitigation: Full generic retpoline, RSB filling - vulnerable module loaded`: the module
qualifier is joined by ` - `, not as a comma-separated suffix. -/
theorem C19_module_qualifier_has_no_comma :
    badModuleBooted.spectre_v2_bad_module = true ∧
    cpu_show_common cfgRetpoline badModuleBooted X86_BUG_SPECTRE_V2 =
      "Mitigation: Full generic retpoline, RSB filling - vulnerable module loaded\n" ∧
    ¬ (", vulnerable module loaded".toList <:+:
      (cpu_show_common cfgRetpoline badModuleBooted X86_BUG_SPECTRE_V2).toList) := by
  decide

/-- C19, amended: on affected hardware, for every mode, capability set and build, the
string produced by `cpu_show_common` for `X86_BUG_SPECTRE_V2` is the mode's table string
followed, in this fixed order, by `, IBPB` if `USE_IBPB` is set, `, IBRS_FW` if
`USE_IBRS_FW` is set, `, STIBP` if the STIBP bit is set in the base and the mode is not
Enhanced IBRS, `, RSB filling` if `RSB_CTXSW` is set, and ` - vulnerable module loaded`
if the build defines `RETPOLINE` and `spectre_v2_bad_module` is set, and then by the line
terminator; a qualifier whose condition is false contributes nothing. -/
theorem C19_spectre_v2_status_format (cfg : Kconfig) (s : State)
    (hbug : boot_cpu_has_bug s X86_BUG_SPECTRE_V2 = true) :
    cpu_show_common cfg s X86_BUG_SPECTRE_V2 =
      spectre_v2_strings s.spectre_v2_enabled ++
        (if boot_cpu_has s X86_FEATURE_USE_IBPB then ", IBPB" else "") ++
        (if boot_cpu_has s X86_FEATURE_USE_IBRS_FW then ", IBRS_FW" else "") ++
        (if s.x86_spec_ctrl_base &&& SPEC_CTRL_STIBP ≠ 0 ∧
            s.spectre_v2_enabled ≠ SPECTRE_V2_IBRS_ENHANCED then ", STIBP" else "") ++
        (if boot_cpu_has s X86_FEATURE_RSB_CTXSW then ", RSB filling" else "") ++
        (if cfg.RETPOLINE = true ∧ s.spectre_v2_bad_module = true then
          " - vulnerable module loaded" else "") ++ "\n" := by
  unfold cpu_show_common ibpb_state stibp_state spectre_v2_module_string
  simp only [hbug, Bool.not_true, Bool.false_eq_true, if_false]
  by_cases he : s.spectre_v2_enabled = SPECTRE_V2_IBRS_ENHANCED <;>
    by_cases hb : s.x86_spec_ctrl_base &&& SPEC_CTRL_STIBP = 0 <;>
    cases hr : cfg.RETPOLINE <;>
    cases hm : s.spectre_v2_bad_module <;>
    simp [he, hb]

/-- C19, amended, at a concrete input: after `check_bugs` on a machine with enhanced IBRS
and the barrier capability the status string is the table string followed by `, IBPB` and
`, RSB filling`. -/
theorem C19_spectre_v2_status_format_witness :
    cpu_show_common cfgRetpoline enhancedBooted X86_BUG_SPECTRE_V2 =
      "Mitigation: Enhanced IBRS, IBPB, RSB filling\n" :=
  (C19_spectre_v2_status_format cfgRetpoline enhancedBooted (by decide)).trans (by decide)

/-! ## C20 -/

theorem spectre_v2_status_ne_not_affected (m : spectre_v2_mitigation) (b1 b2 b3 b4 b5 : Bool) :
    spectre_v2_strings m ++ (if b1 then ", IBPB" else "") ++
        (if b2 then ", IBRS_FW" else "") ++ (if b3 then ", STIBP" else "") ++
        (if b4 then ", RSB filling" else "") ++
        (if b5 then " - vulnerable module loaded" else "") ++ "\n" ≠ "Not affected\n" := by
  cases m <;> cases b1 <;> cases b2 <;> cases b3 <;> cases b4 <;> cases b5 <;> decide

theorem smt_suffix_ne_not_affected (a sfx : String) (h : 13 < sfx.length) :
    a ++ sfx ≠ "Not affected\n" := by
  intro heq
  have hl := congrArg String.length heq
  rw [String.length_append] at hl
  have h13 : "Not affected\n".length = 13 := by decide
  omega

theorem append_newline_cancel (a b : String) (h : a ++ "\n" = b ++ "\n") : a = b := by
  have hd := congrArg String.data h
  simp only [String.data_append] at hd
  exact String.ext (List.append_cancel_right hd)

theorem mds_show_state_ne_not_affected (cfg : Kconfig) (s : State) :
    mds_show_state cfg s ≠ "Not affected\n" := by
  intro heq
  have hl := congrArg String.length heq
  have h0 : "Not affected\n".length = 13 := by decide
  have h1 : "; SMT Host state unknown\n".length = 25 := by decide
  have h2 : "; SMT ".length = 6 := by decide
  have h3 : "vulnerable".length = 10 := by decide
  have h4 : "mitigated".length = 9 := by decide
  have h5 : "disabled".length = 8 := by decide
  have h6 : "\n".length = 1 := by decide
  unfold mds_show_state at hl
  split_ifs at hl <;> simp only [String.length_append, h0, h1, h2, h3, h4, h5, h6] at hl <;>
    omega

theorem taa_show_state_ne_not_affected (s : State) (htaa : s.taa_string ≠ "Not affected") :
    tsx_async_abort_show_state s ≠ "Not affected\n" := by
  intro heq
  unfold tsx_async_abort_show_state at heq
  split_ifs at heq
  · exact htaa (append_newline_cancel _ _ heq)
  all_goals
    have hl := congrArg String.length heq
    have h0 : "Not affected\n".length = 13 := by decide
    have h1 : "; SMT Host state unknown\n".length = 25 := by decide
    have h2 : "; SMT ".length = 6 := by decide
    have h3 : "vulnerable".length = 10 := by decide
    have h5 : "disabled".length = 8 := by decide
    have h6 : "\n".length = 1 := by decide
    simp only [String.length_append, h0, h1, h2, h3, h5, h6] at hl
    omega

theorem cpu_show_common_ne_not_affected (cfg : Kconfig) (s : State) (bug : X86Cap)
    (htaa : s.taa_string ≠ "Not affected")
    (hb : boot_cpu_has_bug s bug = true) :
    cpu_show_common cfg s bug ≠ "Not affected\n" := by
  unfold cpu_show_common
  simp only [hb, Bool.not_true, Bool.false_eq_true, if_false]
  cases bug
  case X86_BUG_SPECTRE_V2 =>
    simp only []
    unfold ibpb_state stibp_state spectre_v2_module_string
    have h := spectre_v2_status_ne_not_affected s.spectre_v2_enabled
      (boot_cpu_has s X86_FEATURE_USE_IBPB) (boot_cpu_has s X86_FEATURE_USE_IBRS_FW)
      (decide (s.spectre_v2_enabled ≠ SPECTRE_V2_IBRS_ENHANCED ∧
        s.x86_spec_ctrl_base &&& SPEC_CTRL_STIBP ≠ 0))
      (boot_cpu_has s X86_FEATURE_RSB_CTXSW)
      (cfg.RETPOLINE && s.spectre_v2_bad_module)
    intro heq
    apply h
    rw [← heq]
    by_cases he : s.spectre_v2_enabled = SPECTRE_V2_IBRS_ENHANCED <;>
      by_cases hz : s.x86_spec_ctrl_base &&& SPEC_CTRL_STIBP = 0 <;>
      cases cfg.RETPOLINE <;> cases s.spectre_v2_bad_module <;> simp [he, hz]
  case X86_BUG_SPEC_STORE_BYPASS =>
    simp only []
    cases s.ssb_mode <;> decide
  case X86_BUG_MDS => exact mds_show_state_ne_not_affected cfg s
  case X86_BUG_TAA => exact taa_show_state_ne_not_affected s htaa
  case X86_BUG_CPU_MELTDOWN => simp only []; split_ifs <;> decide
  case X86_BUG_L1TF => simp only []; split_ifs <;> decide
  case X86_BUG_SPECTRE_V1 =>
    show "Mitigation: __user pointer sanitization\n" ≠ "Not affected\n"
    decide
  all_goals
    show "Vulnerable\n" ≠ "Not affected\n"
    decide

/-- C20: the status reporter is total and distinguishes `Not affected`. `cpu_show_common`
is defined for every class id and every value of the two mode enumerations, and both
string tables have a non-empty entry for every mode. The string is `Not affected` (plus
line terminator) if and only if the class's vulnerability flag is absent; the direction
from the string to the flag needs that the text `taa_strings[taa_mitigation]`, a table
outside this file, is not itself `Not affected`. For a present flag with no mitigation
recorded (Meltdown without `KAISER`, L1TF without PTE inversion, or a class id that is
none of the seven the function knows) the string is `Vulnerable` (plus line terminator). -/
theorem C20_status_total_not_affected (cfg : Kconfig) (s : State)
    (htaa : s.taa_string ≠ "Not affected") :
    (∀ bug, cpu_show_common cfg s bug = "Not affected\n" ↔ boot_cpu_has_bug s bug = false) ∧
    (∀ m, spectre_v2_strings m ≠ "") ∧
    (∀ m, ssb_strings m ≠ "") ∧
    (boot_cpu_has_bug s X86_BUG_CPU_MELTDOWN = true →
      boot_cpu_has s X86_FEATURE_KAISER = false →
      cpu_show_common cfg s X86_BUG_CPU_MELTDOWN = "Vulnerable\n") ∧
    (boot_cpu_has_bug s X86_BUG_L1TF = true →
      boot_cpu_has s X86_FEATURE_L1TF_PTEINV = false →
      cpu_show_common cfg s X86_BUG_L1TF = "Vulnerable\n") ∧
    (∀ bug, boot_cpu_has_bug s bug = true →
      bug ∉ [X86_BUG_CPU_MELTDOWN, X86_BUG_SPECTRE_V1, X86_BUG_SPECTRE_V2,
        X86_BUG_SPEC_STORE_BYPASS, X86_BUG_L1TF, X86_BUG_MDS, X86_BUG_TAA] →
      cpu_show_common cfg s bug = "Vulnerable\n") := by
  refine ⟨?_, ?_, ?_, ?_, ?_, ?_⟩
  · intro bug
    constructor
    · intro h
      cases hb : boot_cpu_has_bug s bug
      · rfl
      · exact absurd h (cpu_show_common_ne_not_affected cfg s bug htaa hb)
    · intro h
      unfold cpu_show_common
      simp [h]
  · intro m; cases m <;> decide
  · intro m; cases m <;> decide
  · intro hb hk
    unfold cpu_show_common
    simp [hb, hk]
  · intro hb hk
    unfold cpu_show_common
    simp [hb, hk]
  · intro bug hb hn
    unfold cpu_show_common
    simp only [hb, Bool.not_true, Bool.false_eq_true, if_false]
    cases bug <;> first | rfl | (exfalso; simp at hn)

/-- C20 at concrete inputs: Spectre v2 reads `Not affected` on a machine without the
flag; an affected class never does; an unknown class id with its flag set reads
`Vulnerable`. -/
theorem C20_status_total_not_affected_witness :
    cpu_show_common cfgRetpoline notAffectedAuto X86_BUG_SPECTRE_V2 = "Not affected\n" ∧
    boot_cpu_has_bug (bootState [X86Cap.other 99] 0 emptyCmdline) (X86Cap.other 99) = true ∧
    cpu_show_common cfgRetpoline (bootState [X86Cap.other 99] 0 emptyCmdline)
      (X86Cap.other 99) = "Vulnerable\n" :=
  ⟨((C20_status_total_not_affected cfgRetpoline notAffectedAuto (by decide)).1
      X86_BUG_SPECTRE_V2).2 (by decide),
    by decide,
    (C20_status_total_not_affected cfgRetpoline (bootState [X86Cap.other 99] 0 emptyCmdline)
      (by decide)).2.2.2.2.2 (X86Cap.other 99) (by decide) (by decide)⟩

/-! ## C21 and C22 -/

theorem specv2_set_mode_eq (cfg : Kconfig) (s : State) (mode : spectre_v2_mitigation) :
    specv2_set_mode cfg s mode = arch_smt_update cfg (specv2_forced s mode) := rfl

theorem specv2_forced_enabled (s : State) (mode : spectre_v2_mitigation) :
    (specv2_forced s mode).spectre_v2_enabled = mode := by
  unfold specv2_forced
  simp only []
  split_ifs <;> rfl

theorem specv2_forced_caps (s : State) (mode : spectre_v2_mitigation) :
    (specv2_forced s mode).cpu_caps_set = s.cpu_caps_set ++ post_decision_caps s mode := by
  unfold specv2_forced post_decision_caps
  simp only [boot_cpu_has, printk, emit, setup_force_cpu_cap]
  by_cases h1 : s.boot_cpu_data.x86_capability X86_FEATURE_IBPB = true <;>
    by_cases h2 : s.boot_cpu_data.x86_capability X86_FEATURE_IBRS = true <;>
    by_cases h3 : mode = SPECTRE_V2_IBRS_ENHANCED <;>
    simp [h1, h2, h3]

theorem specv2_forced_broadcast (s : State) (mode : spectre_v2_mitigation) :
    (specv2_forced s mode).trace.filter is_broadcast = s.trace.filter is_broadcast := by
  unfold specv2_forced
  simp only []
  split_ifs <;> simp [printk, emit, setup_force_cpu_cap, List.filter_append, is_broadcast]

theorem decided_set_mode (cfg : Kconfig) (t0 t : State) (mode : spectre_v2_mitigation)
    (hm : mode ≠ SPECTRE_V2_NONE)
    (hcaps : t.cpu_caps_set = t0.cpu_caps_set ++ flavour_caps mode)
    (hibpb : boot_cpu_has t X86_FEATURE_IBPB = boot_cpu_has t0 X86_FEATURE_IBPB)
    (hibrs : boot_cpu_has t X86_FEATURE_IBRS = boot_cpu_has t0 X86_FEATURE_IBRS)
    (htr : t.trace.filter is_broadcast = t0.trace.filter is_broadcast) :
    decided cfg t0 (specv2_set_mode cfg t mode) := by
  have hpost : post_decision_caps t mode = post_decision_caps t0 mode := by
    unfold post_decision_caps
    rw [hibpb, hibrs]
  refine ⟨specv2_forced t mode, rfl, ?_, ?_, ?_, ?_⟩
  · rw [specv2_forced_enabled, specv2_set_mode_enabled]
  · rw [specv2_set_mode_enabled]; exact hm
  · rw [specv2_set_mode_enabled, specv2_forced_caps, hcaps, hpost]
  · rw [specv2_forced_broadcast, htr]

theorem decided_generic (cfg : Kconfig) (t0 t : State)
    (hcaps : t.cpu_caps_set = t0.cpu_caps_set)
    (hdata : t.boot_cpu_data = t0.boot_cpu_data)
    (htr : t.trace.filter is_broadcast = t0.trace.filter is_broadcast) :
    decided cfg t0 (retpoline_generic cfg t) := by
  unfold retpoline_generic
  simp only []
  apply decided_set_mode
  · split_ifs <;> simp
  · split_ifs <;> simp [setup_force_cpu_cap, hcaps, flavour_caps]
  · simp [boot_cpu_has, setup_force_cpu_cap, hdata]
  · simp [boot_cpu_has, setup_force_cpu_cap, hdata]
  · simpa [setup_force_cpu_cap] using htr

theorem decided_amd (cfg : Kconfig) (t : State) :
    decided cfg t (retpoline_amd cfg t) := by
  unfold retpoline_amd
  by_cases hl : (!boot_cpu_has t X86_FEATURE_LFENCE_RDTSC) = true
  · rw [if_pos hl]
    exact decided_generic cfg t _ rfl rfl
      (by simp [printk, emit, List.filter_append, is_broadcast])
  · rw [if_neg hl]
    simp only []
    apply decided_set_mode
    · split_ifs <;> simp
    · split_ifs <;> simp [setup_force_cpu_cap, flavour_caps]
    · simp [boot_cpu_has, setup_force_cpu_cap]
    · simp [boot_cpu_has, setup_force_cpu_cap]
    · simp [setup_force_cpu_cap]

theorem decided_auto (cfg : Kconfig) (t : State) :
    decided cfg t (retpoline_auto cfg t) := by
  unfold retpoline_auto
  split_ifs
  · exact decided_amd cfg t
  · exact decided_generic cfg t t rfl rfl rfl

theorem decided_enhanced (cfg : Kconfig) (t : State) :
    decided cfg t
      (specv2_set_mode cfg
        (wrmsrl { t with x86_spec_ctrl_base := t.x86_spec_ctrl_base ||| SPEC_CTRL_IBRS }
          Msr.MSR_IA32_SPEC_CTRL (t.x86_spec_ctrl_base ||| SPEC_CTRL_IBRS))
        SPECTRE_V2_IBRS_ENHANCED) := by
  apply decided_set_mode
  · simp
  · simp [wrmsrl, emit, flavour_caps]
  · simp [boot_cpu_has, wrmsrl, emit]
  · simp [boot_cpu_has, wrmsrl, emit]
  · simp [wrmsrl, emit, List.filter_append, is_broadcast]

theorem select_cmd_outcome (cfg : Kconfig) (t : State) (cmd : spectre_v2_mitigation_cmd) :
    (spectre_v2_select_mitigation_cmd cfg t cmd = t ∨
      spectre_v2_select_mitigation_cmd cfg t cmd = no_retpoline_available t) ∨
    decided cfg t (spectre_v2_select_mitigation_cmd cfg t cmd) := by
  unfold spectre_v2_select_mitigation_cmd
  by_cases h : (!boot_cpu_has_bug t X86_BUG_SPECTRE_V2) = true ∧
      (cmd = SPECTRE_V2_CMD_NONE ∨ cmd = SPECTRE_V2_CMD_AUTO)
  · rw [if_pos h]
    exact Or.inl (Or.inl rfl)
  · rw [if_neg h]
    cases cmd <;> simp only [] <;> (try split_ifs) <;>
      first
      | exact Or.inl (Or.inl rfl)
      | exact Or.inl (Or.inl trivial)
      | exact Or.inl (Or.inr rfl)
      | exact Or.inl (Or.inr trivial)
      | exact Or.inr (decided_auto cfg t)
      | exact Or.inr (decided_amd cfg t)
      | exact Or.inr (decided_generic cfg t t rfl rfl rfl)
      | exact Or.inr (decided_enhanced cfg t)

theorem filter_broadcast_printk (msgs : List String) :
    (msgs.map Event.printk).filter is_broadcast = [] := by
  induction msgs with
  | nil => rfl
  | cons m ms ih => simp [is_broadcast]

theorem select_outcome (cfg : Kconfig) (s : State) :
    (∃ msgs : List String,
      spectre_v2_select_mitigation cfg s =
        { s with trace := s.trace ++ msgs.map Event.printk }) ∨
    decided cfg s (spectre_v2_select_mitigation cfg s) := by
  unfold spectre_v2_select_mitigation
  simp only []
  obtain ⟨msgs, ht⟩ := spectre_v2_parse_cmdline_trace cfg s
  rcases select_cmd_outcome cfg (spectre_v2_parse_cmdline cfg s).1
      (spectre_v2_parse_cmdline cfg s).2 with (h | h) | h
  · left
    exact ⟨msgs, by rw [h, ht]⟩
  · left
    refine ⟨msgs ++ ["Spectre V2 : Spectre mitigation: kernel not compiled with retpoline; " ++
      "no mitigation available!"], ?_⟩
    rw [h, ht]
    simp [no_retpoline_available, printk, emit]
  · right
    obtain ⟨pre, h1, h2, h3, h4, h5⟩ := h
    refine ⟨pre, h1, h2, h3, ?_, ?_⟩
    · rw [h4, ht]
      rfl
    · rw [h5, ht]
      simp [List.filter_append, filter_broadcast_printk]

theorem parse_amd_vendor (cfg : Kconfig) (s : State)
    (h : (spectre_v2_parse_cmdline cfg s).2 = SPECTRE_V2_CMD_RETPOLINE_AMD) :
    s.boot_cpu_data.x86_vendor = X86_VENDOR_AMD := by
  rw [spectre_v2_parse_eq] at h
  by_cases hd : downgrade_applies cfg s (spectre_v2_reference s) = true
  · rw [if_pos hd] at h
    cases h
  · rw [if_neg hd] at h
    by_contra hv
    apply hd
    simp [downgrade_applies, h, hv]

theorem select_cmd_flavour (cfg : Kconfig) (t : State) (cmd : spectre_v2_mitigation_cmd)
    (hr : cfg.CONFIG_RETPOLINE = true)
    (h0 : t.spectre_v2_enabled = SPECTRE_V2_NONE)
    (hv : cmd = SPECTRE_V2_CMD_RETPOLINE_AMD → t.boot_cpu_data.x86_vendor = X86_VENDOR_AMD) :
    (((spectre_v2_select_mitigation_cmd cfg t cmd).spectre_v2_enabled =
          SPECTRE_V2_RETPOLINE_AMD ∨
        (spectre_v2_select_mitigation_cmd cfg t cmd).spectre_v2_enabled =
          SPECTRE_V2_RETPOLINE_MINIMAL_AMD) →
      t.boot_cpu_data.x86_vendor = X86_VENDOR_AMD ∧
        boot_cpu_has t X86_FEATURE_LFENCE_RDTSC = true) ∧
    ((cmd = SPECTRE_V2_CMD_RETPOLINE_AMD ∨
        (t.boot_cpu_data.x86_vendor = X86_VENDOR_AMD ∧
          (cmd = SPECTRE_V2_CMD_RETPOLINE ∨
            ((cmd = SPECTRE_V2_CMD_FORCE ∨
                (cmd = SPECTRE_V2_CMD_AUTO ∧ boot_cpu_has_bug t X86_BUG_SPECTRE_V2 = true)) ∧
              boot_cpu_has t X86_FEATURE_IBRS_ENHANCED = false)))) →
      boot_cpu_has t X86_FEATURE_LFENCE_RDTSC = false →
      (spectre_v2_select_mitigation_cmd cfg t cmd).spectre_v2_enabled =
          (if retp_compiler cfg then SPECTRE_V2_RETPOLINE_GENERIC
            else SPECTRE_V2_RETPOLINE_MINIMAL)) ∧
    (is_retpoline_mode (spectre_v2_select_mitigation_cmd cfg t cmd).spectre_v2_enabled = true →
      is_full_retpoline_mode (spectre_v2_select_mitigation_cmd cfg t cmd).spectre_v2_enabled =
        retp_compiler cfg) := by
  unfold spectre_v2_select_mitigation_cmd no_retpoline_available
  by_cases hvd : t.boot_cpu_data.x86_vendor = X86_VENDOR_AMD <;>
    cases cmd <;>
    cases hb : boot_cpu_has_bug t X86_BUG_SPECTRE_V2 <;>
    cases he : boot_cpu_has t X86_FEATURE_IBRS_ENHANCED <;>
    cases hc : retp_compiler cfg <;>
    cases hl : boot_cpu_has t X86_FEATURE_LFENCE_RDTSC <;>
    simp [specv2_set_mode_enabled, retpoline_auto_enabled, retpoline_amd_enabled,
      retpoline_generic_enabled, h0, hr, hc, hl, hvd, printk, emit, is_retpoline_mode,
      is_full_retpoline_mode] <;>
    simp_all

theorem flavour_caps_retpoline (m : spectre_v2_mitigation) :
    (is_retpoline_mode m = true → X86_FEATURE_RETPOLINE ∈ flavour_caps m) ∧
    (X86_FEATURE_RETPOLINE_AMD ∈ flavour_caps m →
      m = SPECTRE_V2_RETPOLINE_AMD ∨ m = SPECTRE_V2_RETPOLINE_MINIMAL_AMD) ∧
    (X86_FEATURE_RETPOLINE_AMD ∈ flavour_caps m → X86_FEATURE_RETPOLINE ∈ flavour_caps m) ∧
    X86_FEATURE_RSB_CTXSW ∉ flavour_caps m ∧
    X86_FEATURE_USE_IBPB ∉ flavour_caps m ∧
    X86_FEATURE_USE_IBRS_FW ∉ flavour_caps m := by
  cases m <;> simp [flavour_caps, is_retpoline_mode]

theorem post_decision_caps_mem (s : State) (m : spectre_v2_mitigation) :
    X86_FEATURE_RSB_CTXSW ∈ post_decision_caps s m ∧
    (X86_FEATURE_USE_IBPB ∈ post_decision_caps s m ↔
      boot_cpu_has s X86_FEATURE_IBPB = true) ∧
    (X86_FEATURE_USE_IBRS_FW ∈ post_decision_caps s m ↔
      boot_cpu_has s X86_FEATURE_IBRS = true ∧ m ≠ SPECTRE_V2_IBRS_ENHANCED) ∧
    X86_FEATURE_RETPOLINE_AMD ∉ post_decision_caps s m ∧
    X86_FEATURE_RETPOLINE ∉ post_decision_caps s m := by
  unfold post_decision_caps
  by_cases h1 : boot_cpu_has s X86_FEATURE_IBPB = true <;>
    by_cases h2 : boot_cpu_has s X86_FEATURE_IBRS = true <;>
    by_cases h3 : m = SPECTRE_V2_IBRS_ENHANCED <;>
    simp [h1, h2, h3]

theorem select_flavour (cfg : Kconfig) (s : State)
    (hr : cfg.CONFIG_RETPOLINE = true)
    (h0 : s.spectre_v2_enabled = SPECTRE_V2_NONE) :
    (((spectre_v2_select_mitigation cfg s).spectre_v2_enabled = SPECTRE_V2_RETPOLINE_AMD ∨
        (spectre_v2_select_mitigation cfg s).spectre_v2_enabled =
          SPECTRE_V2_RETPOLINE_MINIMAL_AMD) →
      s.boot_cpu_data.x86_vendor = X86_VENDOR_AMD ∧
        boot_cpu_has s X86_FEATURE_LFENCE_RDTSC = true) ∧
    (((spectre_v2_parse_cmdline cfg s).2 = SPECTRE_V2_CMD_RETPOLINE_AMD ∨
        (s.boot_cpu_data.x86_vendor = X86_VENDOR_AMD ∧
          ((spectre_v2_parse_cmdline cfg s).2 = SPECTRE_V2_CMD_RETPOLINE ∨
            (((spectre_v2_parse_cmdline cfg s).2 = SPECTRE_V2_CMD_FORCE ∨
                ((spectre_v2_parse_cmdline cfg s).2 = SPECTRE_V2_CMD_AUTO ∧
                  boot_cpu_has_bug s X86_BUG_SPECTRE_V2 = true)) ∧
              boot_cpu_has s X86_FEATURE_IBRS_ENHANCED = false)))) →
      boot_cpu_has s X86_FEATURE_LFENCE_RDTSC = false →
      (spectre_v2_select_mitigation cfg s).spectre_v2_enabled =
          (if retp_compiler cfg then SPECTRE_V2_RETPOLINE_GENERIC
            else SPECTRE_V2_RETPOLINE_MINIMAL)) ∧
    (is_retpoline_mode (spectre_v2_select_mitigation cfg s).spectre_v2_enabled = true →
      is_full_retpoline_mode (spectre_v2_select_mitigation cfg s).spectre_v2_enabled =
        retp_compiler cfg) := by
  have hf := select_cmd_flavour cfg (spectre_v2_parse_cmdline cfg s).1
    (spectre_v2_parse_cmdline cfg s).2 hr (by simp [h0])
    (fun h => by simpa using parse_amd_vendor cfg s h)
  simp only [boot_cpu_has, boot_cpu_has_bug, spectre_v2_parse_cmdline_boot_cpu_data] at hf
  exact hf

theorem select_cmd_paths (cfg : Kconfig) (t : State) (cmd : spectre_v2_mitigation_cmd)
    (hr : cfg.CONFIG_RETPOLINE = true)
    (h0 : t.spectre_v2_enabled = SPECTRE_V2_NONE)
    (hv : cmd = SPECTRE_V2_CMD_RETPOLINE_AMD → t.boot_cpu_data.x86_vendor = X86_VENDOR_AMD) :
    ((cmd = SPECTRE_V2_CMD_RETPOLINE_AMD ∨
        (t.boot_cpu_data.x86_vendor = X86_VENDOR_AMD ∧
          (cmd = SPECTRE_V2_CMD_RETPOLINE ∨
            ((cmd = SPECTRE_V2_CMD_FORCE ∨
                (cmd = SPECTRE_V2_CMD_AUTO ∧ boot_cpu_has_bug t X86_BUG_SPECTRE_V2 = true)) ∧
              boot_cpu_has t X86_FEATURE_IBRS_ENHANCED = false)))) →
      boot_cpu_has t X86_FEATURE_LFENCE_RDTSC = true →
      (spectre_v2_select_mitigation_cmd cfg t cmd).spectre_v2_enabled =
          (if retp_compiler cfg then SPECTRE_V2_RETPOLINE_AMD
            else SPECTRE_V2_RETPOLINE_MINIMAL_AMD)) ∧
    ((cmd = SPECTRE_V2_CMD_RETPOLINE_GENERIC ∨
        (t.boot_cpu_data.x86_vendor ≠ X86_VENDOR_AMD ∧
          (cmd = SPECTRE_V2_CMD_RETPOLINE ∨
            ((cmd = SPECTRE_V2_CMD_FORCE ∨
                (cmd = SPECTRE_V2_CMD_AUTO ∧ boot_cpu_has_bug t X86_BUG_SPECTRE_V2 = true)) ∧
              boot_cpu_has t X86_FEATURE_IBRS_ENHANCED = false)))) →
      (spectre_v2_select_mitigation_cmd cfg t cmd).spectre_v2_enabled =
          (if retp_compiler cfg then SPECTRE_V2_RETPOLINE_GENERIC
            else SPECTRE_V2_RETPOLINE_MINIMAL)) ∧
    (is_retpoline_mode (spectre_v2_select_mitigation_cmd cfg t cmd).spectre_v2_enabled = true ↔
      (cmd = SPECTRE_V2_CMD_RETPOLINE_AMD ∨ cmd = SPECTRE_V2_CMD_RETPOLINE_GENERIC ∨
        cmd = SPECTRE_V2_CMD_RETPOLINE ∨
        ((cmd = SPECTRE_V2_CMD_FORCE ∨
            (cmd = SPECTRE_V2_CMD_AUTO ∧ boot_cpu_has_bug t X86_BUG_SPECTRE_V2 = true)) ∧
          boot_cpu_has t X86_FEATURE_IBRS_ENHANCED = false))) := by
  unfold spectre_v2_select_mitigation_cmd no_retpoline_available
  by_cases hvd : t.boot_cpu_data.x86_vendor = X86_VENDOR_AMD <;>
    cases cmd <;>
    cases hb : boot_cpu_has_bug t X86_BUG_SPECTRE_V2 <;>
    cases he : boot_cpu_has t X86_FEATURE_IBRS_ENHANCED <;>
    cases hc : retp_compiler cfg <;>
    cases hl : boot_cpu_has t X86_FEATURE_LFENCE_RDTSC <;>
    simp [specv2_set_mode_enabled, retpoline_auto_enabled, retpoline_amd_enabled,
      retpoline_generic_enabled, h0, hr, hc, hl, hvd, printk, emit, is_retpoline_mode,
      is_full_retpoline_mode]

theorem select_paths (cfg : Kconfig) (s : State)
    (hr : cfg.CONFIG_RETPOLINE = true)
    (h0 : s.spectre_v2_enabled = SPECTRE_V2_NONE) :
    (((spectre_v2_parse_cmdline cfg s).2 = SPECTRE_V2_CMD_RETPOLINE_AMD ∨
        (s.boot_cpu_data.x86_vendor = X86_VENDOR_AMD ∧
          ((spectre_v2_parse_cmdline cfg s).2 = SPECTRE_V2_CMD_RETPOLINE ∨
            (((spectre_v2_parse_cmdline cfg s).2 = SPECTRE_V2_CMD_FORCE ∨
                ((spectre_v2_parse_cmdline cfg s).2 = SPECTRE_V2_CMD_AUTO ∧
                  boot_cpu_has_bug s X86_BUG_SPECTRE_V2 = true)) ∧
              boot_cpu_has s X86_FEATURE_IBRS_ENHANCED = false)))) →
      boot_cpu_has s X86_FEATURE_LFENCE_RDTSC = true →
      (spectre_v2_select_mitigation cfg s).spectre_v2_enabled =
          (if retp_compiler cfg then SPECTRE_V2_RETPOLINE_AMD
            else SPECTRE_V2_RETPOLINE_MINIMAL_AMD)) ∧
    (((spectre_v2_parse_cmdline cfg s).2 = SPECTRE_V2_CMD_RETPOLINE_GENERIC ∨
        (s.boot_cpu_data.x86_vendor ≠ X86_VENDOR_AMD ∧
          ((spectre_v2_parse_cmdline cfg s).2 = SPECTRE_V2_CMD_RETPOLINE ∨
            (((spectre_v2_parse_cmdline cfg s).2 = SPECTRE_V2_CMD_FORCE ∨
                ((spectre_v2_parse_cmdline cfg s).2 = SPECTRE_V2_CMD_AUTO ∧
                  boot_cpu_has_bug s X86_BUG_SPECTRE_V2 = true)) ∧
              boot_cpu_has s X86_FEATURE_IBRS_ENHANCED = false)))) →
      (spectre_v2_select_mitigation cfg s).spectre_v2_enabled =
          (if retp_compiler cfg then SPECTRE_V2_RETPOLINE_GENERIC
            else SPECTRE_V2_RETPOLINE_MINIMAL)) ∧
    (is_retpoline_mode (spectre_v2_select_mitigation cfg s).spectre_v2_enabled = true ↔
      ((spectre_v2_parse_cmdline cfg s).2 = SPECTRE_V2_CMD_RETPOLINE_AMD ∨
        (spectre_v2_parse_cmdline cfg s).2 = SPECTRE_V2_CMD_RETPOLINE_GENERIC ∨
        (spectre_v2_parse_cmdline cfg s).2 = SPECTRE_V2_CMD_RETPOLINE ∨
        (((spectre_v2_parse_cmdline cfg s).2 = SPECTRE_V2_CMD_FORCE ∨
            ((spectre_v2_parse_cmdline cfg s).2 = SPECTRE_V2_CMD_AUTO ∧
              boot_cpu_has_bug s X86_BUG_SPECTRE_V2 = true)) ∧
          boot_cpu_has s X86_FEATURE_IBRS_ENHANCED = false))) := by
  have hf := select_cmd_paths cfg (spectre_v2_parse_cmdline cfg s).1
    (spectre_v2_parse_cmdline cfg s).2 hr (by simp [h0])
    (fun h => by simpa using parse_amd_vendor cfg s h)
  simp only [boot_cpu_has, boot_cpu_has_bug, spectre_v2_parse_cmdline_boot_cpu_data] at hf
  exact hf

theorem flavour_caps_of_mode (m : spectre_v2_mitigation) (c : Bool) :
    (m = (if c then SPECTRE_V2_RETPOLINE_AMD else SPECTRE_V2_RETPOLINE_MINIMAL_AMD) →
      flavour_caps m = [X86_FEATURE_RETPOLINE_AMD, X86_FEATURE_RETPOLINE]) ∧
    (m = (if c then SPECTRE_V2_RETPOLINE_GENERIC else SPECTRE_V2_RETPOLINE_MINIMAL) →
      flavour_caps m = [X86_FEATURE_RETPOLINE]) := by
  cases c <;> constructor <;> intro h <;> subst h <;> rfl

/-- C21: with `CONFIG_RETPOLINE` enabled, let `cmd` be the command returned by
`spectre_v2_parse_cmdline` and `r` the state left by `spectre_v2_select_mitigation`, run
from the initial mode `SPECTRE_V2_NONE`; the selector appends a list `added` to the forced
capabilities such that:
a vendor-specific mode implies vendor AMD and `X86_FEATURE_LFENCE_RDTSC`;
if the code at `retpoline_amd` is reached (command `retpoline,amd`, or vendor AMD with the
code at `retpoline_auto` reached) and `X86_FEATURE_LFENCE_RDTSC` is absent, the mode is
`SPECTRE_V2_RETPOLINE_GENERIC` when `retp_compiler` holds and
`SPECTRE_V2_RETPOLINE_MINIMAL` when not, `X86_FEATURE_RETPOLINE` is among `added` and
`X86_FEATURE_RETPOLINE_AMD` is not;
if that code is reached and `X86_FEATURE_LFENCE_RDTSC` is present, the mode is
`SPECTRE_V2_RETPOLINE_AMD` when `retp_compiler` holds and
`SPECTRE_V2_RETPOLINE_MINIMAL_AMD` when not, and both `X86_FEATURE_RETPOLINE_AMD` and
`X86_FEATURE_RETPOLINE` are among `added`;
if the code at `retpoline_generic` is reached directly (command `retpoline,generic`, or a
vendor other than AMD with the code at `retpoline_auto` reached), the mode is
`SPECTRE_V2_RETPOLINE_GENERIC` when `retp_compiler` holds and
`SPECTRE_V2_RETPOLINE_MINIMAL` when not, `X86_FEATURE_RETPOLINE` is among `added` and
`X86_FEATURE_RETPOLINE_AMD` is not;
the mode is a retpoline mode exactly when one of these is reached;
a retpoline mode is a full one exactly when `retp_compiler` holds, and comes with
`X86_FEATURE_RETPOLINE` among `added`; and `X86_FEATURE_RETPOLINE_AMD` among `added`
implies `X86_FEATURE_RETPOLINE` among `added`. -/
theorem C21_retpoline_flavour_selection (cfg : Kconfig) (s r : State)
    (cmd : spectre_v2_mitigation_cmd)
    (hr : cfg.CONFIG_RETPOLINE = true)
    (h0 : s.spectre_v2_enabled = SPECTRE_V2_NONE)
    (hcmd : cmd = (spectre_v2_parse_cmdline cfg s).2)
    (hres : r = spectre_v2_select_mitigation cfg s) :
    ∃ added : List X86Cap,
      r.cpu_caps_set = s.cpu_caps_set ++ added ∧
      ((r.spectre_v2_enabled = SPECTRE_V2_RETPOLINE_AMD ∨
          r.spectre_v2_enabled = SPECTRE_V2_RETPOLINE_MINIMAL_AMD) →
        s.boot_cpu_data.x86_vendor = X86_VENDOR_AMD ∧
          boot_cpu_has s X86_FEATURE_LFENCE_RDTSC = true) ∧
      ((cmd = SPECTRE_V2_CMD_RETPOLINE_AMD ∨
          (s.boot_cpu_data.x86_vendor = X86_VENDOR_AMD ∧
            (cmd = SPECTRE_V2_CMD_RETPOLINE ∨
              ((cmd = SPECTRE_V2_CMD_FORCE ∨
                  (cmd = SPECTRE_V2_CMD_AUTO ∧
                    boot_cpu_has_bug s X86_BUG_SPECTRE_V2 = true)) ∧
                boot_cpu_has s X86_FEATURE_IBRS_ENHANCED = false)))) →
        boot_cpu_has s X86_FEATURE_LFENCE_RDTSC = false →
        r.spectre_v2_enabled =
            (if retp_compiler cfg then SPECTRE_V2_RETPOLINE_GENERIC
              else SPECTRE_V2_RETPOLINE_MINIMAL) ∧
          X86_FEATURE_RETPOLINE_AMD ∉ added ∧
          X86_FEATURE_RETPOLINE ∈ added) ∧
      ((cmd = SPECTRE_V2_CMD_RETPOLINE_AMD ∨
          (s.boot_cpu_data.x86_vendor = X86_VENDOR_AMD ∧
            (cmd = SPECTRE_V2_CMD_RETPOLINE ∨
              ((cmd = SPECTRE_V2_CMD_FORCE ∨
                  (cmd = SPECTRE_V2_CMD_AUTO ∧
                    boot_cpu_has_bug s X86_BUG_SPECTRE_V2 = true)) ∧
                boot_cpu_has s X86_FEATURE_IBRS_ENHANCED = false)))) →
        boot_cpu_has s X86_FEATURE_LFENCE_RDTSC = true →
        r.spectre_v2_enabled =
            (if retp_compiler cfg then SPECTRE_V2_RETPOLINE_AMD
              else SPECTRE_V2_RETPOLINE_MINIMAL_AMD) ∧
          X86_FEATURE_RETPOLINE_AMD ∈ added ∧
          X86_FEATURE_RETPOLINE ∈ added) ∧
      ((cmd = SPECTRE_V2_CMD_RETPOLINE_GENERIC ∨
          (s.boot_cpu_data.x86_vendor ≠ X86_VENDOR_AMD ∧
            (cmd = SPECTRE_V2_CMD_RETPOLINE ∨
              ((cmd = SPECTRE_V2_CMD_FORCE ∨
                  (cmd = SPECTRE_V2_CMD_AUTO ∧
                    boot_cpu_has_bug s X86_BUG_SPECTRE_V2 = true)) ∧
                boot_cpu_has s X86_FEATURE_IBRS_ENHANCED = false)))) →
        r.spectre_v2_enabled =
            (if retp_compiler cfg then SPECTRE_V2_RETPOLINE_GENERIC
              else SPECTRE_V2_RETPOLINE_MINIMAL) ∧
          X86_FEATURE_RETPOLINE_AMD ∉ added ∧
          X86_FEATURE_RETPOLINE ∈ added) ∧
      (is_retpoline_mode r.spectre_v2_enabled = true ↔
        (cmd = SPECTRE_V2_CMD_RETPOLINE_AMD ∨ cmd = SPECTRE_V2_CMD_RETPOLINE_GENERIC ∨
          cmd = SPECTRE_V2_CMD_RETPOLINE ∨
          ((cmd = SPECTRE_V2_CMD_FORCE ∨
              (cmd = SPECTRE_V2_CMD_AUTO ∧ boot_cpu_has_bug s X86_BUG_SPECTRE_V2 = true)) ∧
            boot_cpu_has s X86_FEATURE_IBRS_ENHANCED = false))) ∧
      (is_retpoline_mode r.spectre_v2_enabled = true →
        is_full_retpoline_mode r.spectre_v2_enabled = retp_compiler cfg ∧
          X86_FEATURE_RETPOLINE ∈ added) ∧
      (X86_FEATURE_RETPOLINE_AMD ∈ added → X86_FEATURE_RETPOLINE ∈ added) := by
  subst hcmd hres
  obtain ⟨ha, hb, hc⟩ := select_flavour cfg s hr h0
  obtain ⟨hamd, hgen, hiff⟩ := select_paths cfg s hr h0
  rcases select_outcome cfg s with ⟨msgs, h⟩ | ⟨pre, h1, h2, h3, h4, h5⟩
  · have hm : (spectre_v2_select_mitigation cfg s).spectre_v2_enabled = SPECTRE_V2_NONE := by
      rw [h]
      exact h0
    have hcaps : (spectre_v2_select_mitigation cfg s).cpu_caps_set = s.cpu_caps_set := by
      rw [h]
    refine ⟨[], by simp [hcaps], ha, ?_, ?_, ?_, hiff, ?_, ?_⟩
    · intro he hl
      have hx := hb he hl
      rw [hm] at hx
      split_ifs at hx
    · intro he hl
      have hx := hamd he hl
      rw [hm] at hx
      split_ifs at hx
    · intro he
      have hx := hgen he
      rw [hm] at hx
      split_ifs at hx
    · intro hi
      rw [hm] at hi
      simp [is_retpoline_mode] at hi
    · simp
  · have hcaps : (spectre_v2_select_mitigation cfg s).cpu_caps_set = pre.cpu_caps_set := by
      rw [h1]
      exact arch_smt_update_cpu_caps_set cfg pre
    obtain ⟨f1, _, f3, _, _, _⟩ :=
      flavour_caps_retpoline (spectre_v2_select_mitigation cfg s).spectre_v2_enabled
    obtain ⟨_, _, _, p4, _⟩ :=
      post_decision_caps_mem s (spectre_v2_select_mitigation cfg s).spectre_v2_enabled
    obtain ⟨q1, q2⟩ :=
      flavour_caps_of_mode (spectre_v2_select_mitigation cfg s).spectre_v2_enabled
        (retp_compiler cfg)
    have hgeneric : (spectre_v2_select_mitigation cfg s).spectre_v2_enabled =
          (if retp_compiler cfg then SPECTRE_V2_RETPOLINE_GENERIC
            else SPECTRE_V2_RETPOLINE_MINIMAL) →
        X86_FEATURE_RETPOLINE_AMD ∉
            flavour_caps (spectre_v2_select_mitigation cfg s).spectre_v2_enabled ++
              post_decision_caps s (spectre_v2_select_mitigation cfg s).spectre_v2_enabled ∧
          X86_FEATURE_RETPOLINE ∈
            flavour_caps (spectre_v2_select_mitigation cfg s).spectre_v2_enabled ++
              post_decision_caps s (spectre_v2_select_mitigation cfg s).spectre_v2_enabled := by
      intro hx
      constructor
      · intro hmem
        rcases List.mem_append.1 hmem with hmem | hmem
        · rw [q2 hx] at hmem
          simp at hmem
        · exact p4 hmem
      · apply List.mem_append_left
        rw [q2 hx]
        simp
    refine ⟨flavour_caps (spectre_v2_select_mitigation cfg s).spectre_v2_enabled ++
      post_decision_caps s (spectre_v2_select_mitigation cfg s).spectre_v2_enabled,
      by rw [hcaps, h4, List.append_assoc], ha, ?_, ?_, ?_, hiff, ?_, ?_⟩
    · intro he hl
      exact ⟨hb he hl, hgeneric (hb he hl)⟩
    · intro he hl
      refine ⟨hamd he hl, ?_, ?_⟩
      · apply List.mem_append_left
        rw [q1 (hamd he hl)]
        simp
      · apply List.mem_append_left
        rw [q1 (hamd he hl)]
        simp
    · intro he
      exact ⟨hgen he, hgeneric (hgen he)⟩
    · intro hi
      exact ⟨hc hi, List.mem_append_left _ (f1 hi)⟩
    · intro hmem
      rcases List.mem_append.1 hmem with hmem | hmem
      · exact List.mem_append_left _ (f3 hmem)
      · exact absurd hmem p4

/-- C21 at concrete inputs, under a retpoline build whose compiler supports retpoline: an
affected AMD machine without a serializing `LFENCE`, booted with an empty command line,
ends in `SPECTRE_V2_RETPOLINE_GENERIC` with the forced capabilities
`X86_FEATURE_RETPOLINE`, `X86_FEATURE_RSB_CTXSW` and `X86_FEATURE_USE_IBPB`; an affected
AMD machine with a serializing `LFENCE`, booted with `spectre_v2=retpoline,amd`, ends in
`SPECTRE_V2_RETPOLINE_AMD` with `X86_FEATURE_RETPOLINE_AMD` and `X86_FEATURE_RETPOLINE`
forced first; an affected Intel machine booted with `spectre_v2=retpoline` ends in
`SPECTRE_V2_RETPOLINE_GENERIC`. -/
theorem C21_retpoline_flavour_selection_witness :
    (spectre_v2_select_mitigation cfgRetpoline amdNoLfence).spectre_v2_enabled =
      SPECTRE_V2_RETPOLINE_GENERIC ∧
    (spectre_v2_select_mitigation cfgRetpoline amdNoLfence).cpu_caps_set =
      [X86_FEATURE_RETPOLINE, X86_FEATURE_RSB_CTXSW, X86_FEATURE_USE_IBPB] ∧
    (spectre_v2_select_mitigation cfgRetpoline amdLfence).spectre_v2_enabled =
      SPECTRE_V2_RETPOLINE_AMD ∧
    (spectre_v2_select_mitigation cfgRetpoline amdLfence).cpu_caps_set =
      [X86_FEATURE_RETPOLINE_AMD, X86_FEATURE_RETPOLINE, X86_FEATURE_RSB_CTXSW,
        X86_FEATURE_USE_IBRS_FW] ∧
    (spectre_v2_select_mitigation cfgRetpoline retpolineArg).spectre_v2_enabled =
      SPECTRE_V2_RETPOLINE_GENERIC := by
  obtain ⟨_, _, _, hb, _, _, _, _, _⟩ :=
    C21_retpoline_flavour_selection cfgRetpoline amdNoLfence _ _ (by decide) (by decide)
      rfl rfl
  obtain ⟨_, _, _, _, hamd, _, _, _, _⟩ :=
    C21_retpoline_flavour_selection cfgRetpoline amdLfence _ _ (by decide) (by decide)
      rfl rfl
  obtain ⟨_, _, _, _, _, hgen, _, _, _⟩ :=
    C21_retpoline_flavour_selection cfgRetpoline retpolineArg _ _ (by decide) (by decide)
      rfl rfl
  exact ⟨(hb (by decide) (by decide)).1.trans (by decide), by decide,
    (hamd (by decide) (by decide)).1.trans (by decide), by decide,
    (hgen (by decide)).1.trans (by decide)⟩

theorem ssb_parse_cmdline_trace (s : State) :
    ∃ msgs : List String,
      (ssb_parse_cmdline s).1 = { s with trace := s.trace ++ msgs.map Event.printk } := by
  unfold ssb_parse_cmdline
  split
  · exact ⟨[], by simp⟩
  · simp only []
    split
    · exact ⟨[], by simp⟩
    · split
      · exact ⟨[_], rfl⟩
      · exact ⟨[], by simp⟩

theorem or_ssbd_and_ssbd (m : Nat) : (m ||| SPEC_CTRL_SSBD) &&& SPEC_CTRL_SSBD = SPEC_CTRL_SSBD := by
  apply Nat.eq_of_testBit_eq
  intro i
  rw [Nat.testBit_and, Nat.testBit_or]
  cases m.testBit i <;> cases SPEC_CTRL_SSBD.testBit i <;> rfl

theorem x86_amd_ssb_disable_eq (s : State) :
    x86_amd_ssb_disable s = { s with trace := s.trace ++ amd_ssb_disable_writes s } := by
  unfold x86_amd_ssb_disable amd_ssb_disable_writes
  simp only []
  split_ifs <;> simp [wrmsrl, emit]

theorem ssb_select_form (cfg : Kconfig) (s : State) :
    ∃ msgs : List String,
      __ssb_select_mitigation cfg s =
        if ssb_mapping_reached s = true then
          (if ssb_mode_of_cmd cfg (ssb_parse_cmdline s).2 = SPEC_STORE_BYPASS_DISABLE then
            (if ssbd_in_spec_ctrl s = true then
              { setup_force_cpu_cap s X86_FEATURE_SPEC_STORE_BYPASS_DISABLE with
                x86_spec_ctrl_mask := s.x86_spec_ctrl_mask ||| SPEC_CTRL_SSBD
                x86_spec_ctrl_base := s.x86_spec_ctrl_base ||| SPEC_CTRL_SSBD
                trace := s.trace ++ msgs.map Event.printk ++
                  [Event.wrmsrl Msr.MSR_IA32_SPEC_CTRL
                    (s.x86_spec_ctrl_base ||| SPEC_CTRL_SSBD)] }
            else
              { setup_force_cpu_cap s X86_FEATURE_SPEC_STORE_BYPASS_DISABLE with
                trace := s.trace ++ msgs.map Event.printk ++ amd_ssb_disable_writes s })
          else
            { s with
              x86_spec_ctrl_mask :=
                if ssbd_in_spec_ctrl s = true then s.x86_spec_ctrl_mask ||| SPEC_CTRL_SSBD
                else s.x86_spec_ctrl_mask
              trace := s.trace ++ msgs.map Event.printk },
            ssb_mode_of_cmd cfg (ssb_parse_cmdline s).2)
        else
          ({ s with trace := s.trace ++ msgs.map Event.printk }, SPEC_STORE_BYPASS_NONE) := by
  obtain ⟨msgs, ht⟩ := ssb_parse_cmdline_trace s
  by_cases hs : boot_cpu_has s X86_FEATURE_SSBD = true
  · refine ⟨msgs, ?_⟩
    unfold __ssb_select_mitigation ssb_mapping_reached
    simp only [ht]
    generalize (ssb_parse_cmdline s).2 = cmd
    by_cases hb : s.boot_cpu_data.x86_capability X86_BUG_SPEC_STORE_BYPASS = true <;>
      by_cases h1 : s.boot_cpu_data.x86_capability X86_FEATURE_SPEC_CTRL_SSBD = true <;>
      by_cases h2 : s.boot_cpu_data.x86_capability X86_FEATURE_AMD_SSBD = true <;>
      cases cmd <;>
      cases hc : cfg.CONFIG_SECCOMP <;>
      simp [hs, hb, h1, h2, hc, ssb_mode_of_cmd, boot_cpu_has_bug, boot_cpu_has,
        static_cpu_has, setup_force_cpu_cap, wrmsrl, emit, x86_amd_ssb_disable_eq,
        ssbd_in_spec_ctrl, amd_ssb_disable_writes] <;>
      simp_all [boot_cpu_has]
  · refine ⟨[], ?_⟩
    unfold __ssb_select_mitigation ssb_mapping_reached
    simp [hs]

/-- C23: let `__ssb_select_mitigation` return the mode `mode` and leave the state `r`.
The mask of `r` is the old mask with `SPEC_CTRL_SSBD` OR-ed in when the mapping step is
reached and `X86_FEATURE_SPEC_CTRL_SSBD` or `X86_FEATURE_AMD_SSBD` is present, and the old
mask otherwise; no bit of the mask is ever cleared. If `mode` is
`SPEC_STORE_BYPASS_DISABLE`, `X86_FEATURE_SPEC_STORE_BYPASS_DISABLE` is forced and, after
the diagnostics of the parser, exactly the following is written: with one of the two
capabilities, the base gets `SPEC_CTRL_SSBD` OR-ed in and the new base goes to
`MSR_IA32_SPEC_CTRL`; without them the base is unchanged and the writes are those of
`x86_amd_ssb_disable` (`SPEC_CTRL_SSBD` to the virtual register under
`X86_FEATURE_VIRT_SSBD`, else `x86_amd_ls_cfg_base | x86_amd_ls_cfg_ssbd_mask` to
`MSR_AMD64_LS_CFG` under `X86_FEATURE_LS_CFG_SSBD`, else nothing). For every other mode
the base and the forced capabilities are unchanged and the trace grows by diagnostics
only. -/
theorem C23_ssb_select_register_effects (cfg : Kconfig) (s r : State) (mode : ssb_mitigation)
    (hres : __ssb_select_mitigation cfg s = (r, mode)) :
    (r.x86_spec_ctrl_mask =
      if ssb_mapping_reached s = true ∧ ssbd_in_spec_ctrl s = true then
        s.x86_spec_ctrl_mask ||| SPEC_CTRL_SSBD
      else s.x86_spec_ctrl_mask) ∧
    (ssb_mapping_reached s = true → ssbd_in_spec_ctrl s = true →
      r.x86_spec_ctrl_mask &&& SPEC_CTRL_SSBD = SPEC_CTRL_SSBD) ∧
    (∀ i, s.x86_spec_ctrl_mask.testBit i = true → r.x86_spec_ctrl_mask.testBit i = true) ∧
    (mode = SPEC_STORE_BYPASS_DISABLE →
      r.cpu_caps_set = s.cpu_caps_set ++ [X86_FEATURE_SPEC_STORE_BYPASS_DISABLE] ∧
      ∃ msgs : List String,
        (ssbd_in_spec_ctrl s = true →
          r.x86_spec_ctrl_base = s.x86_spec_ctrl_base ||| SPEC_CTRL_SSBD ∧
          r.trace = s.trace ++ msgs.map Event.printk ++
            [Event.wrmsrl Msr.MSR_IA32_SPEC_CTRL r.x86_spec_ctrl_base]) ∧
        (ssbd_in_spec_ctrl s = false →
          r.x86_spec_ctrl_base = s.x86_spec_ctrl_base ∧
          r.trace = s.trace ++ msgs.map Event.printk ++
            (if boot_cpu_has s X86_FEATURE_VIRT_SSBD then
              [Event.wrmsrl Msr.MSR_AMD64_VIRT_SPEC_CTRL SPEC_CTRL_SSBD]
            else if boot_cpu_has s X86_FEATURE_LS_CFG_SSBD then
              [Event.wrmsrl Msr.MSR_AMD64_LS_CFG
                (s.x86_amd_ls_cfg_base ||| s.x86_amd_ls_cfg_ssbd_mask)]
            else []))) ∧
    (mode ≠ SPEC_STORE_BYPASS_DISABLE →
      r.x86_spec_ctrl_base = s.x86_spec_ctrl_base ∧
      r.cpu_caps_set = s.cpu_caps_set ∧
      printk_only s.trace r.trace) := by
  obtain ⟨msgs, hf⟩ := ssb_select_form cfg s
  rw [hres] at hf
  by_cases hreach : ssb_mapping_reached s = true
  · rw [if_pos hreach] at hf
    by_cases hm : ssb_mode_of_cmd cfg (ssb_parse_cmdline s).2 = SPEC_STORE_BYPASS_DISABLE
    · rw [if_pos hm] at hf
      by_cases hc : ssbd_in_spec_ctrl s = true
      · rw [if_pos hc] at hf
        obtain ⟨rfl, rfl⟩ := Prod.mk.inj hf
        refine ⟨by simp [hreach, hc], fun _ _ => or_ssbd_and_ssbd _, ?_, ?_, ?_⟩
        · intro i hi
          simp [Nat.testBit_or, hi]
        · intro _
          exact ⟨rfl, msgs, fun _ => ⟨rfl, rfl⟩, fun h => by simp [hc] at h⟩
        · intro hn
          exact absurd hm hn
      · rw [if_neg hc] at hf
        obtain ⟨rfl, rfl⟩ := Prod.mk.inj hf
        refine ⟨by simp [hreach, hc, setup_force_cpu_cap], fun _ h => absurd h hc, ?_, ?_, ?_⟩
        · intro i hi
          exact hi
        · intro _
          exact ⟨rfl, msgs, fun h => absurd h hc, fun _ => ⟨rfl, rfl⟩⟩
        · intro hn
          exact absurd hm hn
    · rw [if_neg hm] at hf
      obtain ⟨rfl, rfl⟩ := Prod.mk.inj hf
      refine ⟨by simp [hreach], ?_, ?_, fun h => absurd h hm, fun _ => ⟨rfl, rfl, msgs, rfl⟩⟩
      · intro _ hc
        simp only [hc, if_true]
        exact or_ssbd_and_ssbd _
      · intro i hi
        by_cases hc : ssbd_in_spec_ctrl s = true
        · simp [hc, Nat.testBit_or, hi]
        · simp [hc, hi]
  · rw [if_neg hreach] at hf
    obtain ⟨rfl, rfl⟩ := Prod.mk.inj hf
    refine ⟨by simp [hreach], fun h => absurd h hreach, fun i hi => hi,
      fun h => (by cases h), fun _ => ⟨rfl, rfl, msgs, rfl⟩⟩

/-- C23 at concrete inputs: on an affected machine with `X86_FEATURE_SPEC_CTRL_SSBD`,
booted with `spec_store_bypass_disable=on`, the mode is `SPEC_STORE_BYPASS_DISABLE`, mask
and base gain `SPEC_CTRL_SSBD` (mask 1 becomes 5, base 0 becomes 4), and 4 is written to
`MSR_IA32_SPEC_CTRL`; on an AMD machine with `X86_FEATURE_LS_CFG_SSBD` only, mask and base
stay 1 and 0 and `32 | 1024` is written to `MSR_AMD64_LS_CFG`. -/
theorem C23_ssb_select_register_effects_witness :
    (__ssb_select_mitigation cfgRetpoline ssbOn).2 = SPEC_STORE_BYPASS_DISABLE ∧
    (__ssb_select_mitigation cfgRetpoline ssbOn).1.x86_spec_ctrl_mask = 5 ∧
    (__ssb_select_mitigation cfgRetpoline ssbOn).1.x86_spec_ctrl_base = 4 ∧
    (__ssb_select_mitigation cfgRetpoline ssbOn).1.trace =
      [Event.wrmsrl Msr.MSR_IA32_SPEC_CTRL 4] ∧
    (__ssb_select_mitigation cfgRetpoline ssbOn).1.x86_spec_ctrl_mask &&& SPEC_CTRL_SSBD =
      SPEC_CTRL_SSBD ∧
    (__ssb_select_mitigation cfgRetpoline ssbOnLsCfg).1.x86_spec_ctrl_mask = 1 ∧
    (__ssb_select_mitigation cfgRetpoline ssbOnLsCfg).1.x86_spec_ctrl_base = 0 ∧
    (__ssb_select_mitigation cfgRetpoline ssbOnLsCfg).1.trace =
      [Event.wrmsrl Msr.MSR_AMD64_LS_CFG 1056] :=
  have h := C23_ssb_select_register_effects cfgRetpoline ssbOn
    (__ssb_select_mitigation cfgRetpoline ssbOn).1
    (__ssb_select_mitigation cfgRetpoline ssbOn).2 rfl
  ⟨by decide, by decide, by decide, by decide, h.2.1 (by decide) (by decide), by decide,
    by decide, by decide⟩

/-! ## C24 -/

theorem virt_events_wrmsrl_mem (s : State) (g v : Nat) (sg : Bool) (m : Msr) (x : Nat)
    (h : Event.wrmsrl m x ∈ virt_events s g v sg) :
    m = Msr.MSR_IA32_SPEC_CTRL ∧
      x = if sg then virt_guestval s g else virt_hostval s := by
  unfold virt_events at h
  rw [List.mem_append] at h
  rcases h with h | h
  · split_ifs at h <;> simp at h
    all_goals
      obtain ⟨rfl, rfl⟩ := h
      simp [*]
  · split_ifs at h <;> simp at h

theorem virt_events_update_mem (s : State) (g v : Nat) (sg : Bool) (a : Bool)
    (h : Event.speculation_ctrl_update a ∈ virt_events s g v sg) :
    a = if sg then ssbd_spec_ctrl_to_tif (v &&& SPEC_CTRL_SSBD)
      else ssbd_spec_ctrl_to_tif
        (if static_cpu_has s X86_FEATURE_SPEC_STORE_BYPASS_DISABLE then SPEC_CTRL_SSBD
          else ssbd_tif_to_spec_ctrl (s.tasks s.current)) := by
  unfold virt_events at h
  rw [List.mem_append] at h
  rcases h with h | h
  · split_ifs at h <;> simp at h
  · split_ifs at h <;> simp at h
    all_goals
      subst h
      simp [*]

theorem virt_events_filter_update (s : State) (g1 v1 g2 v2 : Nat) (sg : Bool)
    (h : v1 &&& SPEC_CTRL_SSBD = v2 &&& SPEC_CTRL_SSBD) :
    (virt_events s g1 v1 sg).filter is_speculation_ctrl_update =
      (virt_events s g2 v2 sg).filter is_speculation_ctrl_update := by
  unfold virt_events
  rw [List.filter_append, List.filter_append, h]
  congr 1
  split_ifs <;> rfl

theorem virt_guestval_outside_mask (s : State) (g1 g2 i : Nat)
    (hi : s.x86_spec_ctrl_mask.testBit i = false) :
    (virt_guestval s g1).testBit i = (virt_guestval s g2).testBit i := by
  unfold virt_guestval
  simp [Nat.testBit_or, Nat.testBit_and, hi]

/-- C24: for one host state `s` and two pairs of guest values, let `host1`, `host2` be
the events of the two calls of `x86_virt_spec_ctrl` with `setguest = false` and `guest1`,
`guest2` those of the two calls with `setguest = true`. Without `setguest`, every register
write of either run goes to `MSR_IA32_SPEC_CTRL` with the value `virt_hostval s`, so the
two runs write the same value, and every `speculation_ctrl_update` of either run passes
the flag computed from the host state alone. With `setguest`, the values written by the
two runs agree on every bit that is not in `x86_spec_ctrl_mask`. With either setting, if
the two values of `guest_virt_spec_ctrl` agree on the bit `SPEC_CTRL_SSBD`, the two runs
make the same calls of `speculation_ctrl_update`, whatever `guest_spec_ctrl` is. -/
theorem C24_guest_values_do_not_reach_host_value (s : State) (g1 v1 g2 v2 : Nat) :
    ∃ host1 host2 guest1 guest2 : List Event,
      (x86_virt_spec_ctrl s g1 v1 false).trace = s.trace ++ host1 ∧
      (x86_virt_spec_ctrl s g2 v2 false).trace = s.trace ++ host2 ∧
      (x86_virt_spec_ctrl s g1 v1 true).trace = s.trace ++ guest1 ∧
      (x86_virt_spec_ctrl s g2 v2 true).trace = s.trace ++ guest2 ∧
      (∀ m1 m2 x y, Event.wrmsrl m1 x ∈ host1 → Event.wrmsrl m2 y ∈ host2 →
        m1 = Msr.MSR_IA32_SPEC_CTRL ∧ m2 = Msr.MSR_IA32_SPEC_CTRL ∧ x = y ∧
          x = virt_hostval s) ∧
      (∀ a b, Event.speculation_ctrl_update a ∈ host1 →
        Event.speculation_ctrl_update b ∈ host2 →
        a = b ∧
          a = ssbd_spec_ctrl_to_tif
            (if static_cpu_has s X86_FEATURE_SPEC_STORE_BYPASS_DISABLE then SPEC_CTRL_SSBD
              else ssbd_tif_to_spec_ctrl (s.tasks s.current))) ∧
      (∀ m1 m2 x y, Event.wrmsrl m1 x ∈ guest1 → Event.wrmsrl m2 y ∈ guest2 →
        m1 = Msr.MSR_IA32_SPEC_CTRL ∧ m2 = Msr.MSR_IA32_SPEC_CTRL ∧
          ∀ i, s.x86_spec_ctrl_mask.testBit i = false → x.testBit i = y.testBit i) ∧
      (v1 &&& SPEC_CTRL_SSBD = v2 &&& SPEC_CTRL_SSBD →
        host1.filter is_speculation_ctrl_update = host2.filter is_speculation_ctrl_update ∧
        guest1.filter is_speculation_ctrl_update =
          guest2.filter is_speculation_ctrl_update) := by
  refine ⟨virt_events s g1 v1 false, virt_events s g2 v2 false, virt_events s g1 v1 true,
    virt_events s g2 v2 true, ?_, ?_, ?_, ?_, ?_, ?_, ?_, ?_⟩
  · rw [x86_virt_spec_ctrl_eq]
  · rw [x86_virt_spec_ctrl_eq]
  · rw [x86_virt_spec_ctrl_eq]
  · rw [x86_virt_spec_ctrl_eq]
  · intro m1 m2 x y hx hy
    obtain ⟨hm1, hx1⟩ := virt_events_wrmsrl_mem s g1 v1 false m1 x hx
    obtain ⟨hm2, hy1⟩ := virt_events_wrmsrl_mem s g2 v2 false m2 y hy
    simp only [Bool.false_eq_true, if_false] at hx1 hy1
    exact ⟨hm1, hm2, hx1.trans hy1.symm, hx1⟩
  · intro a b ha hb
    have ha1 := virt_events_update_mem s g1 v1 false a ha
    have hb1 := virt_events_update_mem s g2 v2 false b hb
    simp only [Bool.false_eq_true, if_false] at ha1 hb1
    exact ⟨ha1.trans hb1.symm, ha1⟩
  · intro m1 m2 x y hx hy
    obtain ⟨hm1, hx1⟩ := virt_events_wrmsrl_mem s g1 v1 true m1 x hx
    obtain ⟨hm2, hy1⟩ := virt_events_wrmsrl_mem s g2 v2 true m2 y hy
    simp only [if_true] at hx1 hy1
    refine ⟨hm1, hm2, ?_⟩
    intro i hi
    rw [hx1, hy1]
    exact virt_guestval_outside_mask s g1 g2 i hi
  · intro h
    exact ⟨virt_events_filter_update s g1 v1 g2 v2 false h,
      virt_events_filter_update s g1 v1 g2 v2 true h⟩

/-- C24 at a concrete input: on a host with base `SPEC_CTRL_STIBP`, mask `SPEC_CTRL_IBRS`
and store-bypass disable in `MSR_AMD64_LS_CFG`, the guest pairs `(1, 4)` and `(255, 7)`
both make the host-side call write 2 and pass a clear thread flag, and both make the
guest-side call write 3 and pass a set thread flag. -/
theorem C24_guest_values_do_not_reach_host_value_witness :
    (x86_virt_spec_ctrl virtHostLsCfg 1 4 false).trace =
      [Event.wrmsrl Msr.MSR_IA32_SPEC_CTRL 2, Event.speculation_ctrl_update false] ∧
    (x86_virt_spec_ctrl virtHostLsCfg 255 7 false).trace =
      [Event.wrmsrl Msr.MSR_IA32_SPEC_CTRL 2, Event.speculation_ctrl_update false] ∧
    (x86_virt_spec_ctrl virtHostLsCfg 1 4 true).trace =
      [Event.wrmsrl Msr.MSR_IA32_SPEC_CTRL 3, Event.speculation_ctrl_update true] ∧
    (x86_virt_spec_ctrl virtHostLsCfg 255 7 true).trace =
      [Event.wrmsrl Msr.MSR_IA32_SPEC_CTRL 3, Event.speculation_ctrl_update true] ∧
    (∀ x y,
      Event.wrmsrl Msr.MSR_IA32_SPEC_CTRL x ∈
          (x86_virt_spec_ctrl virtHostLsCfg 1 4 false).trace →
        Event.wrmsrl Msr.MSR_IA32_SPEC_CTRL y ∈
          (x86_virt_spec_ctrl virtHostLsCfg 255 7 false).trace →
        x = y) := by
  obtain ⟨host1, host2, _, _, e1, e2, _, _, hw, _⟩ :=
    C24_guest_values_do_not_reach_host_value virtHostLsCfg 1 4 255 7
  refine ⟨by decide, by decide, by decide, by decide, ?_⟩
  intro x y hx hy
  rw [e1] at hx
  rw [e2] at hy
  exact (hw _ _ x y hx hy).2.2.1

end X86Bugs
